import Mathlib

/-!
# CLU, the OpenCL utility library: platform and device cache

A shallow embedding of `clu.c` (with the types of `include/CL/clu.h`) and the
properties of its lookup tables, platform cache, lookups and hydration.

Conventions of the embedding

* `cl_int`, `cl_uint`, `size_t` values are `Int`/`Nat`; where the C code
  converts between widths the conversion is written out with `%`. The data
  model is LP64: `size_t`, `unsigned long` and pointers have 64 bits.
* A pointer into the platform cache (`clu_pfmptr`) is `Option Nat`: `none` is
  `NULL`, `some i` is `_platforms + i`.
* A function that returns through `errcode_ret` yields the pair of the returned
  handle and the code that `_RETURN` stores in `*errcode_ret`.
* Undefined behaviour of the C code (a read through `NULL`, a read outside an
  array, a read of a buffer that was never filled) is the outer `none` of an
  `Option` result.
-/

namespace CLU

/-! ## Error codes of `CL/cl.h` used by the library -/

def CL_SUCCESS : Int := 0
def CL_OUT_OF_HOST_MEMORY : Int := -6
def CL_INVALID_VALUE : Int := -30
def CL_INVALID_PLATFORM : Int := -32
def CL_INVALID_DEVICE : Int := -33

/-! ## `cluGetErrorString` -/

/-- The table `error_strings` of `clu.c`; `none` is a `NULL` slot. -/
def error_strings : List (Option String) :=
  [ some "no error",
    some "device not found",
    some "device not available",
    some "compiler not available",
    some "memory object allocation failure",
    some "out of resources",
    some "out of host memory",
    some "profiling information not available",
    some "memory copy overlap",
    some "image format mismatch",
    some "image format not supported",
    some "build program failure",
    some "map failure",
    some "misaligned sub-buffer offset",
    some "exec status error for events in wait list",
    none, none, none, none, none,
    none, none, none, none, none,
    none, none, none, none, none,
    some "invalid value",
    some "invalid device type",
    some "invalid platform",
    some "invalid device",
    some "invalid context",
    some "invalid queue properties",
    some "invalid command queue",
    some "invalid host pointer",
    some "invalid memory object",
    some "invalid image format descriptor",
    some "invalid image size",
    some "invalid sampler",
    some "invalid binary",
    some "invalid build options",
    some "invalid program",
    some "invalid program executable",
    some "invalid kernel name",
    some "invalid kernel definition",
    some "invalid kernel",
    some "invalid argument index",
    some "invalid argument value",
    some "invalid argument size",
    some "invalid kernel arguments",
    some "invalid work dimension",
    some "invalid workgroup size",
    some "invalid work-item size",
    some "invalid global offset",
    some "invalid event wait list",
    some "invalid event",
    some "invalid operation",
    some "invalid GL object",
    some "invalid buffer size",
    some "invalid MIP level",
    some "invalid global work size",
    some "invalid property",
    some "unknown error" ]

def error_string_count : Nat := error_strings.length

def unknown_error_index : Nat := error_string_count - 1

/-- Two's complement wrap of an integer into the range of `cl_int`. -/
def wrap_cl_int (x : Int) : Int := (x + 2 ^ 31) % 2 ^ 32 - 2 ^ 31

/-- Conversion of a signed integer to `size_t` (64 bits). -/
def to_size_t (x : Int) : Nat := (x % 2 ^ 64).toNat

/-- The function `cluGetErrorString`: `size_t index = -error`, clamped to
`unknown_error_index`, then the table entry, or the last entry when the slot
is `NULL`. The outer `none` is a read outside the table, the inner `none` a
`NULL` result. -/
def cluGetErrorString (error : Int) : Option (Option String) :=
  let index : Nat := to_size_t (wrap_cl_int (-error))
  let index : Nat := if index > unknown_error_index then unknown_error_index else index
  match error_strings[index]? with
  | none => none
  | some (some s) => some (some s)
  | some none => error_strings[unknown_error_index]?

/-! ## The external OpenCL driver -/

/-- The sentinel `EMPTY_CACHE`, `(cl_uint)-1`. -/
def EMPTY_CACHE : Nat := 2 ^ 32 - 1

/-- The platform attributes `CL_PLATFORM_*` queried by `_cluGetPlatformInfo`. -/
inductive cl_platform_info
  | PROFILE | VERSION | NAME | VENDOR | EXTENSIONS
deriving DecidableEq

/-- The device attributes queried by `_cluGetDeviceInfo`: `CL_DEVICE_*`, and
`CL_DRIVER_VERSION`. -/
inductive cl_device_info
  | TYPE | VENDOR_ID | MAX_COMPUTE_UNITS | MAX_WORK_ITEM_DIMENSIONS
  | MAX_WORK_GROUP_SIZE | MAX_WORK_ITEM_SIZES
  | PREFERRED_VECTOR_WIDTH_CHAR | PREFERRED_VECTOR_WIDTH_SHORT
  | PREFERRED_VECTOR_WIDTH_INT | PREFERRED_VECTOR_WIDTH_LONG
  | PREFERRED_VECTOR_WIDTH_FLOAT | PREFERRED_VECTOR_WIDTH_DOUBLE
  | MAX_CLOCK_FREQUENCY | ADDRESS_BITS | MAX_READ_IMAGE_ARGS
  | MAX_WRITE_IMAGE_ARGS | MAX_MEM_ALLOC_SIZE
  | IMAGE2D_MAX_WIDTH | IMAGE2D_MAX_HEIGHT
  | IMAGE3D_MAX_WIDTH | IMAGE3D_MAX_HEIGHT | IMAGE3D_MAX_DEPTH
  | IMAGE_SUPPORT | MAX_PARAMETER_SIZE | MAX_SAMPLERS
  | MEM_BASE_ADDR_ALIGN | MIN_DATA_TYPE_ALIGN_SIZE | SINGLE_FP_CONFIG
  | GLOBAL_MEM_CACHE_TYPE | GLOBAL_MEM_CACHELINE_SIZE
  | GLOBAL_MEM_CACHE_SIZE | GLOBAL_MEM_SIZE
  | MAX_CONSTANT_BUFFER_SIZE | MAX_CONSTANT_ARGS
  | LOCAL_MEM_TYPE | LOCAL_MEM_SIZE | ERROR_CORRECTION_SUPPORT
  | PROFILING_TIMER_RESOLUTION | ENDIAN_LITTLE | AVAILABLE
  | COMPILER_AVAILABLE | EXECUTION_CAPABILITIES | QUEUE_PROPERTIES
  | NAME | VENDOR | DRIVER_VERSION | PROFILE | VERSION | EXTENSIONS
  | PLATFORM | PREFERRED_VECTOR_WIDTH_HALF | HOST_UNIFIED_MEMORY
  | NATIVE_VECTOR_WIDTH_CHAR | NATIVE_VECTOR_WIDTH_SHORT
  | NATIVE_VECTOR_WIDTH_INT | NATIVE_VECTOR_WIDTH_LONG
  | NATIVE_VECTOR_WIDTH_FLOAT | NATIVE_VECTOR_WIDTH_DOUBLE
  | NATIVE_VECTOR_WIDTH_HALF | OPENCL_C_VERSION
deriving DecidableEq

/-- One call of the library into the OpenCL driver, with the arguments the
library controls: for the enumerations `num_entries` and whether a list buffer
is passed (for `clGetDeviceIDs` also whether the count output is
non-`NULL`), for the attribute queries `param_value_size` and whether a value
buffer is passed. Identities (`cl_platform_id`, `cl_device_id`) and the device
type bitfield are numbers. -/
inductive Call
  | clGetPlatformIDs (num_entries : Nat) (platforms : Bool)
  | clGetPlatformInfo (platform : Nat) (param : cl_platform_info)
      (param_value_size : Nat) (param_value : Bool)
  | clGetDeviceIDs (platform : Nat) (device_type : Nat) (num_entries : Nat) (devices : Bool)
      (num_devices : Bool)
  | clGetDeviceInfo (device : Nat) (param : cl_device_info)
      (param_value_size : Nat) (param_value : Bool)
deriving DecidableEq

/-- What an enumeration call answers: the returned code, the count it stores
in `*num_platforms` / `*num_devices`, and the identities it has to offer for
the list buffer. -/
structure IDsReply where
  error : Int
  num : Nat
  ids : List Nat
deriving DecidableEq

/-- What an attribute query answers: the returned code, the size it stores in
`*param_value_size_ret`, and the value it stores in the value buffer, read
as a scalar, as a string or as an array of `size_t` according to the field the
library passes. -/
structure InfoReply where
  error : Int
  size_ret : Nat
  scalar : Nat
  text : List Char
  array : List Nat
deriving DecidableEq

/-- The external collaborators of the library: the OpenCL driver and the C
allocator. Each answer may depend on the whole history of driver calls made so
far (first argument), so the driver is an arbitrary deterministic state
machine. A call that returns an error code stores nothing in its outputs.
`alloc trace k bytes` tells whether the `k`-th allocation of the run, of
`bytes` bytes, succeeds (`calloc`/`malloc` return non-`NULL`). -/
structure Driver where
  clGetPlatformIDs : List Call → Nat → Bool → IDsReply
  clGetPlatformInfo : List Call → Nat → cl_platform_info → Nat → Bool → InfoReply
  clGetDeviceIDs : List Call → Nat → Nat → Nat → Bool → Bool → IDsReply
  clGetDeviceInfo : List Call → Nat → cl_device_info → Nat → Bool → InfoReply
  alloc : List Call → Nat → Nat → Bool

/-- The part of the program state outside the caches: the driver calls made
so far, oldest first, and the number of allocations made so far. -/
structure World where
  trace : List Call
  allocs : Nat
deriving DecidableEq

/-- Record a driver call. -/
def World.log (w : World) (c : Call) : World :=
  { w with trace := w.trace ++ [c] }

/-- Record an allocation. -/
def World.bump (w : World) : World :=
  { w with allocs := w.allocs + 1 }

/-! ## Records of `clu.h` -/

/-- A `const char *` field of a record: `NULL`, a buffer obtained from
`malloc` and not filled yet, or a buffer holding a string. -/
inductive CharPtr
  | NULL
  | uninit (size : Nat)
  | text (s : List Char)
deriving DecidableEq

/-- The record `struct clu_device`. `pinfo` is the index of the owning
platform in `_platforms` (`none` is `NULL`); `max_work_item_sizes` is `none`
for `NULL`. -/
structure clu_device where
  id : Nat
  pinfo : Option Nat
  has_info : Bool
  type : Nat
  vendor_id : Nat
  max_compute_units : Nat
  max_work_item_dimensions : Nat
  max_work_group_size : Nat
  max_work_item_sizes : Option (List Nat)
  preferred_vector_width_char : Nat
  preferred_vector_width_short : Nat
  preferred_vector_width_int : Nat
  preferred_vector_width_long : Nat
  preferred_vector_width_float : Nat
  preferred_vector_width_double : Nat
  max_clock_frequency : Nat
  address_bits : Nat
  max_read_image_args : Nat
  max_write_image_args : Nat
  max_mem_alloc_size : Nat
  image2d_max_width : Nat
  image2d_max_height : Nat
  image3d_max_width : Nat
  image3d_max_height : Nat
  image3d_max_depth : Nat
  image_support : Nat
  max_parameter_size : Nat
  max_samplers : Nat
  mem_base_addr_align : Nat
  min_data_type_align_size : Nat
  single_fp_config : Nat
  global_mem_cache_type : Nat
  global_mem_cacheline_size : Nat
  global_mem_cache_size : Nat
  global_mem_size : Nat
  max_constant_buffer_size : Nat
  max_constant_args : Nat
  local_mem_type : Nat
  local_mem_size : Nat
  error_correction_support : Nat
  profiling_timer_resolution : Nat
  endian_little : Nat
  available : Nat
  compiler_available : Nat
  execution_capabilities : Nat
  queue_properties : Nat
  name : CharPtr
  vendor : CharPtr
  driver_version : CharPtr
  profile : CharPtr
  version : CharPtr
  extensions : CharPtr
  platform : Nat
  _reserved1 : Nat
  _reserved2 : Nat
  preferred_vector_width_half : Nat
  host_unified_memory : Nat
  native_vector_width_char : Nat
  native_vector_width_short : Nat
  native_vector_width_int : Nat
  native_vector_width_long : Nat
  native_vector_width_float : Nat
  native_vector_width_double : Nat
  native_vector_width_half : Nat
  opencl_c_version : CharPtr
deriving DecidableEq

/-- The record `struct clu_platform`; `devices` is `none` for `NULL`. -/
structure clu_platform where
  id : Nat
  has_info : Bool
  profile : CharPtr
  version : CharPtr
  name : CharPtr
  vendor : CharPtr
  extensions : CharPtr
  num_devices : Nat
  devices : Option (List clu_device)
deriving DecidableEq

/-- A `clu_platform` as `calloc` yields it: every byte zero. -/
def clu_platform.zero : clu_platform :=
  { id := 0, has_info := false, profile := .NULL, version := .NULL, name := .NULL,
    vendor := .NULL, extensions := .NULL, num_devices := 0, devices := none }

/-- The program state: the two static variables of `clu.c`, `_num_platforms`
and `_platforms` (`none` is `NULL`), and the world outside them. -/
structure State where
  _num_platforms : Nat
  _platforms : Option (List clu_platform)
  world : World
deriving DecidableEq

/-- The state at program start: `_num_platforms = EMPTY_CACHE`,
`_platforms = NULL`, nothing called yet. -/
def State.init : State :=
  { _num_platforms := EMPTY_CACHE, _platforms := none, world := { trace := [], allocs := 0 } }

/-! ## Platform enumeration -/

/-- Where the `num_platforms` argument of `cluGetPlatformIDs` points: `NULL`,
a variable of the caller, or the static `_num_platforms` itself, which is what
`_cluInitPlatformCache` passes. -/
inductive NumPtr
  | null | user | cache
deriving DecidableEq

/-- What `cluGetPlatformIDs` hands back: the returned code, what it stored in
`*platforms` (`none`: nothing stored, `some none`: `NULL`, `some (some l)`: a
fresh array holding `l`) and the final value of `*num_platforms` (`none`:
nothing stored). -/
structure PlatformIDs where
  error : Int
  platforms : Option (Option (List Nat))
  num_platforms : Option Nat
deriving DecidableEq

/-- The driver fills the first entries of a buffer: `vals` over the front of
`buf`, the rest of `buf` untouched. -/
def overwrite {α : Type} (buf vals : List α) : List α :=
  (vals ++ buf.drop vals.length).take buf.length

/-- The second half of `cluGetPlatformIDs`, from `if (platforms == NULL)` on:
at this point `*num_platforms` and `_num_platforms` hold the same value and
`error` is `CL_SUCCESS`. -/
def cluGetPlatformIDs_list (drv : Driver) (s : State) (platforms : Bool)
    (num_platforms : NumPtr) : Option (PlatformIDs × State) :=
  let n := s._num_platforms
  if ¬ platforms then
    some ({ error := CL_SUCCESS, platforms := none, num_platforms := some n }, s)
  else if n = 0 then
    some ({ error := CL_SUCCESS, platforms := some none, num_platforms := some n }, s)
  else
    -- *platforms = NALLOC(_num_platforms, cl_platform_id)
    let s2 : State := { s with world := s.world.bump }
    if ¬ drv.alloc s.world.trace s.world.allocs (n * 8) then
      some ({ error := CL_OUT_OF_HOST_MEMORY, platforms := some none,
              num_platforms := some n }, s2)
    else
      match s._platforms with
      | some arr =>
        -- (*platforms)[i] = _platforms[i].id for i < _num_platforms
        if arr.length < n then none
        else
          some ({ error := CL_SUCCESS,
                  platforms := some (some ((arr.take n).map (fun p => p.id))),
                  num_platforms := some n }, s2)
      | none =>
        -- _platforms = NALLOC(_num_platforms, clu_platform)
        let s3 : State := { s2 with world := s2.world.bump }
        if ¬ drv.alloc s2.world.trace s2.world.allocs (n * 72) then
          some ({ error := CL_OUT_OF_HOST_MEMORY,
                  platforms := some (some (List.replicate n 0)),
                  num_platforms := some n }, s3)
        else
          let r := drv.clGetPlatformIDs s3.world.trace n true
          let s4 : State := { s3 with world := s3.world.log (Call.clGetPlatformIDs n true) }
          if r.error ≠ CL_SUCCESS then
            some ({ error := r.error, platforms := some none, num_platforms := some n }, s4)
          else
            let buf := overwrite (List.replicate n 0) (r.ids.take n)
            let written := r.num % 2 ^ 32
            -- the store to `*num_platforms` reaches `_num_platforms` when they alias
            let n' := if num_platforms = NumPtr.cache then written else n
            -- _platforms[i].id = (*platforms)[i] for i < _num_platforms
            if n' > n then none
            else
              some ({ error := CL_SUCCESS, platforms := some (some buf),
                      num_platforms := some written },
                    { s4 with
                      _num_platforms := n'
                      _platforms := some
                        ((buf.take n').map (fun i => { clu_platform.zero with id := i })
                          ++ List.replicate (n - n') clu_platform.zero) })

/-- The function `cluGetPlatformIDs`. `platforms` tells whether the list
output is non-`NULL`. -/
def cluGetPlatformIDs (drv : Driver) (s : State) (platforms : Bool) (num_platforms : NumPtr) :
    Option (PlatformIDs × State) :=
  if num_platforms = NumPtr.null then
    some ({ error := CL_INVALID_VALUE, platforms := none, num_platforms := none }, s)
  else if s._num_platforms < EMPTY_CACHE then
    -- *num_platforms = _num_platforms
    cluGetPlatformIDs_list drv s platforms num_platforms
  else
    let r0 := drv.clGetPlatformIDs s.world.trace 0 false
    let s0 : State := { s with world := s.world.log (Call.clGetPlatformIDs 0 false) }
    if r0.error = CL_SUCCESS then
      -- _num_platforms = *num_platforms
      cluGetPlatformIDs_list drv { s0 with _num_platforms := r0.num % 2 ^ 32 } platforms
        num_platforms
    else
      some ({ error := r0.error, platforms := none, num_platforms := none }, s0)

/-- The function `_cluInitPlatformCache`. -/
def _cluInitPlatformCache (drv : Driver) (s : State) : Option (Int × State) :=
  if s._num_platforms = EMPTY_CACHE then
    match cluGetPlatformIDs drv s true NumPtr.cache with
    | none => none
    | some (r, s') => some (r.error, s')
  else
    some (CL_SUCCESS, s)

/-! ## Platform hydration -/

/-- The function `_cluReleasePlatformInfo`: `free` each of the five strings of
the record and set the field to `NULL`. No function of `clu.c` calls it. -/
def _cluReleasePlatformInfo (pinfo : clu_platform) : clu_platform :=
  { pinfo with
    extensions := CharPtr.NULL, vendor := CharPtr.NULL, name := CharPtr.NULL,
    version := CharPtr.NULL, profile := CharPtr.NULL }

/-- The macro `GET_INFO` of `_cluGetPlatformInfo`: ask the size, allocate,
ask the value. `set` stores into the field named by the macro argument. -/
def PLATFORM_GET_INFO (drv : Driver) (param : cl_platform_info)
    (set : clu_platform → CharPtr → clu_platform) (w : World) (pinfo : clu_platform) :
    Int × clu_platform × World :=
  let r1 := drv.clGetPlatformInfo w.trace pinfo.id param 0 false
  let w1 := w.log (Call.clGetPlatformInfo pinfo.id param 0 false)
  if r1.error ≠ 0 then (r1.error, pinfo, w1)
  else
    let data_size := r1.size_ret % 2 ^ 64
    let w2 := w1.bump
    if ¬ drv.alloc w1.trace w1.allocs data_size then
      (CL_OUT_OF_HOST_MEMORY, set pinfo CharPtr.NULL, w2)
    else
      let r2 := drv.clGetPlatformInfo w2.trace pinfo.id param data_size true
      let w3 := w2.log (Call.clGetPlatformInfo pinfo.id param data_size true)
      if r2.error ≠ 0 then (r2.error, set pinfo (CharPtr.uninit data_size), w3)
      else (0, set pinfo (CharPtr.text r2.text), w3)

/-- Run a sequence of steps on a record, stopping at the first step that
returns a non-zero code (`if (error) return error;`). -/
def runSteps {α : Type} : List (World → α → Int × α × World) → World → α → Int × α × World
  | [], w, a => (0, a, w)
  | f :: rest, w, a =>
    let r := f w a
    if r.1 ≠ 0 then r else runSteps rest r.2.2 r.2.1

/-- The five `GET_INFO` lines of `_cluGetPlatformInfo`, in order. -/
def platformSteps (drv : Driver) : List (World → clu_platform → Int × clu_platform × World) :=
  [ PLATFORM_GET_INFO drv cl_platform_info.PROFILE (fun p v => { p with profile := v }),
    PLATFORM_GET_INFO drv cl_platform_info.VERSION (fun p v => { p with version := v }),
    PLATFORM_GET_INFO drv cl_platform_info.NAME (fun p v => { p with name := v }),
    PLATFORM_GET_INFO drv cl_platform_info.VENDOR (fun p v => { p with vendor := v }),
    PLATFORM_GET_INFO drv cl_platform_info.EXTENSIONS (fun p v => { p with extensions := v }) ]

/-- The function `_cluGetPlatformInfo`, on the record `*pinfo`. -/
def _cluGetPlatformInfo (drv : Driver) (w : World) (pinfo : clu_platform) :
    Int × clu_platform × World :=
  if pinfo.has_info then (CL_SUCCESS, pinfo, w)
  else
    let r := runSteps (platformSteps drv) w pinfo
    if r.1 ≠ 0 then r
    else (r.1, { r.2.1 with has_info := true }, r.2.2)

/-! ## Device hydration -/

/-- The macro `GET_INFO` of `_cluGetDeviceInfo`: one query straight into a
scalar field of `size` bytes (`sizeof(dinfo->field)`). -/
def DEVICE_GET_INFO (drv : Driver) (param : cl_device_info) (size : Nat)
    (set : clu_device → Nat → clu_device) (w : World) (dinfo : clu_device) :
    Int × clu_device × World :=
  let r := drv.clGetDeviceInfo w.trace dinfo.id param size true
  let w1 := w.log (Call.clGetDeviceInfo dinfo.id param size true)
  if r.error ≠ 0 then (r.error, dinfo, w1)
  else (0, set dinfo (r.scalar % 2 ^ (8 * size)), w1)

/-- The macro `GET_STRING_` of `_cluGetDeviceInfo`: ask the size, allocate,
ask the value. -/
def DEVICE_GET_STRING (drv : Driver) (param : cl_device_info)
    (set : clu_device → CharPtr → clu_device) (w : World) (dinfo : clu_device) :
    Int × clu_device × World :=
  let r1 := drv.clGetDeviceInfo w.trace dinfo.id param 0 false
  let w1 := w.log (Call.clGetDeviceInfo dinfo.id param 0 false)
  if r1.error ≠ 0 then (r1.error, dinfo, w1)
  else
    let data_size := r1.size_ret % 2 ^ 64
    let w2 := w1.bump
    if ¬ drv.alloc w1.trace w1.allocs data_size then
      (CL_OUT_OF_HOST_MEMORY, set dinfo CharPtr.NULL, w2)
    else
      let r2 := drv.clGetDeviceInfo w2.trace dinfo.id param data_size true
      let w3 := w2.log (Call.clGetDeviceInfo dinfo.id param data_size true)
      if r2.error ≠ 0 then (r2.error, set dinfo (CharPtr.uninit data_size), w3)
      else (0, set dinfo (CharPtr.text r2.text), w3)

/-- Lines 409 to 414 of `clu.c`: the array `max_work_item_sizes`, allocated
with `max_work_item_dimensions` zeroed entries and then filled by one query
of `sizeof(size_t) * max_work_item_dimensions` bytes. -/
def DEVICE_GET_WORK_ITEM_SIZES (drv : Driver) (w : World) (dinfo : clu_device) :
    Int × clu_device × World :=
  let dims := dinfo.max_work_item_dimensions
  let w1 := w.bump
  if ¬ drv.alloc w.trace w.allocs (dims * 8) then
    (CL_OUT_OF_HOST_MEMORY, { dinfo with max_work_item_sizes := none }, w1)
  else
    let data_size := 8 * dims
    let r := drv.clGetDeviceInfo w1.trace dinfo.id cl_device_info.MAX_WORK_ITEM_SIZES
      data_size true
    let w2 := w1.log (Call.clGetDeviceInfo dinfo.id cl_device_info.MAX_WORK_ITEM_SIZES
      data_size true)
    let zeros := List.replicate dims 0
    if r.error ≠ 0 then (r.error, { dinfo with max_work_item_sizes := some zeros }, w2)
    else
      let sizes := overwrite zeros ((r.array.take dims).map (fun v => v % 2 ^ 64))
      (0, { dinfo with max_work_item_sizes := some sizes }, w2)

/-- The query lines of `_cluGetDeviceInfo`, in order, each with the size of
the field it fills. -/
def deviceSteps (drv : Driver) : List (World → clu_device → Int × clu_device × World) :=
  [ DEVICE_GET_INFO drv .TYPE 8 (fun d v => { d with type := v }),
    DEVICE_GET_INFO drv .VENDOR_ID 4 (fun d v => { d with vendor_id := v }),
    DEVICE_GET_INFO drv .MAX_COMPUTE_UNITS 4 (fun d v => { d with max_compute_units := v }),
    DEVICE_GET_INFO drv .MAX_WORK_ITEM_DIMENSIONS 4
      (fun d v => { d with max_work_item_dimensions := v }),
    DEVICE_GET_INFO drv .MAX_WORK_GROUP_SIZE 8 (fun d v => { d with max_work_group_size := v }),
    DEVICE_GET_WORK_ITEM_SIZES drv,
    DEVICE_GET_INFO drv .PREFERRED_VECTOR_WIDTH_CHAR 4
      (fun d v => { d with preferred_vector_width_char := v }),
    DEVICE_GET_INFO drv .PREFERRED_VECTOR_WIDTH_SHORT 4
      (fun d v => { d with preferred_vector_width_short := v }),
    DEVICE_GET_INFO drv .PREFERRED_VECTOR_WIDTH_INT 4
      (fun d v => { d with preferred_vector_width_int := v }),
    DEVICE_GET_INFO drv .PREFERRED_VECTOR_WIDTH_LONG 4
      (fun d v => { d with preferred_vector_width_long := v }),
    DEVICE_GET_INFO drv .PREFERRED_VECTOR_WIDTH_FLOAT 4
      (fun d v => { d with preferred_vector_width_float := v }),
    DEVICE_GET_INFO drv .PREFERRED_VECTOR_WIDTH_DOUBLE 4
      (fun d v => { d with preferred_vector_width_double := v }),
    DEVICE_GET_INFO drv .MAX_CLOCK_FREQUENCY 4 (fun d v => { d with max_clock_frequency := v }),
    DEVICE_GET_INFO drv .ADDRESS_BITS 4 (fun d v => { d with address_bits := v }),
    DEVICE_GET_INFO drv .MAX_READ_IMAGE_ARGS 4 (fun d v => { d with max_read_image_args := v }),
    DEVICE_GET_INFO drv .MAX_WRITE_IMAGE_ARGS 4
      (fun d v => { d with max_write_image_args := v }),
    DEVICE_GET_INFO drv .MAX_MEM_ALLOC_SIZE 8 (fun d v => { d with max_mem_alloc_size := v }),
    DEVICE_GET_INFO drv .IMAGE2D_MAX_WIDTH 8 (fun d v => { d with image2d_max_width := v }),
    DEVICE_GET_INFO drv .IMAGE2D_MAX_HEIGHT 8 (fun d v => { d with image2d_max_height := v }),
    DEVICE_GET_INFO drv .IMAGE3D_MAX_WIDTH 8 (fun d v => { d with image3d_max_width := v }),
    DEVICE_GET_INFO drv .IMAGE3D_MAX_HEIGHT 8 (fun d v => { d with image3d_max_height := v }),
    DEVICE_GET_INFO drv .IMAGE3D_MAX_DEPTH 8 (fun d v => { d with image3d_max_depth := v }),
    DEVICE_GET_INFO drv .IMAGE_SUPPORT 4 (fun d v => { d with image_support := v }),
    DEVICE_GET_INFO drv .MAX_PARAMETER_SIZE 8 (fun d v => { d with max_parameter_size := v }),
    DEVICE_GET_INFO drv .MAX_SAMPLERS 4 (fun d v => { d with max_samplers := v }),
    DEVICE_GET_INFO drv .MEM_BASE_ADDR_ALIGN 4 (fun d v => { d with mem_base_addr_align := v }),
    DEVICE_GET_INFO drv .MIN_DATA_TYPE_ALIGN_SIZE 4
      (fun d v => { d with min_data_type_align_size := v }),
    DEVICE_GET_INFO drv .SINGLE_FP_CONFIG 8 (fun d v => { d with single_fp_config := v }),
    DEVICE_GET_INFO drv .GLOBAL_MEM_CACHE_TYPE 4
      (fun d v => { d with global_mem_cache_type := v }),
    DEVICE_GET_INFO drv .GLOBAL_MEM_CACHELINE_SIZE 4
      (fun d v => { d with global_mem_cacheline_size := v }),
    DEVICE_GET_INFO drv .GLOBAL_MEM_CACHE_SIZE 8
      (fun d v => { d with global_mem_cache_size := v }),
    DEVICE_GET_INFO drv .GLOBAL_MEM_SIZE 8 (fun d v => { d with global_mem_size := v }),
    DEVICE_GET_INFO drv .MAX_CONSTANT_BUFFER_SIZE 8
      (fun d v => { d with max_constant_buffer_size := v }),
    DEVICE_GET_INFO drv .MAX_CONSTANT_ARGS 4 (fun d v => { d with max_constant_args := v }),
    DEVICE_GET_INFO drv .LOCAL_MEM_TYPE 4 (fun d v => { d with local_mem_type := v }),
    DEVICE_GET_INFO drv .LOCAL_MEM_SIZE 8 (fun d v => { d with local_mem_size := v }),
    DEVICE_GET_INFO drv .ERROR_CORRECTION_SUPPORT 4
      (fun d v => { d with error_correction_support := v }),
    DEVICE_GET_INFO drv .PROFILING_TIMER_RESOLUTION 8
      (fun d v => { d with profiling_timer_resolution := v }),
    DEVICE_GET_INFO drv .ENDIAN_LITTLE 4 (fun d v => { d with endian_little := v }),
    DEVICE_GET_INFO drv .AVAILABLE 4 (fun d v => { d with available := v }),
    DEVICE_GET_INFO drv .COMPILER_AVAILABLE 4 (fun d v => { d with compiler_available := v }),
    DEVICE_GET_INFO drv .EXECUTION_CAPABILITIES 8
      (fun d v => { d with execution_capabilities := v }),
    DEVICE_GET_INFO drv .QUEUE_PROPERTIES 8 (fun d v => { d with queue_properties := v }),
    DEVICE_GET_STRING drv .NAME (fun d v => { d with name := v }),
    DEVICE_GET_STRING drv .VENDOR (fun d v => { d with vendor := v }),
    DEVICE_GET_STRING drv .DRIVER_VERSION (fun d v => { d with driver_version := v }),
    DEVICE_GET_STRING drv .PROFILE (fun d v => { d with profile := v }),
    DEVICE_GET_STRING drv .VERSION (fun d v => { d with version := v }),
    DEVICE_GET_STRING drv .EXTENSIONS (fun d v => { d with extensions := v }),
    DEVICE_GET_INFO drv .PLATFORM 8 (fun d v => { d with platform := v }),
    DEVICE_GET_INFO drv .PREFERRED_VECTOR_WIDTH_HALF 4
      (fun d v => { d with preferred_vector_width_half := v }),
    DEVICE_GET_INFO drv .HOST_UNIFIED_MEMORY 4 (fun d v => { d with host_unified_memory := v }),
    DEVICE_GET_INFO drv .NATIVE_VECTOR_WIDTH_CHAR 4
      (fun d v => { d with native_vector_width_char := v }),
    DEVICE_GET_INFO drv .NATIVE_VECTOR_WIDTH_SHORT 4
      (fun d v => { d with native_vector_width_short := v }),
    DEVICE_GET_INFO drv .NATIVE_VECTOR_WIDTH_INT 4
      (fun d v => { d with native_vector_width_int := v }),
    DEVICE_GET_INFO drv .NATIVE_VECTOR_WIDTH_LONG 4
      (fun d v => { d with native_vector_width_long := v }),
    DEVICE_GET_INFO drv .NATIVE_VECTOR_WIDTH_FLOAT 4
      (fun d v => { d with native_vector_width_float := v }),
    DEVICE_GET_INFO drv .NATIVE_VECTOR_WIDTH_DOUBLE 4
      (fun d v => { d with native_vector_width_double := v }),
    DEVICE_GET_INFO drv .NATIVE_VECTOR_WIDTH_HALF 4
      (fun d v => { d with native_vector_width_half := v }),
    DEVICE_GET_STRING drv .OPENCL_C_VERSION (fun d v => { d with opencl_c_version := v }) ]

/-- The function `_cluGetDeviceInfo`, on the record `*dinfo`. -/
def _cluGetDeviceInfo (drv : Driver) (w : World) (dinfo : clu_device) :
    Int × clu_device × World :=
  if dinfo.has_info then (CL_SUCCESS, dinfo, w)
  else
    let r := runSteps (deviceSteps drv) w dinfo
    if r.1 ≠ 0 then r
    else (r.1, { r.2.1 with has_info := true }, r.2.2)

/-! ## C library functions used by the lookups

A C string is the list of its characters before the terminating NUL; the
characters are bytes. -/

/-- The function `tolower` in the C locale. -/
def tolower (c : Char) : Char :=
  if 'A' ≤ c ∧ c ≤ 'Z' then Char.ofNat (c.toNat + 32) else c

/-- The function `strncasecmp`: compare at most `n` characters, ignoring
case, stopping at the end of either string. -/
def strncasecmp : List Char → List Char → Nat → Int
  | _, _, 0 => 0
  | [], [], _ + 1 => 0
  | [], b :: _, _ + 1 => 0 - ((tolower b).toNat : Int)
  | a :: _, [], _ + 1 => ((tolower a).toNat : Int)
  | a :: as, b :: bs, n + 1 =>
    if tolower a = tolower b then strncasecmp as bs n
    else ((tolower a).toNat : Int) - ((tolower b).toNat : Int)

/-- The function `strlen`. -/
def strlen (s : List Char) : Nat := s.length

/-- The function `isspace` in the C locale. -/
def isspace (c : Char) : Bool :=
  c = ' ' ∨ c = '\t' ∨ c = '\n' ∨ c = '\x0b' ∨ c = '\x0c' ∨ c = '\r'

/-- The value of a character as a digit of `strtoul`, letters counting from
ten. -/
def digitVal (c : Char) : Option Nat :=
  if '0' ≤ c ∧ c ≤ '9' then some (c.toNat - 48)
  else if 'a' ≤ c ∧ c ≤ 'z' then some (c.toNat - 87)
  else if 'A' ≤ c ∧ c ≤ 'Z' then some (c.toNat - 55)
  else none

/-- The digit loop of `strtoul`: the exact value of the longest run of digits
of the base, and what follows it. -/
def strtoul_digits (base : Nat) : List Char → Nat → Nat × List Char
  | [], acc => (acc, [])
  | c :: cs, acc =>
    match digitVal c with
    | some d => if d < base then strtoul_digits base cs (acc * base + d) else (acc, c :: cs)
    | none => (acc, c :: cs)

def ULONG_MAX : Nat := 2 ^ 64 - 1

/-- Is the character a hexadecimal digit. -/
def isxdigit (c : Char) : Bool :=
  match digitVal c with
  | some d => d < 16
  | none => false

/-- The function `strtoul(nptr, &end, 0)` with a 64-bit `unsigned long`:
leading white space, an optional sign, `0x`/`0X` for base 16, `0` for base 8,
base 10 otherwise; the value saturates at `ULONG_MAX`, a minus sign negates it
modulo `2 ^ 64`. Returns the value and the string at `end`; when no digit is
read `end` is the start of the argument. -/
def strtoul (nptr : List Char) : Nat × List Char :=
  let s1 := nptr.dropWhile isspace
  let neg : Bool := match s1 with
    | '-' :: _ => true
    | _ => false
  let s2 := match s1 with
    | '-' :: t => t
    | '+' :: t => t
    | _ => s1
  let base : Nat := match s2 with
    | '0' :: x :: h :: _ => if (x = 'x' ∨ x = 'X') ∧ isxdigit h then 16 else 8
    | '0' :: _ => 8
    | _ => 10
  let s3 := if base = 16 then s2.drop 2 else s2
  let r := strtoul_digits base s3 0
  if r.2.length = s3.length then (0, nptr)
  else if r.1 > ULONG_MAX then (ULONG_MAX, r.2)
  else if neg then ((2 ^ 64 - r.1) % 2 ^ 64, r.2)
  else (r.1, r.2)

/-! ## Platform lookups -/

/-- What a lookup hands back: the returned pointer into `_platforms` (the
index of the record, `none` for `NULL`) and the code stored through
`errcode_ret`. -/
structure Found where
  handle : Option Nat
  errcode : Int
deriving DecidableEq

/-- The loop of `cluGetPlatformByID`, from index `i`, with `fuel` iterations
left (`_num_platforms - i`), and the final `_RETURN`. -/
def cluGetPlatformByID_loop (drv : Driver) (s : State) (id : Nat) :
    Nat → Nat → Option (Found × State)
  | 0, _ => some ({ handle := none, errcode := CL_INVALID_PLATFORM }, s)
  | fuel + 1, i =>
    match s._platforms with
    | none => none
    | some arr =>
      match arr[i]? with
      | none => none
      | some curr =>
        if curr.id = id then
          let r := _cluGetPlatformInfo drv s.world curr
          let s' : State := { s with _platforms := some (arr.set i r.2.1), world := r.2.2 }
          if r.1 ≠ 0 then some ({ handle := none, errcode := r.1 }, s')
          else some ({ handle := some i, errcode := r.1 }, s')
        else cluGetPlatformByID_loop drv s id fuel (i + 1)

/-- The function `cluGetPlatformByID`. -/
def cluGetPlatformByID (drv : Driver) (s : State) (id : Nat) : Option (Found × State) :=
  match _cluInitPlatformCache drv s with
  | none => none
  | some (error, s1) =>
    if error ≠ 0 then some ({ handle := none, errcode := error }, s1)
    else cluGetPlatformByID_loop drv s1 id s1._num_platforms 0

/-- The loop of `cluGetPlatformByName`, from index `i`, with `fuel`
iterations left, and the final `_RETURN`. The comparison reads `curr->name`:
a `NULL` or never filled name is undefined behaviour. -/
def cluGetPlatformByName_loop (drv : Driver) (s : State) (name : List Char) (len : Nat) :
    Nat → Nat → Option (Found × State)
  | 0, _ => some ({ handle := none, errcode := CL_INVALID_PLATFORM }, s)
  | fuel + 1, i =>
    match s._platforms with
    | none => none
    | some arr =>
      match arr[i]? with
      | none => none
      | some curr =>
        match curr.name with
        | CharPtr.NULL => none
        | CharPtr.uninit _ => none
        | CharPtr.text cname =>
          if strncasecmp name cname len = 0 then
            let r := _cluGetPlatformInfo drv s.world curr
            let s' : State := { s with _platforms := some (arr.set i r.2.1), world := r.2.2 }
            if r.1 ≠ 0 then some ({ handle := none, errcode := r.1 }, s')
            else some ({ handle := some i, errcode := r.1 }, s')
          else cluGetPlatformByName_loop drv s name len fuel (i + 1)

/-- The function `cluGetPlatformByName`; `name = none` is a `NULL` argument.
For a `NULL` or empty name the pointer `_platforms` itself is returned. -/
def cluGetPlatformByName (drv : Driver) (s : State) (name : Option (List Char)) :
    Option (Found × State) :=
  match _cluInitPlatformCache drv s with
  | none => none
  | some (error, s1) =>
    if error ≠ 0 then some ({ handle := none, errcode := error }, s1)
    else
      match name with
      | none =>
        some ({ handle := s1._platforms.map (fun _ => 0), errcode := error }, s1)
      | some [] =>
        some ({ handle := s1._platforms.map (fun _ => 0), errcode := error }, s1)
      | some (c :: cs) =>
        cluGetPlatformByName_loop drv s1 (c :: cs) (strlen (c :: cs)) s1._num_platforms 0

/-- The function `cluGetPlatformByNumber`; `num` is a `cl_uint`. -/
def cluGetPlatformByNumber (drv : Driver) (s : State) (num : Nat) : Option (Found × State) :=
  match _cluInitPlatformCache drv s with
  | none => none
  | some (error, s1) =>
    if error ≠ 0 then some ({ handle := none, errcode := error }, s1)
    else if num < s1._num_platforms then
      match s1._platforms with
      | none => none
      | some arr =>
        match arr[num]? with
        | none => none
        | some curr =>
          let r := _cluGetPlatformInfo drv s1.world curr
          let s' : State := { s1 with _platforms := some (arr.set num r.2.1), world := r.2.2 }
          if r.1 ≠ 0 then some ({ handle := none, errcode := r.1 }, s')
          else some ({ handle := some num, errcode := r.1 }, s')
    else some ({ handle := none, errcode := CL_INVALID_VALUE }, s1)

/-- The function `cluGetPlatformFromArg`; `name_or_num = none` is a `NULL`
argument, which `strtoul` dereferences. The `cl_ulong` result of `strtoul` is
converted to the `cl_uint` parameter of `cluGetPlatformByNumber`. -/
def cluGetPlatformFromArg (drv : Driver) (s : State) (name_or_num : Option (List Char)) :
    Option (Found × State) :=
  match name_or_num with
  | none => none
  | some str =>
    let r := strtoul str
    if r.2 ≠ [] then cluGetPlatformByName drv s (some str)
    else cluGetPlatformByNumber drv s (r.1 % 2 ^ 32)

/-! ## `cluGetDeviceTypeString` -/

/-- The table `device_type_string` of `clu.c`. -/
def device_type_string : List String :=
  [ "no device",
    "default",
    "CPU",
    "default CPU",
    "GPU",
    "default GPU",
    "CPU/GPU",
    "default CPU/GPU",
    "accelerator",
    "default accelerator",
    "CPU/accelerator",
    "default CPU/accelerator",
    "GPU/accelerator",
    "default GPU/accelerator",
    "CPU/GPU/accelerator",
    "default CPU/GPU/accelerator",
    "unkown" ]

def device_type_string_count : Nat := device_type_string.length

def unknown_device_type_index : Nat := device_type_string_count - 1

/-- The function `cluGetDeviceTypeString`; `type` is a `cl_device_type`, an
unsigned 64-bit bitfield. `none` is a read outside the table. -/
def cluGetDeviceTypeString (type : Nat) : Option String :=
  let type := if type > unknown_device_type_index then unknown_device_type_index else type
  device_type_string[type]?

/-! ## Device enumeration -/

/-- The constant `CL_DEVICE_TYPE_ALL` of `CL/cl.h`. -/
def CL_DEVICE_TYPE_ALL : Nat := 0xFFFFFFFF

/-- A `clu_device` as `calloc` yields it: every byte zero. -/
def clu_device.zero : clu_device :=
  { id := 0, pinfo := none, has_info := false, type := 0, vendor_id := 0,
    max_compute_units := 0, max_work_item_dimensions := 0, max_work_group_size := 0,
    max_work_item_sizes := none,
    preferred_vector_width_char := 0, preferred_vector_width_short := 0,
    preferred_vector_width_int := 0, preferred_vector_width_long := 0,
    preferred_vector_width_float := 0, preferred_vector_width_double := 0,
    max_clock_frequency := 0, address_bits := 0, max_read_image_args := 0,
    max_write_image_args := 0, max_mem_alloc_size := 0, image2d_max_width := 0,
    image2d_max_height := 0, image3d_max_width := 0, image3d_max_height := 0,
    image3d_max_depth := 0, image_support := 0, max_parameter_size := 0, max_samplers := 0,
    mem_base_addr_align := 0, min_data_type_align_size := 0, single_fp_config := 0,
    global_mem_cache_type := 0, global_mem_cacheline_size := 0, global_mem_cache_size := 0,
    global_mem_size := 0, max_constant_buffer_size := 0, max_constant_args := 0,
    local_mem_type := 0, local_mem_size := 0, error_correction_support := 0,
    profiling_timer_resolution := 0, endian_little := 0, available := 0,
    compiler_available := 0, execution_capabilities := 0, queue_properties := 0,
    name := CharPtr.NULL, vendor := CharPtr.NULL, driver_version := CharPtr.NULL,
    profile := CharPtr.NULL, version := CharPtr.NULL, extensions := CharPtr.NULL,
    platform := 0, _reserved1 := 0, _reserved2 := 0, preferred_vector_width_half := 0,
    host_unified_memory := 0, native_vector_width_char := 0, native_vector_width_short := 0,
    native_vector_width_int := 0, native_vector_width_long := 0,
    native_vector_width_float := 0, native_vector_width_double := 0,
    native_vector_width_half := 0, opencl_c_version := CharPtr.NULL }

/-- The loop of `_cluGetPlatformByID`, from index `i`, with `fuel` iterations
left, and the final `return NULL`. -/
def _cluGetPlatformByID_loop (s : State) (id : Nat) : Nat → Nat → Option (Option Nat)
  | 0, _ => some none
  | fuel + 1, i =>
    match s._platforms with
    | none => none
    | some arr =>
      match arr[i]? with
      | none => none
      | some p => if p.id = id then some (some i) else _cluGetPlatformByID_loop s id fuel (i + 1)

/-- The function `_cluGetPlatformByID`: the index of the first record of that
identity, `some none` for `NULL`. -/
def _cluGetPlatformByID (s : State) (id : Nat) : Option (Option Nat) :=
  _cluGetPlatformByID_loop s id s._num_platforms 0

/-- The function `_cluInitDeviceCache` when `devs` is not `NULL`; `pinfo` is
the index of the platform record. The loop reads `devs[i]` for `i < count`.
The result is the returned code, whether the array `devs` of the caller was
freed (`free(devs)` when the records cannot be allocated), and the state. -/
def _cluInitDeviceCache_list (drv : Driver) (s : State) (pinfo : Nat) (devs : List Nat)
    (count : Nat) : Option (Int × Bool × State) :=
  match s._platforms with
  | none => none
  | some arr =>
    match arr[pinfo]? with
    | none => none
    | some p =>
      if p.devices.isSome then some (CL_SUCCESS, false, s)
      else
        -- pinfo->devices = NALLOC(count, clu_device)
        let s1 : State := { s with world := s.world.bump }
        if ¬ drv.alloc s.world.trace s.world.allocs (count * 408) then
          -- free(devs)
          some (CL_OUT_OF_HOST_MEMORY, true, s1)
        else if devs.length < count then none
        else
          let recs := (devs.take count).map
            (fun id => { clu_device.zero with id := id, pinfo := some pinfo })
          let p' : clu_platform := { p with num_devices := count, devices := some recs }
          some (CL_SUCCESS, false, { s1 with _platforms := some (arr.set pinfo p') })

/-- What `_cluGetDeviceIDs` and `cluGetDeviceIDs` hand back: the returned
code, the array stored in `*devices` and the count stored in `*num_devices`
(`none`: nothing stored). When `freed` is set, a pointer was stored in
`*devices` and the array it points to was freed before the return: the
pointer dangles, and `devices` is `none` since there is no array left to
read. -/
structure DeviceIDs where
  error : Int
  devices : Option (List Nat)
  num_devices : Option Nat
  freed : Bool := false
deriving DecidableEq

/-- The function `_cluGetDeviceIDs`; `pinfo` is the index of the platform
record, `devices` tells whether the list output is non-`NULL`, the count
output is never `NULL`. `*devices = devs` is stored before
`_cluInitDeviceCache` is called, so when that call frees `devs` the caller is
left with a pointer to freed memory. -/
def _cluGetDeviceIDs (drv : Driver) (s : State) (pinfo : Nat) (type : Nat) (devices : Bool) :
    Option (DeviceIDs × State) :=
  match s._platforms with
  | none => none
  | some arr =>
    match arr[pinfo]? with
    | none => none
    | some p =>
      let r1 := drv.clGetDeviceIDs s.world.trace p.id type 0 false true
      let w1 := s.world.log (Call.clGetDeviceIDs p.id type 0 false true)
      if r1.error ≠ 0 then
        some ({ error := r1.error, devices := none, num_devices := none }, { s with world := w1 })
      else
        let count := r1.num % 2 ^ 32
        -- devs = NALLOC(count, cl_device_id)
        let w2 := w1.bump
        if ¬ drv.alloc w1.trace w1.allocs (count * 8) then
          some ({ error := CL_OUT_OF_HOST_MEMORY, devices := none, num_devices := none },
                { s with world := w2 })
        else
          let r2 := drv.clGetDeviceIDs w2.trace p.id type count true true
          let w3 := w2.log (Call.clGetDeviceIDs p.id type count true true)
          if r2.error ≠ 0 then
            some ({ error := r2.error, devices := none, num_devices := none },
                  { s with world := w3 })
          else
            let devs := overwrite (List.replicate count 0) (r2.ids.take count)
            let count2 := r2.num % 2 ^ 32
            let s3 : State := { s with world := w3 }
            let out : Option (List Nat) := if devices then some devs else none
            -- take the chance to init cache
            if type = CL_DEVICE_TYPE_ALL ∧ p.devices = none then
              match _cluInitDeviceCache_list drv s3 pinfo devs count2 with
              | none => none
              | some (e, freed, s4) =>
                some ({ error := e, devices := if freed then none else out,
                        num_devices := some count2, freed := freed && devices }, s4)
            else
              some ({ error := CL_SUCCESS, devices := out, num_devices := some count2 }, s3)

/-- The function `_cluInitDeviceCache`; `devs = none` is a `NULL` list, which
is what `cluGetDevices` and `cluGetDeviceByID` pass. With a list the work is
that of `_cluInitDeviceCache_list`, which also tells whether the list was
freed. -/
def _cluInitDeviceCache (drv : Driver) (s : State) (pinfo : Nat) (devs : Option (List Nat))
    (count : Nat) : Option (Int × State) :=
  match s._platforms with
  | none => none
  | some arr =>
    match arr[pinfo]? with
    | none => none
    | some p =>
      if p.devices.isSome then some (CL_SUCCESS, s)
      else
        match devs with
        | none =>
          match _cluGetDeviceIDs drv s pinfo CL_DEVICE_TYPE_ALL false with
          | none => none
          | some (r, s') => some (r.error, s')
        | some l =>
          match _cluInitDeviceCache_list drv s pinfo l count with
          | none => none
          | some (e, _, s') => some (e, s')

/-- The function `cluGetDeviceIDs`; `devices` and `num_devices` tell whether
the outputs are non-`NULL`. -/
def cluGetDeviceIDs (drv : Driver) (s : State) (platform : Nat) (type : Nat) (devices : Bool)
    (num_devices : Bool) : Option (DeviceIDs × State) :=
  match _cluInitPlatformCache drv s with
  | none => none
  | some (error, s1) =>
    if error ≠ 0 then some ({ error := error, devices := none, num_devices := none }, s1)
    else if ¬ num_devices then
      some ({ error := CL_INVALID_VALUE, devices := none, num_devices := none }, s1)
    else
      match _cluGetPlatformByID s1 platform with
      | none => none
      | some none =>
        some ({ error := CL_INVALID_PLATFORM, devices := none, num_devices := none }, s1)
      | some (some pinfo) => _cluGetDeviceIDs drv s1 pinfo type devices

/-! ## Device lookups -/

/-- What `cluGetDeviceByID` hands back: the returned pointer to a device
record, as the index of the platform record and the index in its `devices`
array (`none` for `NULL`), and the code stored through `errcode_ret`. -/
structure FoundDevice where
  handle : Option (Nat × Nat)
  errcode : Int
deriving DecidableEq

/-- The loop of `cluGetDeviceByID` over the `devices` array of the platform
record at index `pinfo`, from index `i`, with `fuel` iterations left, and the
final `_RETURN`. -/
def cluGetDeviceByID_loop (drv : Driver) (s : State) (pinfo : Nat) (id : Nat) :
    Nat → Nat → Option (FoundDevice × State)
  | 0, _ => some ({ handle := none, errcode := CL_INVALID_DEVICE }, s)
  | fuel + 1, i =>
    match s._platforms with
    | none => none
    | some arr =>
      match arr[pinfo]? with
      | none => none
      | some p =>
        match p.devices with
        | none => none
        | some devs =>
          match devs[i]? with
          | none => none
          | some dev =>
            if dev.id = id then
              let r := _cluGetDeviceInfo drv s.world dev
              let p' : clu_platform := { p with devices := some (devs.set i r.2.1) }
              let s' : State := { s with _platforms := some (arr.set pinfo p'), world := r.2.2 }
              if r.1 ≠ 0 then some ({ handle := none, errcode := r.1 }, s')
              else some ({ handle := some (pinfo, i), errcode := r.1 }, s')
            else cluGetDeviceByID_loop drv s pinfo id fuel (i + 1)

/-- The function `cluGetDeviceByID` of `clu.c`, with its three parameters.
The code returned by `_cluInitDeviceCache` is stored in `error` and not looked
at before the loop. -/
def cluGetDeviceByID (drv : Driver) (s : State) (platform : Nat) (id : Nat) :
    Option (FoundDevice × State) :=
  match cluGetPlatformByID drv s platform with
  | none => none
  | some (f, s1) =>
    if f.errcode ≠ 0 then some ({ handle := none, errcode := f.errcode }, s1)
    else
      match f.handle with
      | none => none
      | some pinfo =>
        match _cluInitDeviceCache drv s1 pinfo none 0 with
        | none => none
        | some (_, s2) =>
          match s2._platforms with
          | none => none
          | some arr =>
            match arr[pinfo]? with
            | none => none
            | some p => cluGetDeviceByID_loop drv s2 pinfo id p.num_devices 0

/-- What `cluGetDevices` hands back: the returned code, the array of handles
stored in `*devices` and the count stored in `*num_devices` (`none`: nothing
stored). -/
structure Devices where
  error : Int
  devices : Option (List (Option (Nat × Nat)))
  num_devices : Option Nat
deriving DecidableEq

/-- The loop of `cluGetDevices`: `devs[i] = cluGetDeviceByID(platform,
devids[i], &error)` from index `i`, with `fuel` iterations left; `error` is the
code of the last lookup made so far and `acc` the handles stored so far. -/
def cluGetDevices_loop (drv : Driver) (platform : Nat) (devids : List Nat) :
    Nat → Nat → State → Int → List (Option (Nat × Nat)) →
      Option (Int × List (Option (Nat × Nat)) × State)
  | 0, _, s, error, acc => some (error, acc, s)
  | fuel + 1, i, s, _, acc =>
    match devids[i]? with
    | none => none
    | some id =>
      match cluGetDeviceByID drv s platform id with
      | none => none
      | some (f, s') =>
        cluGetDevices_loop drv platform devids fuel (i + 1) s' f.errcode (acc ++ [f.handle])

/-- The function `cluGetDevices`; `devices` and `num_devices` tell whether
the outputs are non-`NULL`. With a `NULL` list output the request goes
straight to the driver. -/
def cluGetDevices (drv : Driver) (s : State) (platform : Nat) (type : Nat) (devices : Bool)
    (num_devices : Bool) : Option (Devices × State) :=
  if ¬ devices then
    let r := drv.clGetDeviceIDs s.world.trace platform type 0 false num_devices
    some ({ error := r.error, devices := none,
            num_devices := if r.error = 0 ∧ num_devices = true then some (r.num % 2 ^ 32)
                           else none },
          { s with world := s.world.log (Call.clGetDeviceIDs platform type 0 false num_devices) })
  else if ¬ num_devices then
    some ({ error := CL_INVALID_VALUE, devices := none, num_devices := none }, s)
  else
    match cluGetPlatformByID drv s platform with
    | none => none
    | some (f, s1) =>
      if f.errcode ≠ 0 then
        some ({ error := f.errcode, devices := none, num_devices := none }, s1)
      else
        match f.handle with
        | none => none
        | some pinfo =>
          match _cluInitDeviceCache drv s1 pinfo none 0 with
          | none => none
          | some (e, s2) =>
            if e ≠ 0 then some ({ error := e, devices := none, num_devices := none }, s2)
            else
              match cluGetDeviceIDs drv s2 platform type true true with
              | none => none
              | some (r, s3) =>
                if r.error ≠ 0 then
                  -- free(devids): a second `free` when the array was freed already
                  if r.freed then none
                  else
                    some ({ error := r.error, devices := none, num_devices := r.num_devices },
                          s3)
                else
                  match r.devices, r.num_devices with
                  | some devids, some n =>
                    -- devs = NALLOC(*num_devices, clu_devptr)
                    let s4 : State := { s3 with world := s3.world.bump }
                    if ¬ drv.alloc s3.world.trace s3.world.allocs (n * 8) then
                      some ({ error := r.error, devices := none, num_devices := some n }, s4)
                    else
                      match cluGetDevices_loop drv platform devids n 0 s4 r.error [] with
                      | none => none
                      | some (error, devs, s5) =>
                        some ({ error := error, devices := some devs, num_devices := some n },
                              s5)
                  | _, _ => none

/-! ## Program loading -/

/-- The constant `ENOMEM` of `errno.h`. -/
def ENOMEM : Int := 12

/-- What the host does during program loading, as far as the library sees
it: opening a file, and creating a program through the driver. -/
inductive HostEvent
  | fopen (fname : List Char)
  | clCreateProgramWithSource (context : Nat) (count : Nat) (strings : List (List Char))
      (lengths : List Nat) (errcode_ret : Bool)
deriving DecidableEq

/-- The collaborators of program loading. For a file name: whether `fopen`
succeeds, the offset `ftell` reports at the end of the file, the bytes `fread`
delivers, and the value of `errno` after a failed read of that file.
`alloc k bytes` tells whether the `k`-th allocation succeeds.
`clCreateProgramWithSource` answers with the program handle (`none` is
`NULL`) and the code for `*errcode_ret`. -/
structure Host where
  fopen : List Char → Bool
  ftell : List Char → Nat
  fread : List Char → List Char
  errno : List Char → Int
  alloc : Nat → Nat → Bool
  clCreateProgramWithSource : Nat → Nat → List (List Char) → List Nat → Option Nat × Int

/-- The function `_cluReadFile`: the returned buffer (`none` is `NULL`) and
the final value of `*fsize`; `k` is the number of allocations made before. -/
def _cluReadFile (host : Host) (k : Nat) (fname : List Char) : Option (List Char) × Nat :=
  if ¬ host.fopen fname then (none, 0)
  else
    let fsize := host.ftell fname % 2 ^ 64
    if ¬ host.alloc k fsize then (none, fsize)
    else
      let readsize := ((host.fread fname).take fsize).length
      if fsize ≠ readsize then (none, 0)
      else (some ((host.fread fname).take fsize), fsize)

/-- What `cluLoadProgramFromSourceFiles` hands back: the returned program
(`none` is `NULL`), the code stored in the caller's `*errcode_ret` (`none`:
nothing stored) and what the host was asked to do, oldest first. -/
structure LoadedProgram where
  program : Option Nat
  errcode : Option Int
  events : List HostEvent
deriving DecidableEq

/-- The reading loop of `cluLoadProgramFromSourceFiles`, from index `i`, with
`fuel` iterations left; `k` counts the allocations and `acc` holds the
buffers and lengths read so far. The result is the buffers and lengths when
every file was read, or the index of the file whose read failed; in both
cases with the files opened. -/
def cluLoadProgramFromSourceFiles_loop (host : Host) (filenames : List (List Char)) :
    Nat → Nat → Nat → List (List Char × Nat) → List HostEvent →
      Option ((List (List Char × Nat) ⊕ List Char) × List HostEvent)
  | 0, _, _, acc, ev => some (Sum.inl acc, ev)
  | fuel + 1, i, k, acc, ev =>
    match filenames[i]? with
    | none => none
    | some fname =>
      let r := _cluReadFile host k fname
      let ev' := ev ++ [HostEvent.fopen fname]
      match r.1 with
      | none => some (Sum.inr fname, ev')
      | some buf =>
        cluLoadProgramFromSourceFiles_loop host filenames fuel (i + 1) (k + 1)
          (acc ++ [(buf, r.2)]) ev'

/-- The function `cluLoadProgramFromSourceFiles`; `errcode_ret` tells whether
the caller passes a non-`NULL` pointer. The first statement,
`errcode_ret = CL_SUCCESS;`, assigns to the pointer itself, which is `NULL`
from there on. -/
def cluLoadProgramFromSourceFiles (host : Host) (context : Nat) (count : Nat)
    (filenames : List (List Char)) (errcode_ret : Bool) : Option LoadedProgram :=
  let errcode_ret : Bool := false
  if count = 0 then
    some { program := none,
           errcode := if errcode_ret then some CL_INVALID_VALUE else none,
           events := [] }
  else if ¬ host.alloc 0 (count * 8) then
    some { program := none,
           errcode := if errcode_ret then some CL_OUT_OF_HOST_MEMORY else none,
           events := [] }
  else if ¬ host.alloc 1 (count * 8) then
    some { program := none,
           errcode := if errcode_ret then some CL_OUT_OF_HOST_MEMORY else none,
           events := [] }
  else
    match cluLoadProgramFromSourceFiles_loop host filenames count 0 2 [] [] with
    | none => none
    | some (Sum.inr fname, ev) =>
      some { program := none,
             errcode :=
               if errcode_ret then
                 (if host.errno fname = ENOMEM then some CL_OUT_OF_HOST_MEMORY
                  else some CL_INVALID_VALUE)
               else none,
             events := ev }
    | some (Sum.inl bufs, ev) =>
      let strings := bufs.map (fun b => b.1)
      let lengths := bufs.map (fun b => b.2)
      let r := host.clCreateProgramWithSource context count strings lengths
      some { program := r.1,
             errcode := if errcode_ret then some r.2 else none,
             events := ev ++ [HostEvent.clCreateProgramWithSource context count strings lengths
                                errcode_ret] }

/-! ## Predicates and example inputs used by the theorems -/

/-- The platform cache is populated and holds exactly the records `arr`:
`_num_platforms` is their number, below the sentinel, and `_platforms` points
to them (or is `NULL` when there are none). -/
def Populated (s : State) (arr : List clu_platform) : Prop :=
  s._num_platforms = arr.length ∧ arr.length < EMPTY_CACHE ∧
    (s._platforms = some arr ∨ (arr = [] ∧ s._platforms = none))

instance (s : State) (arr : List clu_platform) : Decidable (Populated s arr) := by
  unfold Populated
  infer_instance

/-- A driver with two platforms, of identities 11 and 22 and names "Alpha"
and "Beta", one device each; no call and no allocation fails. -/
def exampleDriver : Driver where
  clGetPlatformIDs := fun _ _ _ => { error := 0, num := 2, ids := [11, 22] }
  clGetPlatformInfo := fun _ id param _ _ =>
    { error := 0, size_ret := 6, scalar := 0, array := [],
      text := if param = cl_platform_info.NAME then
                (if id = 11 then "Alpha".toList else "Beta".toList)
              else "x".toList }
  clGetDeviceIDs := fun _ p _ _ _ _ => { error := 0, num := 1, ids := [p + 1] }
  clGetDeviceInfo := fun _ _ _ _ _ =>
    { error := 0, size_ret := 2, scalar := 3, text := "d".toList, array := [4, 5, 6] }
  alloc := fun _ _ _ => true

/-- A hydrated platform record. -/
def examplePlatform (id : Nat) (name : String) : clu_platform :=
  { id := id, has_info := true, profile := CharPtr.text "FULL_PROFILE".toList,
    version := CharPtr.text "OpenCL 1.1".toList, name := CharPtr.text name.toList,
    vendor := CharPtr.text "Vendor".toList, extensions := CharPtr.text [],
    num_devices := 0, devices := none }

/-- A populated cache holding the hydrated records of the given platforms. -/
def exampleState (arr : List clu_platform) : State :=
  { _num_platforms := arr.length, _platforms := some arr,
    world := { trace := [], allocs := 0 } }

/-- The cache of two hydrated platforms named "Alpha" and "Beta". -/
def stateAlphaBeta : State :=
  exampleState [examplePlatform 11 "Alpha", examplePlatform 22 "Beta"]

/-- A hydrated device record, every scalar attribute 3. -/
def exampleDevice : clu_device :=
  { id := 12, pinfo := some 0, has_info := true, type := 4, vendor_id := 3,
    max_compute_units := 3, max_work_item_dimensions := 3, max_work_group_size := 3,
    max_work_item_sizes := some [4, 5, 6],
    preferred_vector_width_char := 3, preferred_vector_width_short := 3,
    preferred_vector_width_int := 3, preferred_vector_width_long := 3,
    preferred_vector_width_float := 3, preferred_vector_width_double := 3,
    max_clock_frequency := 3, address_bits := 3, max_read_image_args := 3,
    max_write_image_args := 3, max_mem_alloc_size := 3, image2d_max_width := 3,
    image2d_max_height := 3, image3d_max_width := 3, image3d_max_height := 3,
    image3d_max_depth := 3, image_support := 3, max_parameter_size := 3, max_samplers := 3,
    mem_base_addr_align := 3, min_data_type_align_size := 3, single_fp_config := 3,
    global_mem_cache_type := 3, global_mem_cacheline_size := 3, global_mem_cache_size := 3,
    global_mem_size := 3, max_constant_buffer_size := 3, max_constant_args := 3,
    local_mem_type := 3, local_mem_size := 3, error_correction_support := 3,
    profiling_timer_resolution := 3, endian_little := 3, available := 3,
    compiler_available := 3, execution_capabilities := 3, queue_properties := 3,
    name := CharPtr.text "d".toList, vendor := CharPtr.text "d".toList,
    driver_version := CharPtr.text "d".toList, profile := CharPtr.text "d".toList,
    version := CharPtr.text "d".toList, extensions := CharPtr.text "d".toList,
    platform := 3, _reserved1 := 0, _reserved2 := 0, preferred_vector_width_half := 3,
    host_unified_memory := 3, native_vector_width_char := 3, native_vector_width_short := 3,
    native_vector_width_int := 3, native_vector_width_long := 3,
    native_vector_width_float := 3, native_vector_width_double := 3,
    native_vector_width_half := 3, opencl_c_version := CharPtr.text "d".toList }

/-- Does the field hold a string. -/
def CharPtr.isText : CharPtr → Bool
  | CharPtr.text _ => true
  | _ => false

/-- The test of the loop of `cluGetPlatformByName` on a record whose name is
a string: the name begins with the query, case ignored. -/
def nameBeginsWith (query : List Char) (p : clu_platform) : Bool :=
  match p.name with
  | CharPtr.text t => strncasecmp query t (strlen query) = 0
  | _ => false

/-- The state after a first enumeration with `exampleDriver`: two records
that hold an identity and nothing else, two driver calls, two allocations. -/
def stateEnumerated : State :=
  { _num_platforms := 2,
    _platforms := some [{ clu_platform.zero with id := 11 },
                        { clu_platform.zero with id := 22 }],
    world := { trace := [Call.clGetPlatformIDs 0 false, Call.clGetPlatformIDs 2 true],
               allocs := 2 } }

/-- A driver whose count query reports two platforms and whose list query
fails with `CL_OUT_OF_RESOURCES` (-5). -/
def listFailingDriver : Driver :=
  { exampleDriver with
    clGetPlatformIDs := fun _ _ platforms =>
      if platforms then { error := -5, num := 0, ids := [] }
      else { error := 0, num := 2, ids := [] } }

/-- The state `listFailingDriver` leaves behind after a first enumeration. -/
def stateAfterFailedList : State :=
  { _num_platforms := 2, _platforms := none,
    world := { trace := [Call.clGetPlatformIDs 0 false, Call.clGetPlatformIDs 2 true],
               allocs := 2 } }

/-- The cache of two hydrated platforms, the name of the second being the
beginning of the name of the first. -/
def stateIntel : State :=
  exampleState [examplePlatform 11 "Intel(R) OpenCL HD Graphics",
                examplePlatform 22 "Intel(R) OpenCL"]

/-- The driver reports the same number `N` of platforms in every successful
enumeration call. -/
def Driver.reportsPlatforms (drv : Driver) (N : Nat) : Prop :=
  ∀ t k b, (drv.clGetPlatformIDs t k b).error = CL_SUCCESS →
    (drv.clGetPlatformIDs t k b).num = N

/-- The results of `k` successive calls of `cluGetPlatformIDs` with a
non-`NULL` list output and a count variable of the caller, oldest first, and
the state after them. -/
def cluGetPlatformIDs_repeat (drv : Driver) : Nat → State → Option (List PlatformIDs × State)
  | 0, s => some ([], s)
  | k + 1, s =>
    match cluGetPlatformIDs drv s true NumPtr.user with
    | none => none
    | some (r, s') =>
      match cluGetPlatformIDs_repeat drv k s' with
      | none => none
      | some (rs, s'') => some (r :: rs, s'')

/-- The code the driver returns for the call `c` made after the calls `t`. -/
def Driver.errorOf (drv : Driver) (t : List Call) : Call → Int
  | Call.clGetPlatformIDs n b => (drv.clGetPlatformIDs t n b).error
  | Call.clGetPlatformInfo p param size b => (drv.clGetPlatformInfo t p param size b).error
  | Call.clGetDeviceIDs p type n b c => (drv.clGetDeviceIDs t p type n b c).error
  | Call.clGetDeviceInfo d param size b => (drv.clGetDeviceInfo t d param size b).error

/-- A step (or a whole hydration) only appends driver calls to the trace, and
a call that the driver answers with a non-zero code is the last one it makes,
that code being what it returns. -/
def StopsAtFailure {α : Type} (drv : Driver) (f : World → α → Int × α × World) : Prop :=
  ∀ w a, ∃ cs, (f w a).2.2.trace = w.trace ++ cs ∧
    ∀ i c, cs[i]? = some c → drv.errorOf (w.trace ++ cs.take i) c ≠ 0 →
      i + 1 = cs.length ∧ (f w a).1 = drv.errorOf (w.trace ++ cs.take i) c

/-- A driver like `exampleDriver` whose value query for a name (of a
platform or of a device) fails with `CL_OUT_OF_RESOURCES` (-5). -/
def nameFailingDriver : Driver :=
  { exampleDriver with
    clGetPlatformInfo := fun t id param size value =>
      if param = cl_platform_info.NAME ∧ value = true then
        { error := -5, size_ret := 0, scalar := 0, text := [], array := [] }
      else exampleDriver.clGetPlatformInfo t id param size value
    clGetDeviceInfo := fun t id param size value =>
      if param = cl_device_info.NAME ∧ value = true then
        { error := -5, size_ret := 0, scalar := 0, text := [], array := [] }
      else exampleDriver.clGetDeviceInfo t id param size value }

/-- A driver with the platforms of `exampleDriver`, each with three devices:
101 is a CPU (type 2), 102 and 103 are GPUs (type 4). A device enumeration
with neither a list nor a count output is answered with `CL_INVALID_VALUE`. -/
def mixedDriver : Driver :=
  { exampleDriver with
    clGetDeviceIDs := fun _ _ type _ devices num_devices =>
      if devices = false ∧ num_devices = false then { error := -30, num := 0, ids := [] }
      else if type = CL_DEVICE_TYPE_ALL then { error := 0, num := 3, ids := [101, 102, 103] }
      else if type = 4 then { error := 0, num := 2, ids := [102, 103] }
      else if type = 2 then { error := 0, num := 1, ids := [101] }
      else { error := -1, num := 0, ids := [] } }

/-- A driver like `exampleDriver` whose device enumeration fails with
`CL_OUT_OF_RESOURCES` (-5). -/
def deviceListFailingDriver : Driver :=
  { exampleDriver with
    clGetDeviceIDs := fun _ _ _ _ _ _ => { error := -5, num := 0, ids := [] } }

/-- The unhydrated device records of the platform at index 0 of a cache whose
device cache was populated from `mixedDriver`. -/
def mixedDevices : List clu_device :=
  [{ clu_device.zero with id := 101, pinfo := some 0 },
   { clu_device.zero with id := 102, pinfo := some 0 },
   { clu_device.zero with id := 103, pinfo := some 0 }]

/-- The cache of the hydrated platforms "Alpha" and "Beta", the device cache
of "Alpha" populated with `mixedDevices`. -/
def stateMixed : State :=
  exampleState [{ examplePlatform 11 "Alpha" with num_devices := 3, devices := some mixedDevices },
                examplePlatform 22 "Beta"]

/-- A host with no file and no memory to spare; program creation fails. -/
def exampleHost : Host where
  fopen := fun _ => false
  ftell := fun _ => 0
  fread := fun _ => []
  errno := fun _ => 2
  alloc := fun _ _ => true
  clCreateProgramWithSource := fun _ _ _ _ => (none, CL_INVALID_VALUE)

/-- The count and the ordered identities of the device cache of the platform
record at index `i`: `num_devices`, and the identities of the records of
`devices` (`none` when `devices` is `NULL`). -/
def cachedDeviceIds (s : State) (i : Nat) : Option (Nat × Option (List Nat)) :=
  match s._platforms with
  | none => none
  | some arr =>
    match arr[i]? with
    | none => none
    | some p => some (p.num_devices, p.devices.map (fun devs => devs.map (fun d => d.id)))

/-- The platform cache is populated, its first record of identity
`platform` is at index `i`, and the device cache of that record is populated
with records of the identities `ids`, in that order, `num_devices` being
their number. -/
def CachedDevices (s : State) (i platform : Nat) (ids : List Nat) : Prop :=
  ∃ arr p devs, Populated s arr ∧ arr[i]? = some p ∧ p.id = platform ∧
    (∀ c ∈ arr.take i, c.id ≠ platform) ∧ p.devices = some devs ∧
    p.num_devices = devs.length ∧ devs.map (fun d => d.id) = ids

/-- The record of platform "Alpha" in `stateMixed`. -/
def platformMixed : clu_platform :=
  { examplePlatform 11 "Alpha" with num_devices := 3, devices := some mixedDevices }

/-- The state after `cluGetPlatformIDs(NULL, &n)` as the first library call
with `exampleDriver`: the count is cached, no record is allocated. -/
def stateCounted : State :=
  { _num_platforms := 2, _platforms := none,
    world := { trace := [Call.clGetPlatformIDs 0 false], allocs := 0 } }

/-- A driver like `exampleDriver` that reports no platform at all. -/
def noPlatformDriver : Driver :=
  { exampleDriver with
    clGetPlatformIDs := fun _ _ _ => { error := 0, num := 0, ids := [] } }

/-- The state after a first enumeration with `noPlatformDriver`. -/
def stateNoPlatforms : State :=
  { _num_platforms := 0, _platforms := none,
    world := { trace := [Call.clGetPlatformIDs 0 false], allocs := 0 } }

/-- A driver like `mixedDriver` whose attribute queries on device 102 fail
with `CL_OUT_OF_RESOURCES` (-5). -/
def gpuFailingDriver : Driver :=
  { mixedDriver with
    clGetDeviceInfo := fun t id param size value =>
      if id = 102 then { error := -5, size_ret := 0, scalar := 0, text := [], array := [] }
      else exampleDriver.clGetDeviceInfo t id param size value }

/-- A driver like `mixedDriver` with which the second allocation of the run
fails. -/
def secondAllocFailingDriver : Driver :=
  { mixedDriver with alloc := fun _ k _ => decide (k ≠ 1) }

/-- The driver calls a hydration of the device `id` makes before it allocates
`max_work_item_sizes`: the first five `GET_INFO` lines of `_cluGetDeviceInfo`. -/
def workItemPrelude (id : Nat) : List Call :=
  [Call.clGetDeviceInfo id cl_device_info.TYPE 8 true,
   Call.clGetDeviceInfo id cl_device_info.VENDOR_ID 4 true,
   Call.clGetDeviceInfo id cl_device_info.MAX_COMPUTE_UNITS 4 true,
   Call.clGetDeviceInfo id cl_device_info.MAX_WORK_ITEM_DIMENSIONS 4 true,
   Call.clGetDeviceInfo id cl_device_info.MAX_WORK_GROUP_SIZE 8 true]

/-- The work-item dimensionality the driver reports to a hydration of the
device `id` that starts after the driver calls `t`: the answer to the fourth
query, as the `cl_uint` it is stored in. -/
def reportedDimensions (drv : Driver) (t : List Call) (id : Nat) : Nat :=
  (drv.clGetDeviceInfo (t ++ (workItemPrelude id).take 3) id
    cl_device_info.MAX_WORK_ITEM_DIMENSIONS 4 true).scalar % 2 ^ 32

/-- The per-dimension sizes the driver reports to that hydration: the answer
to the query for `CL_DEVICE_MAX_WORK_ITEM_SIZES` made with a buffer of `n`
entries of type `size_t`. -/
def reportedSizes (drv : Driver) (t : List Call) (id : Nat) (n : Nat) : List Nat :=
  (drv.clGetDeviceInfo (t ++ workItemPrelude id) id
    cl_device_info.MAX_WORK_ITEM_SIZES (8 * n) true).array

/-- The handle of a platform lookup is not `NULL` and points to a hydrated
record of the cache of state `s`. -/
def Found.hydrated (f : Found) (s : State) : Prop :=
  ∃ i arr p, f.handle = some i ∧ s._platforms = some arr ∧ arr[i]? = some p ∧
    p.has_info = true

/-- The handle of a device lookup is not `NULL` and points to a hydrated
device record of a platform record of the cache of state `s`. -/
def FoundDevice.hydrated (f : FoundDevice) (s : State) : Prop :=
  ∃ i j arr p devs d, f.handle = some (i, j) ∧ s._platforms = some arr ∧
    arr[i]? = some p ∧ p.devices = some devs ∧ devs[j]? = some d ∧ d.has_info = true

/-- A driver like `exampleDriver` whose count query reports two platforms
and whose list query then reports one platform, of identity 11. -/
def shrinkingDriver : Driver :=
  { exampleDriver with
    clGetPlatformIDs := fun _ _ platforms =>
      if platforms then { error := 0, num := 1, ids := [11] }
      else { error := 0, num := 2, ids := [] } }

/-- A driver like `mixedDriver` with which no allocation succeeds. -/
def noMemoryDriver : Driver :=
  { mixedDriver with alloc := fun _ _ _ => false }

/-- A driver like `mixedDriver` with which the third allocation of the run
fails. -/
def thirdAllocFailingDriver : Driver :=
  { mixedDriver with alloc := fun _ k _ => decide (k ≠ 2) }

/-! ## Theorems -/

/-! ### `cluGetErrorString` -/
theorem unknown_error_index_eq : unknown_error_index = 65 := by decide

theorem cluGetErrorString_clamped (e : Int)
    (h : 65 ≤ to_size_t (wrap_cl_int (-e))) :
    cluGetErrorString e = some (some "unknown error") := by
  unfold cluGetErrorString
  simp only [unknown_error_index_eq]
  by_cases h65 : to_size_t (wrap_cl_int (-e)) > 65
  · rw [if_pos h65]; rfl
  · have h' : to_size_t (wrap_cl_int (-e)) = 65 := by omega
    rw [if_neg h65, h']; rfl

theorem index_of_nonpos (e : Int) (hlo : -(2:Int) ^ 31 < e) (h0 : e ≤ 0) :
    to_size_t (wrap_cl_int (-e)) = (-e).toNat := by
  unfold to_size_t wrap_cl_int
  have h1 : (-e + 2 ^ 31) % 2 ^ 32 = -e + 2 ^ 31 := by
    apply Int.emod_eq_of_lt <;> omega
  rw [h1]
  have h2 : (-e + 2 ^ 31 - 2 ^ 31) = -e := by ring
  rw [h2]
  have h3 : (-e) % 2 ^ 64 = -e := by
    apply Int.emod_eq_of_lt <;> omega
  rw [h3]

theorem index_of_pos (e : Int) (hhi : e < 2 ^ 31) (h0 : 0 < e) :
    65 ≤ to_size_t (wrap_cl_int (-e)) := by
  unfold to_size_t wrap_cl_int
  have h1 : (-e + 2 ^ 31) % 2 ^ 32 = -e + 2 ^ 31 := by
    apply Int.emod_eq_of_lt <;> omega
  rw [h1]
  have h2 : (-e + 2 ^ 31 - 2 ^ 31) = -e := by ring
  rw [h2]
  have h3 : (-e) % 2 ^ 64 = -e + 2 ^ 64 := by
    rw [← Int.add_emod_self]
    apply Int.emod_eq_of_lt <;> omega
  rw [h3]
  omega

theorem index_of_min : to_size_t (wrap_cl_int (-(-(2:Int) ^ 31))) = 2 ^ 64 - 2 ^ 31 := by
  decide

theorem cluGetErrorString_small (n : Nat) (hn : n ≤ 65) :
    cluGetErrorString (-(n : Int)) =
      some (some ((error_strings.getD n none).getD "unknown error")) := by
  interval_cases n <;> rfl

theorem error_strings_named (n : Nat) (hn : n ≤ 64) (h : ¬ (15 ≤ n ∧ n ≤ 29)) :
    ∃ t, error_strings[n]? = some (some t) := by
  interval_cases n <;> first | exact ⟨_, rfl⟩ | omega

theorem error_strings_unnamed (n : Nat) (h1 : 15 ≤ n) (h2 : n ≤ 29) :
    error_strings[n]? = some none := by
  interval_cases n <;> rfl

/-- C1: for every 32-bit code `e`, `cluGetErrorString e` is a non-null string
read inside the table; it is the table entry at index `-e` when
`0 ≤ -e ≤ 64` and that entry is named, and "unknown error" for every other
code, which are exactly the positive codes, the codes below `-64` and the
unnamed slots `-15 .. -29`; code `0` gives "no error". -/
theorem cluGetErrorString_spec (e : Int) (hlo : -(2 : Int) ^ 31 ≤ e) (hhi : e < 2 ^ 31) :
    (∃ s, cluGetErrorString e = some (some s)) ∧
    (∀ t, 0 ≤ -e → -e ≤ 64 → error_strings[(-e).toNat]? = some (some t) →
        cluGetErrorString e = some (some t)) ∧
    (¬ (0 ≤ -e ∧ -e ≤ 64 ∧ ∃ t, error_strings[(-e).toNat]? = some (some t)) →
        cluGetErrorString e = some (some "unknown error")) ∧
    (¬ (0 ≤ -e ∧ -e ≤ 64 ∧ ∃ t, error_strings[(-e).toNat]? = some (some t)) ↔
        (0 < e ∨ e < -64 ∨ (-29 ≤ e ∧ e ≤ -15))) ∧
    cluGetErrorString 0 = some (some "no error") := by
  have hiff : ¬ (0 ≤ -e ∧ -e ≤ 64 ∧ ∃ t, error_strings[(-e).toNat]? = some (some t)) ↔
      (0 < e ∨ e < -64 ∨ (-29 ≤ e ∧ e ≤ -15)) := by
    constructor
    · intro h
      by_contra hc
      apply h
      refine ⟨by omega, by omega, ?_⟩
      apply error_strings_named <;> omega
    · rintro h ⟨h0, h64, t, ht⟩
      have hu := error_strings_unnamed (-e).toNat (by omega) (by omega)
      rw [hu] at ht
      cases ht
  have hunk : (0 < e ∨ e < -64 ∨ (-29 ≤ e ∧ e ≤ -15)) →
      cluGetErrorString e = some (some "unknown error") := by
    intro h
    rcases h with h | h | h
    · exact cluGetErrorString_clamped e (index_of_pos e hhi h)
    · by_cases hmin : e = -(2 : Int) ^ 31
      · subst hmin
        apply cluGetErrorString_clamped
        rw [index_of_min]
        decide
      · apply cluGetErrorString_clamped
        rw [index_of_nonpos e (by omega) (by omega)]
        omega
    · have hs := cluGetErrorString_small (-e).toNat (by omega)
      have he : -(((-e).toNat : Nat) : Int) = e := by omega
      rw [he] at hs
      rw [hs]
      have hu := error_strings_unnamed (-e).toNat (by omega) (by omega)
      simp [List.getD, hu]
  have hnamed : ∀ t, 0 ≤ -e → -e ≤ 64 → error_strings[(-e).toNat]? = some (some t) →
      cluGetErrorString e = some (some t) := by
    intro t h0 h64 ht
    have hs := cluGetErrorString_small (-e).toNat (by omega)
    have he : -(((-e).toNat : Nat) : Int) = e := by omega
    rw [he] at hs
    rw [hs]
    simp [List.getD, ht]
  refine ⟨?_, hnamed, fun h => hunk (hiff.mp h), hiff, rfl⟩
  by_cases hc : (0 < e ∨ e < -64 ∨ (-29 ≤ e ∧ e ≤ -15))
  · exact ⟨_, hunk hc⟩
  · obtain ⟨t, ht⟩ := error_strings_named (-e).toNat (by omega) (by omega)
    exact ⟨t, hnamed t (by omega) (by omega) ht⟩

theorem cluGetErrorString_spec_witness :
    (-(2 : Int) ^ 31 ≤ -32 ∧ (-32 : Int) < 2 ^ 31) ∧
    cluGetErrorString (-32) = some (some "invalid platform") :=
  ⟨by decide,
   (cluGetErrorString_spec (-32) (by decide) (by decide)).2.1 "invalid platform"
     (by decide) (by decide) (by decide)⟩

/-! ### Hydration -/

theorem runSteps_preserves {α : Type} (P : α → Prop)
    (steps : List (World → α → Int × α × World))
    (h : ∀ f ∈ steps, ∀ w a, P a → P (f w a).2.1) (w : World) (a : α) (ha : P a) :
    P (runSteps steps w a).2.1 := by
  induction steps generalizing w a with
  | nil => simpa [runSteps] using ha
  | cons f rest ih =>
    have hf := h f (List.mem_cons_self _ _) w a ha
    simp only [runSteps]
    split
    · exact hf
    · exact ih (fun g hg => h g (List.mem_cons_of_mem _ hg)) _ _ hf

theorem PLATFORM_GET_INFO_preserves (P : clu_platform → Prop) (drv : Driver)
    (param : cl_platform_info) (set : clu_platform → CharPtr → clu_platform)
    (hset : ∀ p v, P p → P (set p v)) (w : World) (p : clu_platform) (hp : P p) :
    P (PLATFORM_GET_INFO drv param set w p).2.1 := by
  unfold PLATFORM_GET_INFO
  simp only
  split
  · exact hp
  · split
    · exact hset _ _ hp
    · split
      · exact hset _ _ hp
      · exact hset _ _ hp

theorem _cluGetPlatformInfo_id (drv : Driver) (w : World) (p : clu_platform) :
    (_cluGetPlatformInfo drv w p).2.1.id = p.id := by
  have h := runSteps_preserves (fun q => q.id = p.id) (platformSteps drv)
    (by
      intro f hf w a ha
      simp only [platformSteps, List.mem_cons, List.mem_singleton, List.not_mem_nil,
        or_false] at hf
      rcases hf with rfl | rfl | rfl | rfl | rfl <;>
        · apply PLATFORM_GET_INFO_preserves (fun q => q.id = p.id)
          · intro _ _ h
            exact h
          · exact ha)
    w p rfl
  unfold _cluGetPlatformInfo
  split
  · rfl
  · simp only
    split
    · exact h
    · exact h

theorem _cluGetPlatformInfo_has_info (drv : Driver) (w : World) (p : clu_platform)
    (h : (_cluGetPlatformInfo drv w p).1 = 0) :
    (_cluGetPlatformInfo drv w p).2.1.has_info = true := by
  unfold _cluGetPlatformInfo at h ⊢
  split
  · assumption
  · rename_i hp
    simp only [hp] at h
    simp only
    split
    · rename_i hne
      rw [if_pos hne] at h
      exact absurd h hne
    · rfl

theorem _cluGetDeviceInfo_has_info (drv : Driver) (w : World) (d : clu_device)
    (h : (_cluGetDeviceInfo drv w d).1 = 0) :
    (_cluGetDeviceInfo drv w d).2.1.has_info = true := by
  unfold _cluGetDeviceInfo at h ⊢
  by_cases hp : d.has_info = true
  · rw [if_pos hp]
    exact hp
  · rw [if_neg hp] at h ⊢
    by_cases hne : (runSteps (deviceSteps drv) w d).1 ≠ 0
    · rw [if_pos hne] at h
      exact absurd h hne
    · rw [if_neg hne]

theorem _cluGetPlatformInfo_of_has_info (drv : Driver) (w : World) (p : clu_platform)
    (h : p.has_info = true) : _cluGetPlatformInfo drv w p = (CL_SUCCESS, p, w) := by
  unfold _cluGetPlatformInfo
  rw [if_pos h]

theorem _cluGetDeviceInfo_of_has_info (drv : Driver) (w : World) (d : clu_device)
    (h : d.has_info = true) : _cluGetDeviceInfo drv w d = (CL_SUCCESS, d, w) := by
  unfold _cluGetDeviceInfo
  rw [if_pos h]

/-! ### The cache of a populated state -/

theorem _cluInitPlatformCache_of_populated (drv : Driver) (s : State) (arr : List clu_platform)
    (h : Populated s arr) : _cluInitPlatformCache drv s = some (CL_SUCCESS, s) := by
  unfold _cluInitPlatformCache
  have hne : ¬ s._num_platforms = EMPTY_CACHE := by
    rw [h.1]
    exact Nat.ne_of_lt h.2.1
  rw [if_neg hne]

/-- C10: hydrating a platform or device record that is already hydrated
returns `CL_SUCCESS`, issues no driver call (the world, with its trace of
driver calls, is returned as it was) and leaves the record unchanged; hence a
second hydration after a successful first one changes neither the record nor
the trace. -/
theorem hydration_idempotent (drv : Driver) (w : World) :
    (∀ p : clu_platform, p.has_info = true →
        _cluGetPlatformInfo drv w p = (CL_SUCCESS, p, w)) ∧
    (∀ d : clu_device, d.has_info = true →
        _cluGetDeviceInfo drv w d = (CL_SUCCESS, d, w)) ∧
    (∀ p : clu_platform, (_cluGetPlatformInfo drv w p).1 = CL_SUCCESS →
        _cluGetPlatformInfo drv (_cluGetPlatformInfo drv w p).2.2
            (_cluGetPlatformInfo drv w p).2.1 =
          (CL_SUCCESS, (_cluGetPlatformInfo drv w p).2.1, (_cluGetPlatformInfo drv w p).2.2)) ∧
    (∀ d : clu_device, (_cluGetDeviceInfo drv w d).1 = CL_SUCCESS →
        _cluGetDeviceInfo drv (_cluGetDeviceInfo drv w d).2.2
            (_cluGetDeviceInfo drv w d).2.1 =
          (CL_SUCCESS, (_cluGetDeviceInfo drv w d).2.1, (_cluGetDeviceInfo drv w d).2.2)) :=
  ⟨fun p h => _cluGetPlatformInfo_of_has_info drv w p h,
   fun d h => _cluGetDeviceInfo_of_has_info drv w d h,
   fun p h => _cluGetPlatformInfo_of_has_info drv _ _ (_cluGetPlatformInfo_has_info drv w p h),
   fun d h => _cluGetDeviceInfo_of_has_info drv _ _ (_cluGetDeviceInfo_has_info drv w d h)⟩

theorem hydration_idempotent_witness :
    (_cluGetPlatformInfo exampleDriver { trace := [], allocs := 0 }
        { clu_platform.zero with id := 11 }).1 = CL_SUCCESS ∧
    (_cluGetDeviceInfo exampleDriver { trace := [], allocs := 0 }
        { exampleDevice with has_info := false }).1 = CL_SUCCESS ∧
    _cluGetPlatformInfo exampleDriver
        (_cluGetPlatformInfo exampleDriver { trace := [], allocs := 0 }
          { clu_platform.zero with id := 11 }).2.2
        (_cluGetPlatformInfo exampleDriver { trace := [], allocs := 0 }
          { clu_platform.zero with id := 11 }).2.1 =
      (CL_SUCCESS,
        (_cluGetPlatformInfo exampleDriver { trace := [], allocs := 0 }
          { clu_platform.zero with id := 11 }).2.1,
        (_cluGetPlatformInfo exampleDriver { trace := [], allocs := 0 }
          { clu_platform.zero with id := 11 }).2.2) ∧
    _cluGetDeviceInfo exampleDriver
        (_cluGetDeviceInfo exampleDriver { trace := [], allocs := 0 }
          { exampleDevice with has_info := false }).2.2
        (_cluGetDeviceInfo exampleDriver { trace := [], allocs := 0 }
          { exampleDevice with has_info := false }).2.1 =
      (CL_SUCCESS,
        (_cluGetDeviceInfo exampleDriver { trace := [], allocs := 0 }
          { exampleDevice with has_info := false }).2.1,
        (_cluGetDeviceInfo exampleDriver { trace := [], allocs := 0 }
          { exampleDevice with has_info := false }).2.2) ∧
    _cluGetDeviceInfo exampleDriver { trace := [], allocs := 0 } exampleDevice =
      (CL_SUCCESS, exampleDevice, { trace := [], allocs := 0 }) :=
  ⟨by decide, by decide,
   (hydration_idempotent exampleDriver { trace := [], allocs := 0 }).2.2.1 _ (by decide),
   (hydration_idempotent exampleDriver { trace := [], allocs := 0 }).2.2.2 _ (by decide),
   (hydration_idempotent exampleDriver { trace := [], allocs := 0 }).2.1 exampleDevice
     (by decide)⟩

theorem set_of_getElem? {α : Type} (l : List α) (i : Nat) (x : α) (h : l[i]? = some x) :
    l.set i x = l := by
  induction l generalizing i with
  | nil => rfl
  | cons a t ih =>
    cases i with
    | zero =>
      simp only [List.getElem?_cons_zero, Option.some.injEq] at h
      simp [List.set, h]
    | succ i =>
      simp only [List.getElem?_cons_succ] at h
      simp [List.set, ih i h]

theorem platforms_of_populated {s : State} {arr : List clu_platform} (hpop : Populated s arr)
    {i : Nat} {curr : clu_platform} (hcurr : arr[i]? = some curr) : s._platforms = some arr := by
  rcases hpop.2.2 with h | ⟨h, _⟩
  · exact h
  · subst h
    cases hcurr

theorem cluGetPlatformByNumber_of_lt (drv : Driver) (s : State) (arr : List clu_platform)
    (num : Nat) (hpop : Populated s arr) (curr : clu_platform) (hcurr : arr[num]? = some curr)
    (hok : (_cluGetPlatformInfo drv s.world curr).1 = CL_SUCCESS) :
    cluGetPlatformByNumber drv s num =
      some ({ handle := some num, errcode := CL_SUCCESS },
            { s with
              _platforms := some (arr.set num (_cluGetPlatformInfo drv s.world curr).2.1)
              world := (_cluGetPlatformInfo drv s.world curr).2.2 }) := by
  have hlt : num < arr.length := by
    by_contra hge
    rw [List.getElem?_eq_none (Nat.le_of_not_lt hge)] at hcurr
    cases hcurr
  have hp : s._platforms = some arr := platforms_of_populated hpop hcurr
  unfold cluGetPlatformByNumber
  rw [_cluInitPlatformCache_of_populated drv s arr hpop]
  have h0 : ¬ (CL_SUCCESS ≠ 0) := by decide
  simp only [h0, if_false, hpop.1, hlt, if_true, hp, hcurr]
  have h1 : ¬ ((_cluGetPlatformInfo drv s.world curr).1 ≠ 0) := by
    rw [hok]
    decide
  rw [if_neg h1, hok]

theorem cluGetPlatformByNumber_of_ge (drv : Driver) (s : State) (arr : List clu_platform)
    (num : Nat) (hpop : Populated s arr) (hge : arr.length ≤ num) :
    cluGetPlatformByNumber drv s num =
      some ({ handle := none, errcode := CL_INVALID_VALUE }, s) := by
  unfold cluGetPlatformByNumber
  rw [_cluInitPlatformCache_of_populated drv s arr hpop]
  have h0 : ¬ (CL_SUCCESS ≠ 0) := by decide
  have hlt : ¬ (num < arr.length) := Nat.not_lt.mpr hge
  simp only [h0, if_false, hpop.1, hlt]

/-- C2: on a populated cache holding the records `arr`, `cluGetPlatformByNumber`
with an ordinal below their number, when the hydration of that record
succeeds, returns a handle to the record at that zero-based index with
`CL_SUCCESS`, the record there being the hydrated record of the same
identity; with an ordinal at or above their number it returns `NULL` with
`CL_INVALID_VALUE` and changes nothing. -/
theorem cluGetPlatformByNumber_spec (drv : Driver) (s : State) (arr : List clu_platform)
    (num : Nat) (hpop : Populated s arr) :
    (∀ curr, arr[num]? = some curr →
      (_cluGetPlatformInfo drv s.world curr).1 = CL_SUCCESS →
        cluGetPlatformByNumber drv s num =
          some ({ handle := some num, errcode := CL_SUCCESS },
                { s with
                  _platforms := some (arr.set num (_cluGetPlatformInfo drv s.world curr).2.1)
                  world := (_cluGetPlatformInfo drv s.world curr).2.2 }) ∧
        (_cluGetPlatformInfo drv s.world curr).2.1.id = curr.id ∧
        (_cluGetPlatformInfo drv s.world curr).2.1.has_info = true) ∧
    (arr.length ≤ num →
        cluGetPlatformByNumber drv s num =
          some ({ handle := none, errcode := CL_INVALID_VALUE }, s)) :=
  ⟨fun curr hcurr hok =>
    ⟨cluGetPlatformByNumber_of_lt drv s arr num hpop curr hcurr hok,
     _cluGetPlatformInfo_id drv _ _, _cluGetPlatformInfo_has_info drv _ _ hok⟩,
   fun hge => cluGetPlatformByNumber_of_ge drv s arr num hpop hge⟩

theorem cluGetPlatformByNumber_spec_witness :
    Populated stateAlphaBeta [examplePlatform 11 "Alpha", examplePlatform 22 "Beta"] ∧
    cluGetPlatformByNumber exampleDriver stateAlphaBeta 1 =
      some ({ handle := some 1, errcode := CL_SUCCESS }, stateAlphaBeta) ∧
    (stateAlphaBeta._platforms.bind (fun a => a[1]?)).map (fun p => p.name) =
      some (CharPtr.text "Beta".toList) ∧
    cluGetPlatformByNumber exampleDriver stateAlphaBeta 2 =
      some ({ handle := none, errcode := CL_INVALID_VALUE }, stateAlphaBeta) :=
  ⟨by decide,
   ((cluGetPlatformByNumber_spec exampleDriver stateAlphaBeta
      [examplePlatform 11 "Alpha", examplePlatform 22 "Beta"] 1 (by decide)).1
      (examplePlatform 22 "Beta") (by decide) (by decide)).1,
   by decide,
   (cluGetPlatformByNumber_spec exampleDriver stateAlphaBeta
      [examplePlatform 11 "Alpha", examplePlatform 22 "Beta"] 2 (by decide)).2 (by decide)⟩

/-! ### The lookup loops -/

theorem cluGetPlatformByID_loop_skip (drv : Driver) (s : State) (arr : List clu_platform)
    (id : Nat) (hp : s._platforms = some arr) (m fuel i : Nat)
    (h : ∀ j, i ≤ j → j < i + m → ∃ c, arr[j]? = some c ∧ c.id ≠ id) :
    cluGetPlatformByID_loop drv s id (m + fuel) i =
      cluGetPlatformByID_loop drv s id fuel (i + m) := by
  induction m generalizing i with
  | zero => simp
  | succ m ih =>
    obtain ⟨c, hc, hne⟩ := h i (Nat.le_refl _) (by omega)
    have e : m + 1 + fuel = (m + fuel) + 1 := by omega
    rw [e]
    simp only [cluGetPlatformByID_loop, hp, hc, hne, if_false]
    rw [ih (i + 1) (fun j h1 h2 => h j (by omega) (by omega))]
    congr 1
    omega

theorem cluGetPlatformByName_loop_skip (drv : Driver) (s : State) (arr : List clu_platform)
    (name : List Char) (len : Nat) (hp : s._platforms = some arr) (m fuel i : Nat)
    (h : ∀ j, i ≤ j → j < i + m →
      ∃ c t, arr[j]? = some c ∧ c.name = CharPtr.text t ∧ strncasecmp name t len ≠ 0) :
    cluGetPlatformByName_loop drv s name len (m + fuel) i =
      cluGetPlatformByName_loop drv s name len fuel (i + m) := by
  induction m generalizing i with
  | zero => simp
  | succ m ih =>
    obtain ⟨c, t, hc, ht, hne⟩ := h i (Nat.le_refl _) (by omega)
    have e : m + 1 + fuel = (m + fuel) + 1 := by omega
    rw [e]
    simp only [cluGetPlatformByName_loop, hp, hc, ht, hne, if_false]
    rw [ih (i + 1) (fun j h1 h2 => h j (by omega) (by omega))]
    congr 1
    omega

theorem strncasecmp_self (a : List Char) (n : Nat) : strncasecmp a a n = 0 := by
  induction a generalizing n with
  | nil => cases n <;> simp [strncasecmp]
  | cons c cs ih => cases n <;> simp [strncasecmp, ih]

/-- C7: on a populated cache holding the records `arr`, when `i` is the
(first) index of a record of identity `id`, `cluGetPlatformByID` hydrates
that record and returns a handle to it with `CL_SUCCESS`, or `NULL` with the
code of the hydration when the hydration fails; when no record has identity
`id` it returns `NULL` with `CL_INVALID_PLATFORM` and changes nothing. -/
theorem cluGetPlatformByID_spec (drv : Driver) (s : State) (arr : List clu_platform)
    (id : Nat) (hpop : Populated s arr) :
    (∀ i curr, arr[i]? = some curr → curr.id = id →
      (∀ c ∈ arr.take i, c.id ≠ id) →
        ((_cluGetPlatformInfo drv s.world curr).1 = CL_SUCCESS →
          cluGetPlatformByID drv s id =
            some ({ handle := some i, errcode := CL_SUCCESS },
                  { s with
                    _platforms := some (arr.set i (_cluGetPlatformInfo drv s.world curr).2.1)
                    world := (_cluGetPlatformInfo drv s.world curr).2.2 }) ∧
          (_cluGetPlatformInfo drv s.world curr).2.1.id = id ∧
          (_cluGetPlatformInfo drv s.world curr).2.1.has_info = true) ∧
        ((_cluGetPlatformInfo drv s.world curr).1 ≠ CL_SUCCESS →
          cluGetPlatformByID drv s id =
            some ({ handle := none, errcode := (_cluGetPlatformInfo drv s.world curr).1 },
                  { s with
                    _platforms := some (arr.set i (_cluGetPlatformInfo drv s.world curr).2.1)
                    world := (_cluGetPlatformInfo drv s.world curr).2.2 }))) ∧
    ((∀ c ∈ arr, c.id ≠ id) →
        cluGetPlatformByID drv s id =
          some ({ handle := none, errcode := CL_INVALID_PLATFORM }, s)) := by
  have h0 : ¬ (CL_SUCCESS ≠ 0) := by decide
  constructor
  · intro i curr hcurr hid hfirst
    have hlt : i < arr.length := by
      by_contra hge
      rw [List.getElem?_eq_none (Nat.le_of_not_lt hge)] at hcurr
      cases hcurr
    have hp : s._platforms = some arr := by
      rcases hpop.2.2 with h | ⟨h, _⟩
      · exact h
      · subst h
        cases hcurr
    have hskip := cluGetPlatformByID_loop_skip drv s arr id hp i (arr.length - i) 0
      (by
        intro j _ hj
        have hj' : j < arr.length := by omega
        refine ⟨arr[j], List.getElem?_eq_getElem hj', ?_⟩
        apply hfirst
        apply List.getElem?_mem (n := j)
        rw [List.getElem?_take_of_lt (by omega)]
        exact List.getElem?_eq_getElem hj')
    have hfuel : i + (arr.length - i) = arr.length := by omega
    have hstep : arr.length - i = (arr.length - i - 1) + 1 := by omega
    rw [hfuel, Nat.zero_add, hstep] at hskip
    have hcall : cluGetPlatformByID drv s id =
        cluGetPlatformByID_loop drv s id (arr.length - i - 1 + 1) i := by
      unfold cluGetPlatformByID
      rw [_cluInitPlatformCache_of_populated drv s arr hpop]
      simp only [h0, if_false, hpop.1]
      exact hskip
    rw [hcall]
    simp only [cluGetPlatformByID_loop, hp, hcurr, hid, if_true]
    constructor
    · intro hok
      have h1 : ¬ ((_cluGetPlatformInfo drv s.world curr).1 ≠ 0) := by
        rw [hok]
        decide
      rw [if_neg h1, hok]
      refine ⟨rfl, ?_, _cluGetPlatformInfo_has_info drv _ _ hok⟩
      rw [_cluGetPlatformInfo_id, hid]
    · intro hbad
      have hbad' : (_cluGetPlatformInfo drv s.world curr).1 ≠ 0 := hbad
      rw [if_pos hbad']
  · intro hnone
    unfold cluGetPlatformByID
    rw [_cluInitPlatformCache_of_populated drv s arr hpop]
    simp only [h0, if_false, hpop.1]
    rcases hpop.2.2 with hp | ⟨hnil, _⟩
    · have hskip := cluGetPlatformByID_loop_skip drv s arr id hp arr.length 0 0
        (by
          intro j _ hj
          have hj' : j < arr.length := by omega
          exact ⟨arr[j], List.getElem?_eq_getElem hj', hnone _ (List.getElem_mem _)⟩)
      rw [Nat.add_zero, Nat.zero_add] at hskip
      rw [hskip]
      rfl
    · subst hnil
      rfl

theorem cluGetPlatformByID_spec_witness :
    Populated stateAlphaBeta [examplePlatform 11 "Alpha", examplePlatform 22 "Beta"] ∧
    cluGetPlatformByID exampleDriver stateAlphaBeta 22 =
      some ({ handle := some 1, errcode := CL_SUCCESS }, stateAlphaBeta) ∧
    cluGetPlatformByID exampleDriver stateAlphaBeta 33 =
      some ({ handle := none, errcode := CL_INVALID_PLATFORM }, stateAlphaBeta) :=
  ⟨by decide,
   (((cluGetPlatformByID_spec exampleDriver stateAlphaBeta
      [examplePlatform 11 "Alpha", examplePlatform 22 "Beta"] 22 (by decide)).1
      1 (examplePlatform 22 "Beta") (by decide) (by decide) (by decide)).1 (by decide)).1,
   (cluGetPlatformByID_spec exampleDriver stateAlphaBeta
      [examplePlatform 11 "Alpha", examplePlatform 22 "Beta"] 33 (by decide)).2 (by decide)⟩

/-- C6: on a populated cache holding at least one record,
`cluGetPlatformByName` with a `NULL` name and with the empty string both
return a handle to the record at index 0 with `CL_SUCCESS` and change
nothing; this holds whatever the names of the records are, including `NULL`
names that a comparison could not read, and however many records there
are. -/
theorem cluGetPlatformByName_empty (drv : Driver) (s : State) (arr : List clu_platform)
    (hpop : Populated s arr) (hne : arr ≠ []) :
    cluGetPlatformByName drv s none =
      some ({ handle := some 0, errcode := CL_SUCCESS }, s) ∧
    cluGetPlatformByName drv s (some []) =
      some ({ handle := some 0, errcode := CL_SUCCESS }, s) := by
  have h0 : ¬ (CL_SUCCESS ≠ 0) := by decide
  have hp : s._platforms = some arr := by
    rcases hpop.2.2 with h | ⟨h, _⟩
    · exact h
    · exact absurd h hne
  constructor
  · unfold cluGetPlatformByName
    rw [_cluInitPlatformCache_of_populated drv s arr hpop]
    simp only [h0, if_false, hp, Option.map_some']
  · unfold cluGetPlatformByName
    rw [_cluInitPlatformCache_of_populated drv s arr hpop]
    simp only [h0, if_false, hp, Option.map_some']

theorem cluGetPlatformByName_empty_witness :
    (Populated (exampleState [{ clu_platform.zero with id := 11 },
        { clu_platform.zero with id := 22 }])
      [{ clu_platform.zero with id := 11 }, { clu_platform.zero with id := 22 }] ∧
     [{ clu_platform.zero with id := 11 }, { clu_platform.zero with id := 22 }] ≠ []) ∧
    cluGetPlatformByName exampleDriver
      (exampleState [{ clu_platform.zero with id := 11 }, { clu_platform.zero with id := 22 }])
      none =
      some ({ handle := some 0, errcode := CL_SUCCESS },
        exampleState [{ clu_platform.zero with id := 11 },
          { clu_platform.zero with id := 22 }]) ∧
    cluGetPlatformByName exampleDriver
      (exampleState [{ clu_platform.zero with id := 11 }, { clu_platform.zero with id := 22 }])
      (some []) =
      some ({ handle := some 0, errcode := CL_SUCCESS },
        exampleState [{ clu_platform.zero with id := 11 },
          { clu_platform.zero with id := 22 }]) :=
  ⟨by decide,
   cluGetPlatformByName_empty exampleDriver
     (exampleState [{ clu_platform.zero with id := 11 }, { clu_platform.zero with id := 22 }])
     [{ clu_platform.zero with id := 11 }, { clu_platform.zero with id := 22 }]
     (by decide) (by decide)⟩

/-- C5, as the code has it: on a populated cache of hydrated records, when no
record before index `i` has a name beginning, case ignored, with the name of
the record at index `i`, `cluGetPlatformByName` applied to that name and
`cluGetPlatformByNumber` applied to `i` both return a handle to the record at
index `i` with `CL_SUCCESS` and change nothing. -/
theorem cluGetPlatformByName_eq_byNumber (drv : Driver) (s : State) (arr : List clu_platform)
    (i : Nat) (curr : clu_platform) (nm : List Char) (hpop : Populated s arr)
    (hhyd : ∀ p ∈ arr, p.has_info = true ∧ p.name.isText = true)
    (hcurr : arr[i]? = some curr) (hname : curr.name = CharPtr.text nm)
    (hfirst : ∀ p ∈ arr.take i, nameBeginsWith nm p = false) :
    cluGetPlatformByName drv s (some nm) =
      some ({ handle := some i, errcode := CL_SUCCESS }, s) ∧
    cluGetPlatformByNumber drv s i =
      some ({ handle := some i, errcode := CL_SUCCESS }, s) := by
  have h0 : ¬ (CL_SUCCESS ≠ 0) := by decide
  have hlt : i < arr.length := by
    by_contra hge
    rw [List.getElem?_eq_none (Nat.le_of_not_lt hge)] at hcurr
    cases hcurr
  have hp : s._platforms = some arr := platforms_of_populated hpop hcurr
  have hinfo : curr.has_info = true := (hhyd curr (List.getElem?_mem hcurr)).1
  have hhydrate := _cluGetPlatformInfo_of_has_info drv s.world curr hinfo
  have hstate : ({ s with _platforms := some (arr.set i curr), world := s.world } : State) = s := by
    rw [set_of_getElem? arr i curr hcurr, ← hp]
  constructor
  · cases nm with
    | nil =>
      have hi : i = 0 := by
        by_contra hne
        have h0lt : 0 < arr.length := by omega
        have hmem : arr[0] ∈ arr.take i := by
          apply List.getElem?_mem (n := 0)
          rw [List.getElem?_take_of_lt (by omega)]
          exact List.getElem?_eq_getElem h0lt
        have hf := hfirst _ hmem
        have ht := (hhyd arr[0] (List.getElem_mem _)).2
        unfold nameBeginsWith at hf
        cases hn : arr[0].name with
        | NULL => rw [hn] at ht; cases ht
        | uninit k => rw [hn] at ht; cases ht
        | text t =>
          rw [hn] at hf
          simp [strlen, strncasecmp] at hf
      subst hi
      unfold cluGetPlatformByName
      rw [_cluInitPlatformCache_of_populated drv s arr hpop]
      simp only [h0, if_false, hp, Option.map_some']
    | cons c cs =>
      have hskip := cluGetPlatformByName_loop_skip drv s arr (c :: cs) (strlen (c :: cs)) hp i
        (arr.length - i) 0
        (by
          intro j _ hj
          have hj' : j < arr.length := by omega
          have hmem : arr[j] ∈ arr.take i := by
            apply List.getElem?_mem (n := j)
            rw [List.getElem?_take_of_lt (by omega)]
            exact List.getElem?_eq_getElem hj'
          have hf := hfirst _ hmem
          have ht := (hhyd arr[j] (List.getElem_mem _)).2
          unfold nameBeginsWith at hf
          cases hn : arr[j].name with
          | NULL => rw [hn] at ht; cases ht
          | uninit k => rw [hn] at ht; cases ht
          | text t =>
            rw [hn] at hf
            refine ⟨arr[j], t, List.getElem?_eq_getElem hj', hn, ?_⟩
            simpa using hf)
      have hfuel : i + (arr.length - i) = arr.length := by omega
      have hstep : arr.length - i = (arr.length - i - 1) + 1 := by omega
      rw [hfuel, Nat.zero_add, hstep] at hskip
      unfold cluGetPlatformByName
      rw [_cluInitPlatformCache_of_populated drv s arr hpop]
      simp only [h0, if_false, hpop.1]
      rw [hskip]
      simp only [cluGetPlatformByName_loop, hp, hcurr, hname, strncasecmp_self, if_true,
        hhydrate, h0, if_false, hstate]
  · have h := cluGetPlatformByNumber_of_lt drv s arr i hpop curr hcurr
      (by rw [hhydrate])
    rw [h]
    simp only [hhydrate, hstate]

theorem cluGetPlatformByName_eq_byNumber_witness :
    (Populated stateAlphaBeta [examplePlatform 11 "Alpha", examplePlatform 22 "Beta"] ∧
      (∀ p ∈ [examplePlatform 11 "Alpha", examplePlatform 22 "Beta"],
        p.has_info = true ∧ p.name.isText = true) ∧
      [examplePlatform 11 "Alpha", examplePlatform 22 "Beta"][1]? =
        some (examplePlatform 22 "Beta") ∧
      (examplePlatform 22 "Beta").name = CharPtr.text "Beta".toList ∧
      (∀ p ∈ [examplePlatform 11 "Alpha", examplePlatform 22 "Beta"].take 1,
        nameBeginsWith "Beta".toList p = false)) ∧
    cluGetPlatformByName exampleDriver stateAlphaBeta (some "Beta".toList) =
      some ({ handle := some 1, errcode := CL_SUCCESS }, stateAlphaBeta) ∧
    cluGetPlatformByNumber exampleDriver stateAlphaBeta 1 =
      some ({ handle := some 1, errcode := CL_SUCCESS }, stateAlphaBeta) :=
  ⟨by decide,
   cluGetPlatformByName_eq_byNumber exampleDriver stateAlphaBeta
     [examplePlatform 11 "Alpha", examplePlatform 22 "Beta"] 1 (examplePlatform 22 "Beta")
     "Beta".toList (by decide) (by decide) (by decide) (by decide) (by decide)⟩

/-- C5 as stated fails: in a hydrated cache of two platforms with distinct
names, "Intel(R) OpenCL HD Graphics" and "Intel(R) OpenCL",
`cluGetPlatformByName` applied to the name of the record at index 1 returns
the record at index 0, while `cluGetPlatformByNumber 1` returns the record at
index 1. -/
theorem cluGetPlatformByName_ne_byNumber :
    Populated stateIntel [examplePlatform 11 "Intel(R) OpenCL HD Graphics",
      examplePlatform 22 "Intel(R) OpenCL"] ∧
    (∀ p ∈ [examplePlatform 11 "Intel(R) OpenCL HD Graphics",
      examplePlatform 22 "Intel(R) OpenCL"], p.has_info = true) ∧
    ([examplePlatform 11 "Intel(R) OpenCL HD Graphics",
      examplePlatform 22 "Intel(R) OpenCL"].map (fun p => p.name)).Nodup ∧
    cluGetPlatformByName exampleDriver stateIntel
        (some "Intel(R) OpenCL".toList) =
      some ({ handle := some 0, errcode := CL_SUCCESS }, stateIntel) ∧
    cluGetPlatformByNumber exampleDriver stateIntel 1 =
      some ({ handle := some 1, errcode := CL_SUCCESS }, stateIntel) := by
  decide

/-- C3, the code at a failing input: with two platforms cached, the argument
"4294967296" is read by `strtoul` as `2 ^ 32` in full; the `cl_uint`
parameter of `cluGetPlatformByNumber` receives it as 0, so the record at
index 0 is returned with `CL_SUCCESS`, where the claim has a `NULL` handle
with `CL_INVALID_VALUE` for an ordinal at or above the number of platforms. -/
theorem cluGetPlatformFromArg_wraps :
    strtoul "4294967296".toList = (2 ^ 32, []) ∧
    cluGetPlatformFromArg exampleDriver stateAlphaBeta (some "4294967296".toList) =
      some ({ handle := some 0, errcode := CL_SUCCESS }, stateAlphaBeta) := by
  decide

/-- C4, the code at a failing input: on a cache that was enumerated and not
hydrated (here by the lookup itself, from the state at program start) the
loop of `cluGetPlatformByName` compares the query with the `NULL` name of the
first record before any hydration, which is undefined behaviour. -/
theorem cluGetPlatformByName_unhydrated :
    _cluInitPlatformCache exampleDriver State.init = some (CL_SUCCESS, stateEnumerated) ∧
    cluGetPlatformByName exampleDriver State.init (some "Alpha".toList) = none ∧
    cluGetPlatformByName exampleDriver stateEnumerated (some "Alpha".toList) = none := by
  decide

/-- C9, the code at a failing input: when the count query succeeds and the
list query fails, `_cluInitPlatformCache` (and likewise a direct call of
`cluGetPlatformIDs`) returns the error but leaves
`_num_platforms = 2` with `_platforms = NULL`; the cache then counts as
populated, a second `_cluInitPlatformCache` returns `CL_SUCCESS` without any
driver call, and a lookup reads through the `NULL` array. -/
theorem _cluInitPlatformCache_failed_list :
    _cluInitPlatformCache listFailingDriver State.init = some (-5, stateAfterFailedList) ∧
    cluGetPlatformIDs listFailingDriver State.init true NumPtr.user =
      some ({ error := -5, platforms := some none, num_platforms := some 2 },
            stateAfterFailedList) ∧
    stateAfterFailedList._num_platforms ≠ State.init._num_platforms ∧
    _cluInitPlatformCache listFailingDriver stateAfterFailedList =
      some (CL_SUCCESS, stateAfterFailedList) ∧
    cluGetPlatformByNumber listFailingDriver stateAfterFailedList 0 = none := by
  decide

/-! ### Repeated enumeration -/

theorem cluGetPlatformIDs_list_zero (drv : Driver) (s : State) (ptr : NumPtr)
    (h0 : s._num_platforms = 0) :
    cluGetPlatformIDs_list drv s true ptr =
      some ({ error := CL_SUCCESS, platforms := some none, num_platforms := some 0 }, s) := by
  unfold cluGetPlatformIDs_list
  simp [h0]

theorem cluGetPlatformIDs_list_copy (drv : Driver) (s : State) (arr : List clu_platform)
    (ptr : NumPtr) (hp : s._platforms = some arr)
    (hn0 : s._num_platforms ≠ 0) (hle : s._num_platforms ≤ arr.length) :
    cluGetPlatformIDs_list drv s true ptr =
      some (if drv.alloc s.world.trace s.world.allocs (s._num_platforms * 8) = true then
              { error := CL_SUCCESS,
                platforms := some (some ((arr.take s._num_platforms).map (fun p => p.id))),
                num_platforms := some s._num_platforms }
            else
              { error := CL_OUT_OF_HOST_MEMORY, platforms := some none,
                num_platforms := some s._num_platforms },
            { s with world := s.world.bump }) := by
  unfold cluGetPlatformIDs_list
  have hle' : ¬ (arr.length < s._num_platforms) := Nat.not_lt.mpr hle
  by_cases ha : drv.alloc s.world.trace s.world.allocs (s._num_platforms * 8) = true
  · simp [hn0, hp, hle', ha]
  · simp [hn0, hp, ha]

theorem overwrite_length {α : Type} (buf vals : List α) (h : vals.length ≤ buf.length) :
    (overwrite buf vals).length = buf.length := by
  unfold overwrite
  simp only [List.length_take, List.length_append, List.length_drop]
  omega

theorem ids_of_fresh (buf : List Nat) (n : Nat) (h : buf.length = n) :
    List.map (fun p => p.id)
      (List.take n
        (List.map (fun i => { clu_platform.zero with id := i }) (List.take n buf) ++
          List.replicate (n - n) clu_platform.zero)) = buf := by
  subst h
  simp [List.take_length, List.map_map, Function.comp_def]

theorem cluGetPlatformIDs_list_success (drv : Driver) (N : Nat) (s s1 : State)
    (r1 : PlatformIDs) (hdrv : drv.reportsPlatforms N) (hN : N < EMPTY_CACHE)
    (hn : s._num_platforms = N)
    (h : cluGetPlatformIDs_list drv s true NumPtr.user = some (r1, s1))
    (hok : r1.error = CL_SUCCESS) :
    s1._num_platforms = N ∧
    ((N = 0 ∧ r1 = { error := CL_SUCCESS, platforms := some none, num_platforms := some 0 }) ∨
     (∃ arr, s1._platforms = some arr ∧ N ≠ 0 ∧ N ≤ arr.length ∧
        r1 = { error := CL_SUCCESS,
               platforms := some (some ((arr.take N).map (fun p => p.id))),
               num_platforms := some N })) := by
  have hoom : CL_OUT_OF_HOST_MEMORY ≠ CL_SUCCESS := by decide
  by_cases h0 : N = 0
  · rw [cluGetPlatformIDs_list_zero drv s _ (by rw [hn, h0])] at h
    simp only [Option.some.injEq, Prod.mk.injEq] at h
    obtain ⟨hr, hs⟩ := h
    subst hr hs
    exact ⟨hn, Or.inl ⟨h0, rfl⟩⟩
  · cases hp : s._platforms with
    | some arr =>
      by_cases hle : s._num_platforms ≤ arr.length
      · rw [cluGetPlatformIDs_list_copy drv s arr _ hp (by rw [hn]; exact h0) hle] at h
        simp only [Option.some.injEq, Prod.mk.injEq] at h
        obtain ⟨hr, hs⟩ := h
        subst hs
        by_cases ha : drv.alloc s.world.trace s.world.allocs (s._num_platforms * 8) = true
        · rw [if_pos ha] at hr
          subst hr
          refine ⟨hn, Or.inr ⟨arr, hp, h0, by rw [← hn]; exact hle, by rw [hn]⟩⟩
        · rw [if_neg ha] at hr
          subst hr
          exact absurd hok hoom
      · exfalso
        unfold cluGetPlatformIDs_list at h
        have hlt : arr.length < s._num_platforms := Nat.lt_of_not_le hle
        have hn0 : s._num_platforms ≠ 0 := by rw [hn]; exact h0
        by_cases ha : drv.alloc s.world.trace s.world.allocs (s._num_platforms * 8) = true
        · simp [hn0, hp, hlt, ha] at h
        · simp [hn0, hp, ha] at h
          rw [← h.1] at hok
          exact absurd hok hoom
    | none =>
      unfold cluGetPlatformIDs_list at h
      have hn0 : s._num_platforms ≠ 0 := by rw [hn]; exact h0
      simp only [hn0, hp, if_false, Bool.not_eq_true, not_true_eq_false] at h
      by_cases ha : drv.alloc s.world.trace s.world.allocs (s._num_platforms * 8) = false
      · rw [if_pos ha] at h
        simp only [Option.some.injEq, Prod.mk.injEq] at h
        rw [← h.1] at hok
        exact absurd hok hoom
      · rw [if_neg ha] at h
        by_cases hb : drv.alloc s.world.bump.trace s.world.bump.allocs
            (s._num_platforms * 72) = false
        · rw [if_pos hb] at h
          simp only [Option.some.injEq, Prod.mk.injEq] at h
          rw [← h.1] at hok
          exact absurd hok hoom
        · rw [if_neg hb] at h
          by_cases he : (drv.clGetPlatformIDs s.world.bump.bump.trace s._num_platforms
              true).error ≠ CL_SUCCESS
          · rw [if_pos he] at h
            simp only [Option.some.injEq, Prod.mk.injEq] at h
            rw [← h.1] at hok
            exact absurd hok he
          · rw [if_neg he] at h
            have hu : ¬ (NumPtr.user = NumPtr.cache) := by decide
            have hnn : ¬ (s._num_platforms > s._num_platforms) := Nat.lt_irrefl _
            simp only [hu, if_false, hnn, Option.some.injEq, Prod.mk.injEq] at h
            obtain ⟨hr, hs⟩ := h
            subst hr hs
            have hnum := hdrv _ _ _ (not_not.mp he)
            have hmod : N % 2 ^ 32 = N := Nat.mod_eq_of_lt (Nat.lt_trans hN (by decide))
            have hlen : (overwrite (List.replicate s._num_platforms 0)
                (List.take s._num_platforms
                  (drv.clGetPlatformIDs s.world.bump.bump.trace s._num_platforms true).ids)).length
                = s._num_platforms := by
              rw [overwrite_length]
              · simp
              · simp
            refine ⟨hn, Or.inr ⟨_, rfl, h0, ?_, ?_⟩⟩
            · simp only [List.length_append, List.length_map, List.length_take, hlen,
                List.length_replicate]
              omega
            · rw [hnum, hmod]
              congr 2
              rw [← hn]
              exact congrArg some (ids_of_fresh _ _ hlen).symm


theorem cluGetPlatformIDs_first_success (drv : Driver) (N : Nat) (s0 s1 : State)
    (r1 : PlatformIDs) (hdrv : drv.reportsPlatforms N) (hN : N < EMPTY_CACHE)
    (hinv : s0._num_platforms < EMPTY_CACHE → s0._num_platforms = N)
    (h1 : cluGetPlatformIDs drv s0 true NumPtr.user = some (r1, s1))
    (hok : r1.error = CL_SUCCESS) :
    s1._num_platforms = N ∧
    ((N = 0 ∧ r1 = { error := CL_SUCCESS, platforms := some none, num_platforms := some 0 }) ∨
     (∃ arr, s1._platforms = some arr ∧ N ≠ 0 ∧ N ≤ arr.length ∧
        r1 = { error := CL_SUCCESS,
               platforms := some (some ((arr.take N).map (fun p => p.id))),
               num_platforms := some N })) := by
  unfold cluGetPlatformIDs at h1
  have hu : ¬ (NumPtr.user = NumPtr.null) := by decide
  rw [if_neg hu] at h1
  by_cases hc : s0._num_platforms < EMPTY_CACHE
  · rw [if_pos hc] at h1
    exact cluGetPlatformIDs_list_success drv N s0 s1 r1 hdrv hN (hinv hc) h1 hok
  · rw [if_neg hc] at h1
    simp only at h1
    by_cases he : (drv.clGetPlatformIDs s0.world.trace 0 false).error = CL_SUCCESS
    · rw [if_pos he] at h1
      have hmod : N % 2 ^ 32 = N := Nat.mod_eq_of_lt (Nat.lt_trans hN (by decide))
      refine cluGetPlatformIDs_list_success drv N _ s1 r1 hdrv hN ?_ h1 hok
      show (drv.clGetPlatformIDs s0.world.trace 0 false).num % 2 ^ 32 = N
      rw [hdrv _ _ _ he, hmod]
    · rw [if_neg he] at h1
      simp only [Option.some.injEq, Prod.mk.injEq] at h1
      rw [← h1.1] at hok
      exact absurd hok he

theorem cluGetPlatformIDs_repeat_cached (drv : Driver) (N : Nat) (r1 : PlatformIDs)
    (hN : N < EMPTY_CACHE) (k : Nat) (s : State) (hn : s._num_platforms = N)
    (hcase : (N = 0 ∧
        r1 = { error := CL_SUCCESS, platforms := some none, num_platforms := some 0 }) ∨
      (∃ arr, s._platforms = some arr ∧ N ≠ 0 ∧ N ≤ arr.length ∧
        r1 = { error := CL_SUCCESS,
               platforms := some (some ((arr.take N).map (fun p => p.id))),
               num_platforms := some N })) :
    ∃ rs sk, cluGetPlatformIDs_repeat drv k s = some (rs, sk) ∧ rs.length = k ∧
      sk.world.trace = s.world.trace ∧ sk._num_platforms = s._num_platforms ∧
      sk._platforms = s._platforms ∧
      (∀ r ∈ rs, r = r1 ∨ r.error = CL_OUT_OF_HOST_MEMORY) ∧
      ((∀ t a b, drv.alloc t a b = true) → ∀ r ∈ rs, r = r1) := by
  induction k generalizing s with
  | zero => exact ⟨[], s, rfl, rfl, rfl, rfl, rfl, by simp, by simp⟩
  | succ k ih =>
    have hu : ¬ (NumPtr.user = NumPtr.null) := by decide
    have hc : s._num_platforms < EMPTY_CACHE := by rw [hn]; exact hN
    have hcall : cluGetPlatformIDs drv s true NumPtr.user =
        cluGetPlatformIDs_list drv s true NumPtr.user := by
      unfold cluGetPlatformIDs
      rw [if_neg hu, if_pos hc]
    rcases hcase with ⟨h0, hr⟩ | ⟨arr, hp, h0, hle, hr⟩
    · obtain ⟨rs, sk, hrep, hlen, htr, hnum, hpl, hall, hgood⟩ := ih s hn (Or.inl ⟨h0, hr⟩)
      refine ⟨r1 :: rs, sk, ?_, by simp [hlen], htr, hnum, hpl, ?_, ?_⟩
      · simp only [cluGetPlatformIDs_repeat, hcall]
        rw [cluGetPlatformIDs_list_zero drv s _ (by rw [hn, h0]), ← hr]
        simp only [hrep]
      · intro r hmem
        rcases List.mem_cons.mp hmem with h | h
        · exact Or.inl h
        · exact hall r h
      · intro halloc r hmem
        rcases List.mem_cons.mp hmem with h | h
        · exact h
        · exact hgood halloc r h
    · have hstep := cluGetPlatformIDs_list_copy drv s arr NumPtr.user hp
        (by rw [hn]; exact h0) (by rw [hn]; exact hle)
      obtain ⟨rs, sk, hrep, hlen, htr, hnum, hpl, hall, hgood⟩ :=
        ih { s with world := s.world.bump } hn (Or.inr ⟨arr, hp, h0, hle, hr⟩)
      refine ⟨(if drv.alloc s.world.trace s.world.allocs (s._num_platforms * 8) = true then
              { error := CL_SUCCESS,
                platforms := some (some ((arr.take s._num_platforms).map (fun p => p.id))),
                num_platforms := some s._num_platforms }
            else
              { error := CL_OUT_OF_HOST_MEMORY, platforms := some none,
                num_platforms := some s._num_platforms }) :: rs,
        sk, ?_, by simp [hlen], htr, hnum, hpl, ?_, ?_⟩
      · simp only [cluGetPlatformIDs_repeat, hcall, hstep, hrep]
      · intro r hmem
        rcases List.mem_cons.mp hmem with h | h
        · by_cases ha : drv.alloc s.world.trace s.world.allocs (s._num_platforms * 8) = true
          · rw [if_pos ha] at h
            left
            rw [h, hr, hn]
          · rw [if_neg ha] at h
            right
            rw [h]
        · exact hall r h
      · intro halloc r hmem
        rcases List.mem_cons.mp hmem with h | h
        · rw [if_pos (halloc _ _ _)] at h
          rw [h, hr, hn]
        · exact hgood halloc r h

/-- C8, as the code has it: for a driver that reports the same number of
platforms, below the sentinel, in every successful enumeration, and a state
whose cached count, if any, is that number: after a first successful `cluGetPlatformIDs` with a
list output, any number `k` of further calls all run, make no driver call
(the trace stays as the first call left it), leave `_num_platforms` and
`_platforms` unchanged, and each returns the same code, list and count as the
first call, unless the allocation of its result array fails, in which case it
returns `CL_OUT_OF_HOST_MEMORY`. -/
theorem cluGetPlatformIDs_idempotent (drv : Driver) (N : Nat) (s0 s1 : State)
    (r1 : PlatformIDs) (k : Nat) (hdrv : drv.reportsPlatforms N) (hN : N < EMPTY_CACHE)
    (hinv : s0._num_platforms < EMPTY_CACHE → s0._num_platforms = N)
    (h1 : cluGetPlatformIDs drv s0 true NumPtr.user = some (r1, s1))
    (hok : r1.error = CL_SUCCESS) :
    ∃ rs sk, cluGetPlatformIDs_repeat drv k s1 = some (rs, sk) ∧ rs.length = k ∧
      sk.world.trace = s1.world.trace ∧ sk._num_platforms = s1._num_platforms ∧
      sk._platforms = s1._platforms ∧
      (∀ r ∈ rs, r = r1 ∨ r.error = CL_OUT_OF_HOST_MEMORY) ∧
      ((∀ t a b, drv.alloc t a b = true) → ∀ r ∈ rs, r = r1) := by
  obtain ⟨hn, hcase⟩ := cluGetPlatformIDs_first_success drv N s0 s1 r1 hdrv hN hinv h1 hok
  exact cluGetPlatformIDs_repeat_cached drv N r1 hN k s1 hn hcase

theorem cluGetPlatformIDs_idempotent_witness :
    (exampleDriver.reportsPlatforms 2 ∧ 2 < EMPTY_CACHE ∧
      (State.init._num_platforms < EMPTY_CACHE → State.init._num_platforms = 2) ∧
      cluGetPlatformIDs exampleDriver State.init true NumPtr.user =
        some ({ error := CL_SUCCESS, platforms := some (some [11, 22]),
                num_platforms := some 2 }, stateEnumerated)) ∧
    (∃ rs sk, cluGetPlatformIDs_repeat exampleDriver 3 stateEnumerated = some (rs, sk) ∧
      rs.length = 3 ∧
      sk.world.trace = stateEnumerated.world.trace ∧
      sk._num_platforms = stateEnumerated._num_platforms ∧
      sk._platforms = stateEnumerated._platforms ∧
      (∀ r ∈ rs, r = { error := CL_SUCCESS, platforms := some (some [11, 22]),
                       num_platforms := some 2 } ∨ r.error = CL_OUT_OF_HOST_MEMORY) ∧
      ((∀ t a b, exampleDriver.alloc t a b = true) →
        ∀ r ∈ rs, r = { error := CL_SUCCESS, platforms := some (some [11, 22]),
                        num_platforms := some 2 })) ∧
    cluGetPlatformIDs_repeat exampleDriver 3 stateEnumerated =
      some (List.replicate 3 { error := CL_SUCCESS, platforms := some (some [11, 22]),
                               num_platforms := some 2 },
            { stateEnumerated with
              world := { trace := [Call.clGetPlatformIDs 0 false, Call.clGetPlatformIDs 2 true],
                         allocs := 5 } }) :=
  ⟨⟨fun _ _ _ _ => rfl, by decide, by decide, by decide⟩,
   cluGetPlatformIDs_idempotent exampleDriver 2 State.init stateEnumerated _ 3
     (fun _ _ _ _ => rfl) (by decide) (by decide) (by decide) (by decide),
   by decide⟩

/-- C8 as stated fails: with a driver whose count query reports two
platforms and whose list query then reports one, the first
`cluGetPlatformIDs` returns `CL_SUCCESS` with the count 1, and the second,
answered from the cache, returns the count 2; and with a driver that stays at
two platforms, a later call whose result array cannot be allocated returns
`CL_OUT_OF_HOST_MEMORY` and no list. -/
theorem cluGetPlatformIDs_not_idempotent :
    (cluGetPlatformIDs shrinkingDriver State.init true NumPtr.user).map (fun r => r.1) =
      some { error := CL_SUCCESS, platforms := some (some [11, 0]),
             num_platforms := some 1 } ∧
    ((cluGetPlatformIDs shrinkingDriver State.init true NumPtr.user).bind
        (fun r => cluGetPlatformIDs shrinkingDriver r.2 true NumPtr.user)).map
        (fun r => (r.1, r.2.world.trace)) =
      some ({ error := CL_SUCCESS, platforms := some (some [11, 0]),
              num_platforms := some 2 },
            [Call.clGetPlatformIDs 0 false, Call.clGetPlatformIDs 2 true]) ∧
    cluGetPlatformIDs thirdAllocFailingDriver State.init true NumPtr.user =
      some ({ error := CL_SUCCESS, platforms := some (some [11, 22]),
              num_platforms := some 2 }, stateEnumerated) ∧
    (cluGetPlatformIDs thirdAllocFailingDriver stateEnumerated true NumPtr.user).map
        (fun r => r.1) =
      some { error := CL_OUT_OF_HOST_MEMORY, platforms := some none,
             num_platforms := some 2 } := by
  decide

/-! ### Tables and evaluations at failing inputs -/

/-- C16, the code at failing inputs: for a type above 15 the clamped entry of
`device_type_string` is read, and that entry is spelled "unkown", not
"unknown"; so for 16 and for the all-devices mask. -/
theorem cluGetDeviceTypeString_unkown :
    (∀ type : Nat, 15 < type → cluGetDeviceTypeString type = some "unkown") ∧
    cluGetDeviceTypeString 16 = some "unkown" ∧
    cluGetDeviceTypeString CL_DEVICE_TYPE_ALL = some "unkown" ∧
    cluGetDeviceTypeString 16 ≠ some "unknown" := by
  refine ⟨?_, by decide, by decide, by decide⟩
  intro type h
  unfold cluGetDeviceTypeString
  have hidx : unknown_device_type_index = 16 := by decide
  simp only [hidx]
  by_cases h16 : type > 16
  · rw [if_pos h16]
    rfl
  · have : type = 16 := by omega
    rw [if_neg h16, this]
    rfl

/-- C18, the code at a failing input: in a hydrated cache whose platforms
have the vendor "Vendor" and the names "Alpha" and "Beta", the query
"Vendor" matches no record, since the loop compares the query with the name
only; the result is `NULL` with `CL_INVALID_PLATFORM`. -/
theorem cluGetPlatformByName_vendor :
    (∀ p ∈ [examplePlatform 11 "Alpha", examplePlatform 22 "Beta"],
      p.vendor = CharPtr.text "Vendor".toList) ∧
    cluGetPlatformByName exampleDriver stateAlphaBeta (some "Vendor".toList) =
      some ({ handle := none, errcode := CL_INVALID_PLATFORM }, stateAlphaBeta) := by
  decide

/-- C15, the code at a failing input: the device cache of platform 11 is not
populated and the device enumeration fails with -5; `_cluInitDeviceCache`
returns -5, but `cluGetDeviceByID` does not look at that code, runs its loop
over zero devices and reports `CL_INVALID_DEVICE`. -/
theorem cluGetDeviceByID_population_failure :
    (_cluInitDeviceCache deviceListFailingDriver stateAlphaBeta 0 none 0).map (fun r => r.1) =
      some (-5) ∧
    (cluGetDeviceByID deviceListFailingDriver stateAlphaBeta 11 12).map (fun r => r.1) =
      some { handle := none, errcode := CL_INVALID_DEVICE } ∧
    CL_INVALID_DEVICE ≠ -5 := by
  decide

/-- C19, the code with `count = 0` and a non-`NULL` `errcode_ret`: a `NULL`
program is returned, no file is opened and no program is created, but nothing
is stored in `*errcode_ret`, because the first statement of the function has
set the pointer itself to zero. -/
theorem cluLoadProgramFromSourceFiles_zero (host : Host) (context : Nat)
    (filenames : List (List Char)) :
    cluLoadProgramFromSourceFiles host context 0 filenames true =
      some { program := none, errcode := none, events := [] } := by
  unfold cluLoadProgramFromSourceFiles
  simp

/-! ### Failure of a driver call during hydration -/

theorem stops_single (drv : Driver) (t : List Call) (q : Call) (res : Int)
    (h : drv.errorOf t q ≠ 0 → res = drv.errorOf t q) :
    ∀ i c, [q][i]? = some c → drv.errorOf (t ++ [q].take i) c ≠ 0 →
      i + 1 = [q].length ∧ res = drv.errorOf (t ++ [q].take i) c := by
  intro i c hc hne
  cases i with
  | zero =>
    simp only [List.getElem?_cons_zero, Option.some.injEq] at hc
    subst hc
    simp only [List.take_zero, List.append_nil] at hne ⊢
    exact ⟨rfl, h hne⟩
  | succ i => simp at hc

theorem stops_pair (drv : Driver) (t : List Call) (q1 q2 : Call) (res : Int)
    (h1 : drv.errorOf t q1 = 0)
    (h2 : drv.errorOf (t ++ [q1]) q2 ≠ 0 → res = drv.errorOf (t ++ [q1]) q2) :
    ∀ i c, [q1, q2][i]? = some c → drv.errorOf (t ++ [q1, q2].take i) c ≠ 0 →
      i + 1 = [q1, q2].length ∧ res = drv.errorOf (t ++ [q1, q2].take i) c := by
  intro i c hc hne
  cases i with
  | zero =>
    simp only [List.getElem?_cons_zero, Option.some.injEq] at hc
    subst hc
    simp only [List.take_zero, List.append_nil] at hne
    exact absurd h1 hne
  | succ i =>
    cases i with
    | zero =>
      simp only [List.getElem?_cons_succ, List.getElem?_cons_zero, Option.some.injEq] at hc
      subst hc
      have e : List.take (0 + 1) [q1, q2] = [q1] := rfl
      rw [e] at hne ⊢
      exact ⟨rfl, h2 hne⟩
    | succ i => simp at hc

theorem PLATFORM_GET_INFO_stops (drv : Driver) (param : cl_platform_info)
    (set : clu_platform → CharPtr → clu_platform) :
    StopsAtFailure drv (PLATFORM_GET_INFO drv param set) := by
  intro w a
  unfold PLATFORM_GET_INFO
  simp only
  by_cases h1 : (drv.clGetPlatformInfo w.trace a.id param 0 false).error ≠ 0
  · rw [if_pos h1]
    exact ⟨[_], rfl, stops_single drv _ _ _ (fun _ => rfl)⟩
  · rw [if_neg h1]
    have h1' : drv.errorOf w.trace (Call.clGetPlatformInfo a.id param 0 false) = 0 :=
      not_not.mp h1
    by_cases ha : ¬ drv.alloc (w.log (Call.clGetPlatformInfo a.id param 0 false)).trace
        (w.log (Call.clGetPlatformInfo a.id param 0 false)).allocs
        ((drv.clGetPlatformInfo w.trace a.id param 0 false).size_ret % 2 ^ 64) = true
    · rw [if_pos ha]
      exact ⟨[_], rfl, stops_single drv _ _ _ (fun h => absurd h1' h)⟩
    · rw [if_neg ha]
      split
      · exact ⟨[Call.clGetPlatformInfo a.id param 0 false, Call.clGetPlatformInfo a.id param
            ((drv.clGetPlatformInfo w.trace a.id param 0 false).size_ret % 2 ^ 64) true],
          by simp [World.log, World.bump], stops_pair drv _ _ _ _ h1' (fun _ => rfl)⟩
      · rename_i h2
        exact ⟨[Call.clGetPlatformInfo a.id param 0 false, Call.clGetPlatformInfo a.id param
            ((drv.clGetPlatformInfo w.trace a.id param 0 false).size_ret % 2 ^ 64) true],
          by simp [World.log, World.bump],
          stops_pair drv _ _ _ _ h1' (fun h => absurd (not_not.mp h2) h)⟩

theorem DEVICE_GET_STRING_stops (drv : Driver) (param : cl_device_info)
    (set : clu_device → CharPtr → clu_device) :
    StopsAtFailure drv (DEVICE_GET_STRING drv param set) := by
  intro w a
  unfold DEVICE_GET_STRING
  simp only
  by_cases h1 : (drv.clGetDeviceInfo w.trace a.id param 0 false).error ≠ 0
  · rw [if_pos h1]
    exact ⟨[_], rfl, stops_single drv _ _ _ (fun _ => rfl)⟩
  · rw [if_neg h1]
    have h1' : drv.errorOf w.trace (Call.clGetDeviceInfo a.id param 0 false) = 0 :=
      not_not.mp h1
    by_cases ha : ¬ drv.alloc (w.log (Call.clGetDeviceInfo a.id param 0 false)).trace
        (w.log (Call.clGetDeviceInfo a.id param 0 false)).allocs
        ((drv.clGetDeviceInfo w.trace a.id param 0 false).size_ret % 2 ^ 64) = true
    · rw [if_pos ha]
      exact ⟨[_], rfl, stops_single drv _ _ _ (fun h => absurd h1' h)⟩
    · rw [if_neg ha]
      split
      · exact ⟨[Call.clGetDeviceInfo a.id param 0 false, Call.clGetDeviceInfo a.id param
            ((drv.clGetDeviceInfo w.trace a.id param 0 false).size_ret % 2 ^ 64) true],
          by simp [World.log, World.bump], stops_pair drv _ _ _ _ h1' (fun _ => rfl)⟩
      · rename_i h2
        exact ⟨[Call.clGetDeviceInfo a.id param 0 false, Call.clGetDeviceInfo a.id param
            ((drv.clGetDeviceInfo w.trace a.id param 0 false).size_ret % 2 ^ 64) true],
          by simp [World.log, World.bump],
          stops_pair drv _ _ _ _ h1' (fun h => absurd (not_not.mp h2) h)⟩

theorem DEVICE_GET_INFO_stops (drv : Driver) (param : cl_device_info) (size : Nat)
    (set : clu_device → Nat → clu_device) :
    StopsAtFailure drv (DEVICE_GET_INFO drv param size set) := by
  intro w a
  unfold DEVICE_GET_INFO
  simp only
  split
  · exact ⟨[_], rfl, stops_single drv _ _ _ (fun _ => rfl)⟩
  · rename_i h1
    exact ⟨[_], rfl, stops_single drv _ _ _ (fun h => absurd (not_not.mp h1) h)⟩

theorem DEVICE_GET_WORK_ITEM_SIZES_stops (drv : Driver) :
    StopsAtFailure drv (DEVICE_GET_WORK_ITEM_SIZES drv) := by
  intro w a
  unfold DEVICE_GET_WORK_ITEM_SIZES
  simp only
  split
  · exact ⟨[], by simp [World.bump], by intro i c h; simp at h⟩
  · split
    · exact ⟨[_], rfl, stops_single drv _ _ _ (fun _ => rfl)⟩
    · rename_i h1
      exact ⟨[_], rfl, stops_single drv _ _ _ (fun h => absurd (not_not.mp h1) h)⟩

theorem runSteps_stops {α : Type} (drv : Driver) (steps : List (World → α → Int × α × World))
    (h : ∀ f ∈ steps, StopsAtFailure drv f) : StopsAtFailure drv (runSteps steps) := by
  induction steps with
  | nil =>
    intro w a
    exact ⟨[], by simp [runSteps], by intro i c h; simp at h⟩
  | cons f rest ih =>
    intro w a
    obtain ⟨cs1, ht1, hs1⟩ := h f (List.mem_cons_self _ _) w a
    simp only [runSteps]
    by_cases hf : (f w a).1 ≠ 0
    · rw [if_pos hf]
      exact ⟨cs1, ht1, hs1⟩
    · rw [if_neg hf]
      have hf0 : (f w a).1 = 0 := not_not.mp hf
      obtain ⟨cs2, ht2, hs2⟩ :=
        ih (fun g hg => h g (List.mem_cons_of_mem _ hg)) (f w a).2.2 (f w a).2.1
      refine ⟨cs1 ++ cs2, by rw [ht2, ht1, List.append_assoc], ?_⟩
      intro i c hc hne
      by_cases hi : i < cs1.length
      · exfalso
        rw [List.getElem?_append_left hi] at hc
        rw [List.take_append_of_le_length (Nat.le_of_lt hi)] at hne
        have := (hs1 i c hc hne).2
        rw [hf0] at this
        exact hne this.symm
      · have hge : cs1.length ≤ i := Nat.le_of_not_lt hi
        rw [List.getElem?_append_right hge] at hc
        have htake : w.trace ++ List.take i (cs1 ++ cs2) =
            (f w a).2.2.trace ++ List.take (i - cs1.length) cs2 := by
          rw [ht1, List.take_append_eq_append_take, List.take_of_length_le hge,
            List.append_assoc]
        rw [htake] at hne ⊢
        obtain ⟨hlen, hres⟩ := hs2 (i - cs1.length) c hc hne
        refine ⟨?_, hres⟩
        rw [List.length_append]
        omega

theorem PLATFORM_GET_INFO_first (drv : Driver) (param : cl_platform_info)
    (set : clu_platform → CharPtr → clu_platform) (w : World) (a : clu_platform) :
    ∃ cs, (PLATFORM_GET_INFO drv param set w a).2.2.trace =
      w.trace ++ Call.clGetPlatformInfo a.id param 0 false :: cs := by
  unfold PLATFORM_GET_INFO
  simp only
  split
  · exact ⟨[], rfl⟩
  · split
    · exact ⟨[], rfl⟩
    · split
      · exact ⟨[Call.clGetPlatformInfo a.id param
            ((drv.clGetPlatformInfo w.trace a.id param 0 false).size_ret % 2 ^ 64) true],
          by simp [World.log, World.bump]⟩
      · exact ⟨[Call.clGetPlatformInfo a.id param
            ((drv.clGetPlatformInfo w.trace a.id param 0 false).size_ret % 2 ^ 64) true],
          by simp [World.log, World.bump]⟩

theorem DEVICE_GET_INFO_first (drv : Driver) (param : cl_device_info) (size : Nat)
    (set : clu_device → Nat → clu_device) (w : World) (a : clu_device) :
    (DEVICE_GET_INFO drv param size set w a).2.2.trace =
      w.trace ++ [Call.clGetDeviceInfo a.id param size true] := by
  unfold DEVICE_GET_INFO
  simp only
  split <;> rfl

theorem runSteps_cons_trace {α : Type} (drv : Driver) (f : World → α → Int × α × World)
    (rest : List (World → α → Int × α × World)) (h : ∀ g ∈ rest, StopsAtFailure drv g)
    (w : World) (a : α) :
    ∃ cs, (runSteps (f :: rest) w a).2.2.trace = (f w a).2.2.trace ++ cs := by
  simp only [runSteps]
  split
  · exact ⟨[], by simp⟩
  · obtain ⟨cs, hcs, _⟩ := runSteps_stops drv rest h (f w a).2.2 (f w a).2.1
    exact ⟨cs, hcs⟩

theorem DEVICE_GET_INFO_has_info (drv : Driver) (param : cl_device_info) (size : Nat)
    (set : clu_device → Nat → clu_device) (hset : ∀ d v, (set d v).has_info = d.has_info)
    (w : World) (a : clu_device) :
    (DEVICE_GET_INFO drv param size set w a).2.1.has_info = a.has_info := by
  unfold DEVICE_GET_INFO
  simp only
  split
  · rfl
  · exact hset _ _

theorem DEVICE_GET_STRING_has_info (drv : Driver) (param : cl_device_info)
    (set : clu_device → CharPtr → clu_device) (hset : ∀ d v, (set d v).has_info = d.has_info)
    (w : World) (a : clu_device) :
    (DEVICE_GET_STRING drv param set w a).2.1.has_info = a.has_info := by
  unfold DEVICE_GET_STRING
  simp only
  split
  · rfl
  · split
    · exact hset _ _
    · split
      · exact hset _ _
      · exact hset _ _

theorem DEVICE_GET_WORK_ITEM_SIZES_has_info (drv : Driver) (w : World) (a : clu_device) :
    (DEVICE_GET_WORK_ITEM_SIZES drv w a).2.1.has_info = a.has_info := by
  unfold DEVICE_GET_WORK_ITEM_SIZES
  simp only
  split
  · rfl
  · split
    · rfl
    · rfl

theorem platformSteps_stops (drv : Driver) : ∀ f ∈ platformSteps drv, StopsAtFailure drv f := by
  intro f hf
  simp only [platformSteps, List.mem_cons, List.mem_singleton, List.not_mem_nil,
    or_false] at hf
  rcases hf with rfl | rfl | rfl | rfl | rfl <;> exact PLATFORM_GET_INFO_stops drv _ _

theorem deviceSteps_good (drv : Driver) :
    ∀ f ∈ deviceSteps drv,
      StopsAtFailure drv f ∧ ∀ w a, (f w a).2.1.has_info = a.has_info := by
  unfold deviceSteps
  simp only [List.forall_mem_cons, List.not_mem_nil, false_implies, implies_true, and_true]
  repeat' apply And.intro
  all_goals
    first
    | exact DEVICE_GET_INFO_stops drv _ _ _
    | exact DEVICE_GET_STRING_stops drv _ _
    | exact DEVICE_GET_WORK_ITEM_SIZES_stops drv
    | exact DEVICE_GET_INFO_has_info drv _ _ _ (fun _ _ => rfl)
    | exact DEVICE_GET_STRING_has_info drv _ _ (fun _ _ => rfl)
    | exact DEVICE_GET_WORK_ITEM_SIZES_has_info drv

theorem _cluGetPlatformInfo_unhydrated (drv : Driver) (w : World) (p : clu_platform)
    (h : p.has_info = false) :
    (_cluGetPlatformInfo drv w p).1 = (runSteps (platformSteps drv) w p).1 ∧
    (_cluGetPlatformInfo drv w p).2.2 = (runSteps (platformSteps drv) w p).2.2 ∧
    ((runSteps (platformSteps drv) w p).1 ≠ 0 →
      (_cluGetPlatformInfo drv w p).2.1 = (runSteps (platformSteps drv) w p).2.1) := by
  unfold _cluGetPlatformInfo
  have hp : ¬ (p.has_info = true) := by rw [h]; decide
  rw [if_neg hp]
  by_cases hr : (runSteps (platformSteps drv) w p).1 ≠ 0
  · rw [if_pos hr]
    exact ⟨rfl, rfl, fun _ => rfl⟩
  · rw [if_neg hr]
    exact ⟨rfl, rfl, fun h' => absurd h' hr⟩

theorem _cluGetDeviceInfo_unhydrated (drv : Driver) (w : World) (d : clu_device)
    (h : d.has_info = false) :
    (_cluGetDeviceInfo drv w d).1 = (runSteps (deviceSteps drv) w d).1 ∧
    (_cluGetDeviceInfo drv w d).2.2 = (runSteps (deviceSteps drv) w d).2.2 ∧
    ((runSteps (deviceSteps drv) w d).1 ≠ 0 →
      (_cluGetDeviceInfo drv w d).2.1 = (runSteps (deviceSteps drv) w d).2.1) := by
  unfold _cluGetDeviceInfo
  have hp : ¬ (d.has_info = true) := by rw [h]; decide
  rw [if_neg hp]
  by_cases hr : (runSteps (deviceSteps drv) w d).1 ≠ 0
  · rw [if_pos hr]
    exact ⟨rfl, rfl, fun _ => rfl⟩
  · rw [if_neg hr]
    exact ⟨rfl, rfl, fun h' => absurd h' hr⟩

/-- C11: while an unhydrated platform or device record is hydrated, the
driver calls made are appended to the trace, and if the driver answers one of
them with a code `e` other than zero, that call is the last one made, the
hydration returns exactly `e`, and the record keeps `has_info = false`; and
hydrating a record with `has_info = false` starts with the first attribute
query again, so a later call retries. -/
theorem hydration_stops_at_failure (drv : Driver) (w : World) :
    (∀ p : clu_platform, p.has_info = false →
      (∃ cs, (_cluGetPlatformInfo drv w p).2.2.trace = w.trace ++ cs ∧
        ∀ i c, cs[i]? = some c → drv.errorOf (w.trace ++ cs.take i) c ≠ 0 →
          i + 1 = cs.length ∧
          (_cluGetPlatformInfo drv w p).1 = drv.errorOf (w.trace ++ cs.take i) c ∧
          (_cluGetPlatformInfo drv w p).2.1.has_info = false) ∧
      (∃ cs, (_cluGetPlatformInfo drv w p).2.2.trace =
        w.trace ++ Call.clGetPlatformInfo p.id cl_platform_info.PROFILE 0 false :: cs)) ∧
    (∀ d : clu_device, d.has_info = false →
      (∃ cs, (_cluGetDeviceInfo drv w d).2.2.trace = w.trace ++ cs ∧
        ∀ i c, cs[i]? = some c → drv.errorOf (w.trace ++ cs.take i) c ≠ 0 →
          i + 1 = cs.length ∧
          (_cluGetDeviceInfo drv w d).1 = drv.errorOf (w.trace ++ cs.take i) c ∧
          (_cluGetDeviceInfo drv w d).2.1.has_info = false) ∧
      (∃ cs, (_cluGetDeviceInfo drv w d).2.2.trace =
        w.trace ++ Call.clGetDeviceInfo d.id cl_device_info.TYPE 8 true :: cs)) := by
  constructor
  · intro p hp
    obtain ⟨h1, h2, h3⟩ := _cluGetPlatformInfo_unhydrated drv w p hp
    constructor
    · obtain ⟨cs, hcs, hstop⟩ := runSteps_stops drv _ (platformSteps_stops drv) w p
      refine ⟨cs, by rw [h2, hcs], ?_⟩
      intro i c hc hne
      obtain ⟨hlen, hres⟩ := hstop i c hc hne
      refine ⟨hlen, by rw [h1, hres], ?_⟩
      rw [h3 (by rw [hres]; exact hne)]
      have := runSteps_preserves (fun q => q.has_info = false) (platformSteps drv)
        (by
          intro f hf w a ha
          simp only [platformSteps, List.mem_cons, List.mem_singleton, List.not_mem_nil,
            or_false] at hf
          rcases hf with rfl | rfl | rfl | rfl | rfl <;>
            · apply PLATFORM_GET_INFO_preserves (fun q => q.has_info = false)
              · intro _ _ h
                exact h
              · exact ha)
        w p hp
      exact this
    · rw [h2]
      obtain ⟨cs1, hcs1⟩ := PLATFORM_GET_INFO_first drv cl_platform_info.PROFILE
        (fun p v => { p with profile := v }) w p
      obtain ⟨cs2, hcs2⟩ := runSteps_cons_trace drv
        (PLATFORM_GET_INFO drv cl_platform_info.PROFILE (fun p v => { p with profile := v }))
        (platformSteps drv).tail
        (fun g hg => platformSteps_stops drv g (List.mem_of_mem_tail hg)) w p
      refine ⟨cs1 ++ cs2, ?_⟩
      have e : platformSteps drv =
          PLATFORM_GET_INFO drv cl_platform_info.PROFILE (fun p v => { p with profile := v }) ::
            (platformSteps drv).tail := rfl
      rw [e, hcs2, hcs1]
      simp
  · intro d hd
    obtain ⟨h1, h2, h3⟩ := _cluGetDeviceInfo_unhydrated drv w d hd
    constructor
    · obtain ⟨cs, hcs, hstop⟩ := runSteps_stops drv _
        (fun f hf => (deviceSteps_good drv f hf).1) w d
      refine ⟨cs, by rw [h2, hcs], ?_⟩
      intro i c hc hne
      obtain ⟨hlen, hres⟩ := hstop i c hc hne
      refine ⟨hlen, by rw [h1, hres], ?_⟩
      rw [h3 (by rw [hres]; exact hne)]
      exact runSteps_preserves (fun q => q.has_info = false) (deviceSteps drv)
        (fun f hf w a ha => by
          show (f w a).2.1.has_info = false
          rw [(deviceSteps_good drv f hf).2 w a]
          exact ha)
        w d hd
    · rw [h2]
      have hcs1 := DEVICE_GET_INFO_first drv cl_device_info.TYPE 8
        (fun d v => { d with type := v }) w d
      obtain ⟨cs2, hcs2⟩ := runSteps_cons_trace drv
        (DEVICE_GET_INFO drv cl_device_info.TYPE 8 (fun d v => { d with type := v }))
        (deviceSteps drv).tail
        (fun g hg => (deviceSteps_good drv g (List.mem_of_mem_tail hg)).1) w d
      refine ⟨cs2, ?_⟩
      have e : deviceSteps drv =
          DEVICE_GET_INFO drv cl_device_info.TYPE 8 (fun d v => { d with type := v }) ::
            (deviceSteps drv).tail := rfl
      rw [e, hcs2, hcs1]
      simp


theorem hydration_stops_at_failure_witness :
    (({ clu_platform.zero with id := 11 } : clu_platform).has_info = false ∧
     ({ exampleDevice with has_info := false } : clu_device).has_info = false) ∧
    ((∃ cs, (_cluGetPlatformInfo nameFailingDriver { trace := [], allocs := 0 }
          { clu_platform.zero with id := 11 }).2.2.trace =
        ({ trace := [], allocs := 0 } : World).trace ++ cs ∧
        ∀ i c, cs[i]? = some c →
          nameFailingDriver.errorOf (({ trace := [], allocs := 0 } : World).trace ++ cs.take i) c
            ≠ 0 →
          i + 1 = cs.length ∧
          (_cluGetPlatformInfo nameFailingDriver { trace := [], allocs := 0 }
            { clu_platform.zero with id := 11 }).1 =
            nameFailingDriver.errorOf
              (({ trace := [], allocs := 0 } : World).trace ++ cs.take i) c ∧
          (_cluGetPlatformInfo nameFailingDriver { trace := [], allocs := 0 }
            { clu_platform.zero with id := 11 }).2.1.has_info = false) ∧
      (∃ cs, (_cluGetPlatformInfo nameFailingDriver { trace := [], allocs := 0 }
          { clu_platform.zero with id := 11 }).2.2.trace =
        ({ trace := [], allocs := 0 } : World).trace ++
          Call.clGetPlatformInfo ({ clu_platform.zero with id := 11 } : clu_platform).id
            cl_platform_info.PROFILE 0 false :: cs)) ∧
    _cluGetPlatformInfo nameFailingDriver { trace := [], allocs := 0 }
        { clu_platform.zero with id := 11 } =
      (-5,
       { clu_platform.zero with
         id := 11, profile := CharPtr.text "x".toList, version := CharPtr.text "x".toList,
         name := CharPtr.uninit 6 },
       { trace := [Call.clGetPlatformInfo 11 cl_platform_info.PROFILE 0 false,
                   Call.clGetPlatformInfo 11 cl_platform_info.PROFILE 6 true,
                   Call.clGetPlatformInfo 11 cl_platform_info.VERSION 0 false,
                   Call.clGetPlatformInfo 11 cl_platform_info.VERSION 6 true,
                   Call.clGetPlatformInfo 11 cl_platform_info.NAME 0 false,
                   Call.clGetPlatformInfo 11 cl_platform_info.NAME 6 true],
         allocs := 3 }) ∧
    (_cluGetDeviceInfo nameFailingDriver { trace := [], allocs := 0 }
        { exampleDevice with has_info := false }).1 = -5 ∧
    (_cluGetDeviceInfo nameFailingDriver { trace := [], allocs := 0 }
        { exampleDevice with has_info := false }).2.1.has_info = false :=
  ⟨by decide,
   (hydration_stops_at_failure nameFailingDriver { trace := [], allocs := 0 }).1
     { clu_platform.zero with id := 11 } (by decide),
   by decide, by decide, by decide⟩

/-! ### Device enumeration -/

theorem _cluGetPlatformByID_loop_skip (s : State) (arr : List clu_platform) (id : Nat)
    (hp : s._platforms = some arr) (m fuel i : Nat)
    (h : ∀ j, i ≤ j → j < i + m → ∃ c, arr[j]? = some c ∧ c.id ≠ id) :
    _cluGetPlatformByID_loop s id (m + fuel) i = _cluGetPlatformByID_loop s id fuel (i + m) := by
  induction m generalizing i with
  | zero => simp
  | succ m ih =>
    obtain ⟨c, hc, hne⟩ := h i (Nat.le_refl _) (by omega)
    have e : m + 1 + fuel = (m + fuel) + 1 := by omega
    rw [e]
    simp only [_cluGetPlatformByID_loop, hp, hc, hne, if_false]
    rw [ih (i + 1) (fun j h1 h2 => h j (by omega) (by omega))]
    congr 1
    omega

theorem lt_length_of_getElem? {α : Type} {l : List α} {i : Nat} {x : α} (h : l[i]? = some x) :
    i < l.length := by
  by_contra hge
  rw [List.getElem?_eq_none (Nat.le_of_not_lt hge)] at h
  cases h

theorem skip_before {arr : List clu_platform} {i : Nat} {id : Nat} (hlt : i ≤ arr.length)
    (hfirst : ∀ c ∈ arr.take i, c.id ≠ id) :
    ∀ j, 0 ≤ j → j < 0 + i → ∃ c, arr[j]? = some c ∧ c.id ≠ id := by
  intro j _ hj
  have hj' : j < arr.length := by omega
  refine ⟨arr[j], List.getElem?_eq_getElem hj', ?_⟩
  apply hfirst
  apply List.getElem?_mem (n := j)
  rw [List.getElem?_take_of_lt (by omega)]
  exact List.getElem?_eq_getElem hj'

theorem _cluGetPlatformByID_found (s : State) (arr : List clu_platform) (i : Nat)
    (p : clu_platform) (id : Nat) (hpop : Populated s arr) (hcurr : arr[i]? = some p)
    (hid : p.id = id) (hfirst : ∀ c ∈ arr.take i, c.id ≠ id) :
    _cluGetPlatformByID s id = some (some i) := by
  have hlt := lt_length_of_getElem? hcurr
  have hp := platforms_of_populated hpop hcurr
  have hskip := _cluGetPlatformByID_loop_skip s arr id hp i (arr.length - i) 0
    (skip_before (Nat.le_of_lt hlt) hfirst)
  have hfuel : i + (arr.length - i) = arr.length := by omega
  have hstep : arr.length - i = (arr.length - i - 1) + 1 := by omega
  rw [hfuel, Nat.zero_add, hstep] at hskip
  unfold _cluGetPlatformByID
  rw [hpop.1, hskip]
  simp only [_cluGetPlatformByID_loop, hp, hcurr, hid, if_true]

theorem _cluGetPlatformByID_absent (s : State) (arr : List clu_platform) (id : Nat)
    (hpop : Populated s arr) (hnone : ∀ c ∈ arr, c.id ≠ id) :
    _cluGetPlatformByID s id = some none := by
  unfold _cluGetPlatformByID
  rw [hpop.1]
  rcases hpop.2.2 with hp | ⟨hnil, _⟩
  · have hskip := _cluGetPlatformByID_loop_skip s arr id hp arr.length 0 0
      (by
        intro j _ hj
        have hj' : j < arr.length := by omega
        exact ⟨arr[j], List.getElem?_eq_getElem hj', hnone _ (List.getElem_mem _)⟩)
    rw [Nat.add_zero, Nat.zero_add] at hskip
    rw [hskip]
    rfl
  · subst hnil
    rfl

theorem cluGetDeviceIDs_of_found (drv : Driver) (s : State) (arr : List clu_platform) (i : Nat)
    (p : clu_platform) (platform type : Nat) (devices : Bool) (hpop : Populated s arr)
    (hcurr : arr[i]? = some p) (hid : p.id = platform)
    (hfirst : ∀ c ∈ arr.take i, c.id ≠ platform) :
    cluGetDeviceIDs drv s platform type devices true = _cluGetDeviceIDs drv s i type devices := by
  unfold cluGetDeviceIDs
  rw [_cluInitPlatformCache_of_populated drv s arr hpop]
  have h0 : ¬ (CL_SUCCESS ≠ 0) := by decide
  simp only [h0, if_false, not_true_eq_false,
    _cluGetPlatformByID_found s arr i p platform hpop hcurr hid hfirst]

theorem _cluGetDeviceIDs_frame (drv : Driver) (s : State) (arr : List clu_platform) (i : Nat)
    (p : clu_platform) (type : Nat) (devices : Bool) (hp : s._platforms = some arr)
    (hcurr : arr[i]? = some p) (h : type ≠ CL_DEVICE_TYPE_ALL ∨ p.devices ≠ none) :
    ∃ r w, _cluGetDeviceIDs drv s i type devices = some (r, { s with world := w }) := by
  have hno : ¬ (type = CL_DEVICE_TYPE_ALL ∧ p.devices = none) := by
    rintro ⟨h1, h2⟩
    rcases h with h | h
    · exact h h1
    · exact h h2
  unfold _cluGetDeviceIDs
  simp only [hp, hcurr, hno, if_false]
  split
  · exact ⟨_, _, rfl⟩
  · split
    · exact ⟨_, _, rfl⟩
    · split
      · exact ⟨_, _, rfl⟩
      · exact ⟨_, _, rfl⟩

theorem overwrite_full {α : Type} (buf vals : List α) (h : vals.length = buf.length) :
    overwrite buf vals = vals := by
  unfold overwrite
  rw [← h]
  simp

theorem _cluGetDeviceIDs_ok (drv : Driver) (s : State) (arr : List clu_platform) (i : Nat)
    (p : clu_platform) (type : Nat) (devices : Bool) (n : Nat) (ids : List Nat)
    (hp : s._platforms = some arr) (hcurr : arr[i]? = some p)
    (h : type ≠ CL_DEVICE_TYPE_ALL ∨ p.devices ≠ none)
    (h1e : (drv.clGetDeviceIDs s.world.trace p.id type 0 false true).error = 0)
    (h1n : (drv.clGetDeviceIDs s.world.trace p.id type 0 false true).num = n)
    (hn : n < 2 ^ 32)
    (ha : drv.alloc (s.world.trace ++ [Call.clGetDeviceIDs p.id type 0 false true])
      s.world.allocs (n * 8) = true)
    (h2 : drv.clGetDeviceIDs (s.world.trace ++ [Call.clGetDeviceIDs p.id type 0 false true])
      p.id type n true true = { error := 0, num := n, ids := ids })
    (hlen : ids.length = n) :
    _cluGetDeviceIDs drv s i type devices =
      some ({ error := CL_SUCCESS, devices := if devices = true then some ids else none,
              num_devices := some n },
            { s with world :=
                { trace := s.world.trace ++ [Call.clGetDeviceIDs p.id type 0 false true,
                                             Call.clGetDeviceIDs p.id type n true true],
                  allocs := s.world.allocs + 1 } }) := by
  have hno : ¬ (type = CL_DEVICE_TYPE_ALL ∧ p.devices = none) := by
    rintro ⟨h1, h2⟩
    rcases h with h | h
    · exact h h1
    · exact h h2
  have hmod : n % 2 ^ 32 = n := Nat.mod_eq_of_lt hn
  unfold _cluGetDeviceIDs
  simp only [hp, hcurr, hno, if_false, h1e, h1n, World.log, World.bump, hmod, ha, h2,
    not_true_eq_false, ne_eq, List.append_assoc, List.singleton_append]
  have hov : overwrite (List.replicate n 0) (List.take n ids) = ids := by
    rw [List.take_of_length_le (Nat.le_of_eq hlen)]
    exact overwrite_full _ _ (by simp [hlen])
  simp [hov]

theorem _cluGetDeviceIDs_populate (drv : Driver) (s : State) (arr : List clu_platform) (i : Nat)
    (p : clu_platform) (devices : Bool) (n : Nat) (ids : List Nat)
    (hp : s._platforms = some arr) (hcurr : arr[i]? = some p) (hdev : p.devices = none)
    (h1e : (drv.clGetDeviceIDs s.world.trace p.id CL_DEVICE_TYPE_ALL 0 false true).error = 0)
    (h1n : (drv.clGetDeviceIDs s.world.trace p.id CL_DEVICE_TYPE_ALL 0 false true).num = n)
    (hn : n < 2 ^ 32)
    (ha : drv.alloc
      (s.world.trace ++ [Call.clGetDeviceIDs p.id CL_DEVICE_TYPE_ALL 0 false true])
      s.world.allocs (n * 8) = true)
    (h2 : drv.clGetDeviceIDs
      (s.world.trace ++ [Call.clGetDeviceIDs p.id CL_DEVICE_TYPE_ALL 0 false true])
      p.id CL_DEVICE_TYPE_ALL n true true = { error := 0, num := n, ids := ids })
    (hlen : ids.length = n) :
    _cluGetDeviceIDs drv s i CL_DEVICE_TYPE_ALL devices =
      some (if drv.alloc
                (s.world.trace ++ [Call.clGetDeviceIDs p.id CL_DEVICE_TYPE_ALL 0 false true,
                                   Call.clGetDeviceIDs p.id CL_DEVICE_TYPE_ALL n true true])
                (s.world.allocs + 1) (n * 408) = true then
              ({ error := CL_SUCCESS, devices := if devices = true then some ids else none,
                 num_devices := some n },
               { s with
                 _platforms := some (arr.set i
                   { p with
                     num_devices := n
                     devices := some (ids.map
                       (fun id => { clu_device.zero with id := id, pinfo := some i })) })
                 world :=
                   { trace := s.world.trace ++
                       [Call.clGetDeviceIDs p.id CL_DEVICE_TYPE_ALL 0 false true,
                        Call.clGetDeviceIDs p.id CL_DEVICE_TYPE_ALL n true true],
                     allocs := s.world.allocs + 2 } })
            else
              ({ error := CL_OUT_OF_HOST_MEMORY, devices := none, num_devices := some n,
                 freed := devices },
               { s with
                 world :=
                   { trace := s.world.trace ++
                       [Call.clGetDeviceIDs p.id CL_DEVICE_TYPE_ALL 0 false true,
                        Call.clGetDeviceIDs p.id CL_DEVICE_TYPE_ALL n true true],
                     allocs := s.world.allocs + 2 } })) := by
  have hmod : n % 2 ^ 32 = n := Nat.mod_eq_of_lt hn
  have hov : overwrite (List.replicate n 0) (List.take n ids) = ids := by
    rw [List.take_of_length_le (Nat.le_of_eq hlen)]
    exact overwrite_full _ _ (by simp [hlen])
  have htake : List.take n ids = ids := List.take_of_length_le (Nat.le_of_eq hlen)
  have hnlt : ¬ (ids.length < n) := by omega
  unfold _cluGetDeviceIDs
  simp only [hp, hcurr, hdev, and_self, if_true, h1e, h1n, World.log, World.bump, hmod, ha,
    h2, not_true_eq_false, ne_eq, if_false, List.append_assoc, List.singleton_append, hov,
    _cluInitDeviceCache_list, Option.isSome_none, Bool.false_eq_true]
  by_cases hb : drv.alloc
      (s.world.trace ++ [Call.clGetDeviceIDs p.id CL_DEVICE_TYPE_ALL 0 false true,
                         Call.clGetDeviceIDs p.id CL_DEVICE_TYPE_ALL n true true])
      (s.world.allocs + 1) (n * 408) = true
  · simp [hb, hnlt, htake]
  · simp [hb]

theorem _cluInitDeviceCache_list_success (drv : Driver) (s s4 : State)
    (arr : List clu_platform) (i : Nat) (p : clu_platform) (devs : List Nat) (count : Nat)
    (e : Int) (hp : s._platforms = some arr) (hcurr : arr[i]? = some p)
    (hdev : p.devices = none)
    (fr : Bool)
    (h : _cluInitDeviceCache_list drv s i devs count = some (e, fr, s4))
    (he : e = CL_SUCCESS) :
    fr = false ∧ count ≤ devs.length ∧ s4._num_platforms = s._num_platforms ∧
      s4._platforms = some (arr.set i
        { p with
          num_devices := count
          devices := some ((devs.take count).map
            (fun id => { clu_device.zero with id := id, pinfo := some i })) }) := by
  have hoom : CL_OUT_OF_HOST_MEMORY ≠ CL_SUCCESS := by decide
  unfold _cluInitDeviceCache_list at h
  simp only [hp, hcurr, hdev, Option.isSome_none, Bool.false_eq_true, if_false] at h
  split at h
  · simp only [Option.some.injEq, Prod.mk.injEq] at h
    rw [← h.1] at he
    exact absurd he hoom
  · split at h
    · cases h
    · rename_i hlen
      simp only [Option.some.injEq, Prod.mk.injEq] at h
      obtain ⟨_, hf, hs⟩ := h
      subst hs
      exact ⟨hf.symm, Nat.le_of_not_lt hlen, rfl, rfl⟩

theorem _cluGetDeviceIDs_all_success (drv : Driver) (s s' : State) (arr : List clu_platform)
    (i : Nat) (p : clu_platform) (devices : Bool) (r : DeviceIDs)
    (hp : s._platforms = some arr) (hcurr : arr[i]? = some p) (hdev : p.devices = none)
    (h : _cluGetDeviceIDs drv s i CL_DEVICE_TYPE_ALL devices = some (r, s'))
    (hok : r.error = CL_SUCCESS) :
    ∃ ids n, r.devices = (if devices = true then some ids else none) ∧
      r.num_devices = some n ∧ n ≤ ids.length ∧
      s'._num_platforms = s._num_platforms ∧
      s'._platforms = some (arr.set i
        { p with
          num_devices := n
          devices := some ((ids.take n).map
            (fun id => { clu_device.zero with id := id, pinfo := some i })) }) := by
  have hoom : CL_OUT_OF_HOST_MEMORY ≠ CL_SUCCESS := by decide
  unfold _cluGetDeviceIDs at h
  simp only [hp, hcurr, hdev, and_self, if_true] at h
  split at h
  · rename_i he
    simp only [Option.some.injEq, Prod.mk.injEq] at h
    rw [← h.1] at hok
    exact absurd hok he
  · split at h
    · simp only [Option.some.injEq, Prod.mk.injEq] at h
      rw [← h.1] at hok
      exact absurd hok hoom
    · split at h
      · rename_i he
        simp only [Option.some.injEq, Prod.mk.injEq] at h
        rw [← h.1] at hok
        exact absurd hok he
      · generalize hX : _cluInitDeviceCache_list drv _ i _ _ = X at h
        cases X with
        | none => cases h
        | some es =>
          obtain ⟨e, fr, s4⟩ := es
          simp only [Option.some.injEq, Prod.mk.injEq] at h
          obtain ⟨hr, hs⟩ := h
          subst hr hs
          obtain ⟨hfr, hle, hnum, hpl⟩ :=
            _cluInitDeviceCache_list_success drv _ _ arr i p _ _ e rfl hcurr hdev fr hX hok
          subst hfr
          exact ⟨_, _, rfl, rfl, hle, hnum, hpl⟩

theorem populated_of_same_cache {s s' : State} {arr : List clu_platform}
    (hpop : Populated s arr) (hn : s'._num_platforms = s._num_platforms)
    (hp : s'._platforms = s._platforms) : Populated s' arr := by
  unfold Populated at hpop ⊢
  rw [hn, hp]
  exact hpop

/-- C12, as the code has it: for a cached platform (the first record of
identity `platform`, at index `i` of a populated cache) and a device type
other than `CL_DEVICE_TYPE_ALL`, `cluGetDeviceIDs` always returns, and changes
nothing of the state but the world outside the caches, so `_platforms`, with
the device cache of every platform, populated or not, is as before; when the
driver answers the count query and the list query with the same `n` devices
`ids` and the result array can be allocated, the call returns `CL_SUCCESS`
with that list and count; and in any later state with the same caches, a
request for `CL_DEVICE_TYPE_ALL` that the driver answers with the `m` devices
`all` returns `CL_SUCCESS` with exactly `all` and `m`, when its result array
and, if the device cache is not populated yet, the array of records can be
allocated. -/
theorem cluGetDeviceIDs_filtered (drv : Driver) (s : State) (arr : List clu_platform)
    (i : Nat) (p : clu_platform) (platform type : Nat) (devices : Bool)
    (hpop : Populated s arr) (hcurr : arr[i]? = some p) (hid : p.id = platform)
    (hfirst : ∀ c ∈ arr.take i, c.id ≠ platform) (htype : type ≠ CL_DEVICE_TYPE_ALL) :
    (∃ r w, cluGetDeviceIDs drv s platform type devices true =
        some (r, { s with world := w })) ∧
    (∀ n ids,
      (drv.clGetDeviceIDs s.world.trace platform type 0 false true).error = 0 →
      (drv.clGetDeviceIDs s.world.trace platform type 0 false true).num = n →
      n < 2 ^ 32 →
      drv.alloc (s.world.trace ++ [Call.clGetDeviceIDs platform type 0 false true])
        s.world.allocs (n * 8) = true →
      drv.clGetDeviceIDs (s.world.trace ++ [Call.clGetDeviceIDs platform type 0 false true])
        platform type n true true = { error := 0, num := n, ids := ids } →
      ids.length = n →
      cluGetDeviceIDs drv s platform type devices true =
        some ({ error := CL_SUCCESS, devices := if devices = true then some ids else none,
                num_devices := some n },
              { s with world :=
                  { trace := s.world.trace ++ [Call.clGetDeviceIDs platform type 0 false true,
                                               Call.clGetDeviceIDs platform type n true true],
                    allocs := s.world.allocs + 1 } })) ∧
    (∀ (s' : State) m all,
      s'._num_platforms = s._num_platforms → s'._platforms = s._platforms →
      (drv.clGetDeviceIDs s'.world.trace platform CL_DEVICE_TYPE_ALL 0 false true).error = 0 →
      (drv.clGetDeviceIDs s'.world.trace platform CL_DEVICE_TYPE_ALL 0 false true).num = m →
      m < 2 ^ 32 →
      drv.alloc
        (s'.world.trace ++ [Call.clGetDeviceIDs platform CL_DEVICE_TYPE_ALL 0 false true])
        s'.world.allocs (m * 8) = true →
      drv.clGetDeviceIDs
        (s'.world.trace ++ [Call.clGetDeviceIDs platform CL_DEVICE_TYPE_ALL 0 false true])
        platform CL_DEVICE_TYPE_ALL m true true = { error := 0, num := m, ids := all } →
      all.length = m →
      (p.devices = none →
        drv.alloc
          (s'.world.trace ++ [Call.clGetDeviceIDs platform CL_DEVICE_TYPE_ALL 0 false true,
                              Call.clGetDeviceIDs platform CL_DEVICE_TYPE_ALL m true true])
          (s'.world.allocs + 1) (m * 408) = true) →
      ∃ s'', cluGetDeviceIDs drv s' platform CL_DEVICE_TYPE_ALL true true =
          some ({ error := CL_SUCCESS, devices := some all, num_devices := some m }, s'')) := by
  subst hid
  have hp := platforms_of_populated hpop hcurr
  refine ⟨?_, ?_, ?_⟩
  · rw [cluGetDeviceIDs_of_found drv s arr i p p.id type devices hpop hcurr rfl hfirst]
    exact _cluGetDeviceIDs_frame drv s arr i p type devices hp hcurr (Or.inl htype)
  · intro n ids h1e h1n hn ha h2 hlen
    rw [cluGetDeviceIDs_of_found drv s arr i p p.id type devices hpop hcurr rfl hfirst]
    exact _cluGetDeviceIDs_ok drv s arr i p type devices n ids hp hcurr (Or.inl htype)
      h1e h1n hn ha h2 hlen
  · intro s' m all hn' hp' h1e h1n hm ha h2 hlen hb
    have hpop' : Populated s' arr := populated_of_same_cache hpop hn' hp'
    have hps' : s'._platforms = some arr := by rw [hp', hp]
    rw [cluGetDeviceIDs_of_found drv s' arr i p p.id _ true hpop' hcurr rfl hfirst]
    cases hdev : p.devices with
    | some devs =>
      rw [_cluGetDeviceIDs_ok drv s' arr i p _ true m all hps' hcurr
        (Or.inr (by rw [hdev]; exact Option.some_ne_none _)) h1e h1n hm ha h2 hlen]
      exact ⟨_, rfl⟩
    | none =>
      rw [_cluGetDeviceIDs_populate drv s' arr i p true m all hps' hcurr hdev h1e h1n hm ha
        h2 hlen, if_pos (hb hdev)]
      exact ⟨_, rfl⟩

theorem cluGetDeviceIDs_filtered_witness :
    (Populated stateAlphaBeta [examplePlatform 11 "Alpha", examplePlatform 22 "Beta"] ∧
      [examplePlatform 11 "Alpha", examplePlatform 22 "Beta"][0]? =
        some (examplePlatform 11 "Alpha") ∧
      (examplePlatform 11 "Alpha").id = 11 ∧
      (∀ c ∈ [examplePlatform 11 "Alpha", examplePlatform 22 "Beta"].take 0, c.id ≠ 11) ∧
      (4 : Nat) ≠ CL_DEVICE_TYPE_ALL) ∧
    cluGetDeviceIDs mixedDriver stateAlphaBeta 11 4 true true =
      some ({ error := CL_SUCCESS, devices := some [102, 103], num_devices := some 2 },
            { stateAlphaBeta with
              world := { trace := [Call.clGetDeviceIDs 11 4 0 false true,
                                   Call.clGetDeviceIDs 11 4 2 true true],
                         allocs := 1 } }) ∧
    (cluGetDeviceIDs mixedDriver
        { stateAlphaBeta with
          world := { trace := [Call.clGetDeviceIDs 11 4 0 false true,
                               Call.clGetDeviceIDs 11 4 2 true true],
                     allocs := 1 } }
        11 CL_DEVICE_TYPE_ALL true true).map (fun r => r.1) =
      some { error := CL_SUCCESS, devices := some [101, 102, 103], num_devices := some 3 } :=
  ⟨by decide,
   (cluGetDeviceIDs_filtered mixedDriver stateAlphaBeta
      [examplePlatform 11 "Alpha", examplePlatform 22 "Beta"] 0 (examplePlatform 11 "Alpha")
      11 4 true (by decide) (by decide) (by decide) (by decide) (by decide)).2.1
      2 [102, 103] (by decide) (by decide) (by decide) (by decide) (by decide) (by decide),
   by decide⟩

/-- C12 as stated fails: the driver reports the devices 102 and 103 for the
type 4, but the result array cannot be allocated, and `cluGetDeviceIDs`
returns `CL_OUT_OF_HOST_MEMORY` and no list; and after a request for the type
4 that did return that list, the request for `CL_DEVICE_TYPE_ALL`, for which
the driver reports 101, 102 and 103, returns `CL_OUT_OF_HOST_MEMORY` and not
these devices when the array of records cannot be allocated (the pointer it
leaves in `*devices` is to the array it has freed). -/
theorem cluGetDeviceIDs_filtered_no_memory :
    (4 : Nat) ≠ CL_DEVICE_TYPE_ALL ∧
    noMemoryDriver.clGetDeviceIDs [Call.clGetDeviceIDs 11 4 0 false true] 11 4 2 true true =
      { error := 0, num := 2, ids := [102, 103] } ∧
    cluGetDeviceIDs noMemoryDriver stateAlphaBeta 11 4 true true =
      some ({ error := CL_OUT_OF_HOST_MEMORY, devices := none, num_devices := none },
            { stateAlphaBeta with
              world := { trace := [Call.clGetDeviceIDs 11 4 0 false true], allocs := 1 } }) ∧
    cluGetDeviceIDs thirdAllocFailingDriver stateAlphaBeta 11 4 true true =
      some ({ error := CL_SUCCESS, devices := some [102, 103], num_devices := some 2 },
            { stateAlphaBeta with
              world := { trace := [Call.clGetDeviceIDs 11 4 0 false true,
                                   Call.clGetDeviceIDs 11 4 2 true true],
                         allocs := 1 } }) ∧
    (cluGetDeviceIDs thirdAllocFailingDriver
        { stateAlphaBeta with
          world := { trace := [Call.clGetDeviceIDs 11 4 0 false true,
                               Call.clGetDeviceIDs 11 4 2 true true],
                     allocs := 1 } }
        11 CL_DEVICE_TYPE_ALL true true).map (fun r => r.1) =
      some { error := CL_OUT_OF_HOST_MEMORY, devices := none, num_devices := some 3,
             freed := true } := by
  decide

/-- C14: for a cached platform (the first record of identity `platform`, at
index `i` of a populated cache) whose device cache is not populated, whenever
`cluGetDeviceIDs` for `CL_DEVICE_TYPE_ALL` returns `CL_SUCCESS` with the list
`ids` and the count `n`, the platform record then has `num_devices = n` and a
`devices` array of the `n` records made of the first `n` identities of the
list, in that order, each all zero (so `has_info` false) except for its
identity and for `pinfo`, which points to the platform record; and the call
does return `CL_SUCCESS` when the driver answers both queries with `n`
devices and the allocations succeed. -/
theorem cluGetDeviceIDs_all_populates (drv : Driver) (s : State) (arr : List clu_platform)
    (i : Nat) (p : clu_platform) (platform : Nat) (devices : Bool)
    (hpop : Populated s arr) (hcurr : arr[i]? = some p) (hid : p.id = platform)
    (hfirst : ∀ c ∈ arr.take i, c.id ≠ platform) (hdev : p.devices = none) :
    (∀ r s', cluGetDeviceIDs drv s platform CL_DEVICE_TYPE_ALL devices true = some (r, s') →
      r.error = CL_SUCCESS →
      ∃ ids n recs, r.devices = (if devices = true then some ids else none) ∧
        r.num_devices = some n ∧ n ≤ ids.length ∧
        s'._num_platforms = s._num_platforms ∧
        s'._platforms = some (arr.set i { p with num_devices := n, devices := some recs }) ∧
        recs = (ids.take n).map
          (fun id => { clu_device.zero with id := id, pinfo := some i }) ∧
        recs.length = n ∧ recs.map (fun d => d.id) = ids.take n ∧
        (∀ d ∈ recs, d.has_info = false ∧ d.pinfo = some i)) ∧
    (∀ n ids,
      (drv.clGetDeviceIDs s.world.trace platform CL_DEVICE_TYPE_ALL 0 false true).error = 0 →
      (drv.clGetDeviceIDs s.world.trace platform CL_DEVICE_TYPE_ALL 0 false true).num = n →
      n < 2 ^ 32 →
      drv.alloc
        (s.world.trace ++ [Call.clGetDeviceIDs platform CL_DEVICE_TYPE_ALL 0 false true])
        s.world.allocs (n * 8) = true →
      drv.clGetDeviceIDs
        (s.world.trace ++ [Call.clGetDeviceIDs platform CL_DEVICE_TYPE_ALL 0 false true])
        platform CL_DEVICE_TYPE_ALL n true true = { error := 0, num := n, ids := ids } →
      ids.length = n →
      drv.alloc
        (s.world.trace ++ [Call.clGetDeviceIDs platform CL_DEVICE_TYPE_ALL 0 false true,
                           Call.clGetDeviceIDs platform CL_DEVICE_TYPE_ALL n true true])
        (s.world.allocs + 1) (n * 408) = true →
      ∃ s', cluGetDeviceIDs drv s platform CL_DEVICE_TYPE_ALL devices true =
        some ({ error := CL_SUCCESS, devices := if devices = true then some ids else none,
                num_devices := some n }, s')) := by
  subst hid
  have hp := platforms_of_populated hpop hcurr
  rw [cluGetDeviceIDs_of_found drv s arr i p p.id _ devices hpop hcurr rfl hfirst]
  constructor
  · intro r s' h hok
    obtain ⟨ids, n, hd, hnum, hle, hnp, hpl⟩ :=
      _cluGetDeviceIDs_all_success drv s s' arr i p devices r hp hcurr hdev h hok
    refine ⟨ids, n, _, hd, hnum, hle, hnp, hpl, rfl, ?_, ?_, ?_⟩
    · simp only [List.length_map, List.length_take]
      omega
    · simp only [List.map_map, Function.comp_def, List.map_id']
    · intro d hd'
      simp only [List.mem_map] at hd'
      obtain ⟨id, _, rfl⟩ := hd'
      exact ⟨rfl, rfl⟩
  · intro n ids h1e h1n hn ha h2 hlen hb
    rw [_cluGetDeviceIDs_populate drv s arr i p devices n ids hp hcurr hdev h1e h1n hn ha h2
      hlen, if_pos hb]
    exact ⟨_, rfl⟩

theorem cluGetDeviceIDs_all_populates_witness :
    (Populated stateAlphaBeta [examplePlatform 11 "Alpha", examplePlatform 22 "Beta"] ∧
      [examplePlatform 11 "Alpha", examplePlatform 22 "Beta"][0]? =
        some (examplePlatform 11 "Alpha") ∧
      (examplePlatform 11 "Alpha").id = 11 ∧
      (∀ c ∈ [examplePlatform 11 "Alpha", examplePlatform 22 "Beta"].take 0, c.id ≠ 11) ∧
      (examplePlatform 11 "Alpha").devices = none) ∧
    cluGetDeviceIDs mixedDriver stateAlphaBeta 11 CL_DEVICE_TYPE_ALL true true =
      some ({ error := CL_SUCCESS, devices := some [101, 102, 103], num_devices := some 3 },
            { stateMixed with
              world := { trace := [Call.clGetDeviceIDs 11 CL_DEVICE_TYPE_ALL 0 false true,
                                   Call.clGetDeviceIDs 11 CL_DEVICE_TYPE_ALL 3 true true],
                         allocs := 2 } }) ∧
    (∃ ids n recs,
      (some [101, 102, 103] : Option (List Nat)) = (if true = true then some ids else none) ∧
      (some 3 : Option Nat) = some n ∧ n ≤ ids.length ∧
      stateMixed._num_platforms = stateAlphaBeta._num_platforms ∧
      stateMixed._platforms =
        some ([examplePlatform 11 "Alpha", examplePlatform 22 "Beta"].set 0
          { examplePlatform 11 "Alpha" with num_devices := n, devices := some recs }) ∧
      recs = (ids.take n).map (fun id => { clu_device.zero with id := id, pinfo := some 0 }) ∧
      recs.length = n ∧ recs.map (fun d => d.id) = ids.take n ∧
      (∀ d ∈ recs, d.has_info = false ∧ d.pinfo = some 0)) :=
  ⟨by decide, by decide,
   (cluGetDeviceIDs_all_populates mixedDriver stateAlphaBeta
      [examplePlatform 11 "Alpha", examplePlatform 22 "Beta"] 0 (examplePlatform 11 "Alpha")
      11 true (by decide) (by decide) (by decide) (by decide) (by decide)).1
      { error := CL_SUCCESS, devices := some [101, 102, 103], num_devices := some 3 }
      { stateMixed with
        world := { trace := [Call.clGetDeviceIDs 11 CL_DEVICE_TYPE_ALL 0 false true,
                             Call.clGetDeviceIDs 11 CL_DEVICE_TYPE_ALL 3 true true],
                   allocs := 2 } }
      (by decide) (by decide)⟩

/-! ### A `NULL` count output -/

/-- C17, as the code has it: `cluGetDevices` called with a list output and a
`NULL` count output returns `CL_INVALID_VALUE` in every state, with no driver
call and the state unchanged; `cluGetDeviceIDs` called with a `NULL` count
output does so when the platform cache is populated; and `cluGetDevices`
called without a list output passes the request, with its count output as it
is, to the driver and returns the driver's code. -/
theorem null_num_devices (drv : Driver) (s : State) (platform type : Nat) :
    cluGetDevices drv s platform type true false =
      some ({ error := CL_INVALID_VALUE, devices := none, num_devices := none }, s) ∧
    (∀ arr devices, Populated s arr →
      cluGetDeviceIDs drv s platform type devices false =
        some ({ error := CL_INVALID_VALUE, devices := none, num_devices := none }, s)) ∧
    cluGetDevices drv s platform type false false =
      some ({ error := (drv.clGetDeviceIDs s.world.trace platform type 0 false false).error,
              devices := none, num_devices := none },
            { s with
              world := s.world.log (Call.clGetDeviceIDs platform type 0 false false) }) := by
  refine ⟨?_, ?_, ?_⟩
  · unfold cluGetDevices
    simp
  · intro arr devices hpop
    unfold cluGetDeviceIDs
    rw [_cluInitPlatformCache_of_populated drv s arr hpop]
    have h0 : ¬ (CL_SUCCESS ≠ 0) := by decide
    simp [h0]
  · unfold cluGetDevices
    simp

theorem null_num_devices_witness :
    Populated stateAlphaBeta [examplePlatform 11 "Alpha", examplePlatform 22 "Beta"] ∧
    cluGetDeviceIDs mixedDriver stateAlphaBeta 11 4 true false =
      some ({ error := CL_INVALID_VALUE, devices := none, num_devices := none },
        stateAlphaBeta) :=
  ⟨by decide,
   (null_num_devices mixedDriver stateAlphaBeta 11 4).2.1
     [examplePlatform 11 "Alpha", examplePlatform 22 "Beta"] true (by decide)⟩

/-- C17 as stated fails: `cluGetDevices` called with neither a list output
nor a count output makes a driver call (and returns what the driver returns);
and `cluGetDeviceIDs` called with a `NULL` count output at program start first
enumerates the platforms, with two driver calls, and populates the platform
cache before it returns `CL_INVALID_VALUE`. -/
theorem null_num_devices_driver_call :
    cluGetDevices mixedDriver stateAlphaBeta 11 4 false false =
      some ({ error := CL_INVALID_VALUE, devices := none, num_devices := none },
            { stateAlphaBeta with
              world := { trace := [Call.clGetDeviceIDs 11 4 0 false false], allocs := 0 } }) ∧
    cluGetDeviceIDs mixedDriver State.init 11 4 true false =
      some ({ error := CL_INVALID_VALUE, devices := none, num_devices := none },
        stateEnumerated) ∧
    stateEnumerated ≠ State.init := by
  decide

/-! ### Device lookups -/

theorem cluGetPlatformByID_of_found (drv : Driver) (s : State) (arr : List clu_platform)
    (i : Nat) (p : clu_platform) (id : Nat) (hpop : Populated s arr)
    (hcurr : arr[i]? = some p) (hid : p.id = id) (hfirst : ∀ c ∈ arr.take i, c.id ≠ id) :
    cluGetPlatformByID drv s id =
      some (if (_cluGetPlatformInfo drv s.world p).1 ≠ 0 then
              { handle := none, errcode := (_cluGetPlatformInfo drv s.world p).1 }
            else { handle := some i, errcode := (_cluGetPlatformInfo drv s.world p).1 },
            { s with
              _platforms := some (arr.set i (_cluGetPlatformInfo drv s.world p).2.1)
              world := (_cluGetPlatformInfo drv s.world p).2.2 }) := by
  have h0 : ¬ (CL_SUCCESS ≠ 0) := by decide
  have hlt := lt_length_of_getElem? hcurr
  have hp := platforms_of_populated hpop hcurr
  have hskip := cluGetPlatformByID_loop_skip drv s arr id hp i (arr.length - i) 0
    (skip_before (Nat.le_of_lt hlt) hfirst)
  have hfuel : i + (arr.length - i) = arr.length := by omega
  have hstep : arr.length - i = (arr.length - i - 1) + 1 := by omega
  rw [hfuel, Nat.zero_add, hstep] at hskip
  unfold cluGetPlatformByID
  rw [_cluInitPlatformCache_of_populated drv s arr hpop]
  simp only [h0, if_false, hpop.1]
  rw [hskip]
  simp only [cluGetPlatformByID_loop, hp, hcurr, hid, if_true]
  split <;> rw [hpop.1]

theorem cluGetPlatformByID_of_absent (drv : Driver) (s : State) (arr : List clu_platform)
    (id : Nat) (hpop : Populated s arr) (hnone : ∀ c ∈ arr, c.id ≠ id) :
    cluGetPlatformByID drv s id =
      some ({ handle := none, errcode := CL_INVALID_PLATFORM }, s) := by
  have h0 : ¬ (CL_SUCCESS ≠ 0) := by decide
  unfold cluGetPlatformByID
  rw [_cluInitPlatformCache_of_populated drv s arr hpop]
  simp only [h0, if_false, hpop.1]
  rcases hpop.2.2 with hp | ⟨hnil, _⟩
  · have hskip := cluGetPlatformByID_loop_skip drv s arr id hp arr.length 0 0
      (by
        intro j _ hj
        have hj' : j < arr.length := by omega
        exact ⟨arr[j], List.getElem?_eq_getElem hj', hnone _ (List.getElem_mem _)⟩)
    rw [Nat.add_zero, Nat.zero_add] at hskip
    rw [hskip]
    rfl
  · subst hnil
    rfl

theorem _cluGetPlatformInfo_devices (drv : Driver) (w : World) (p : clu_platform) :
    (_cluGetPlatformInfo drv w p).2.1.devices = p.devices ∧
    (_cluGetPlatformInfo drv w p).2.1.num_devices = p.num_devices := by
  have h := runSteps_preserves
    (fun q => q.devices = p.devices ∧ q.num_devices = p.num_devices) (platformSteps drv)
    (by
      intro f hf w a ha
      simp only [platformSteps, List.mem_cons, List.mem_singleton, List.not_mem_nil,
        or_false] at hf
      rcases hf with rfl | rfl | rfl | rfl | rfl <;>
        · apply PLATFORM_GET_INFO_preserves
            (fun q => q.devices = p.devices ∧ q.num_devices = p.num_devices)
          · intro _ _ h
            exact h
          · exact ha)
    w p ⟨rfl, rfl⟩
  unfold _cluGetPlatformInfo
  split
  · exact ⟨rfl, rfl⟩
  · simp only
    split
    · exact h
    · exact h

theorem DEVICE_GET_INFO_keeps {β : Type} (proj : clu_device → β) (drv : Driver)
    (param : cl_device_info) (size : Nat) (set : clu_device → Nat → clu_device)
    (hset : ∀ d v, proj (set d v) = proj d) (w : World) (a : clu_device) :
    proj (DEVICE_GET_INFO drv param size set w a).2.1 = proj a := by
  unfold DEVICE_GET_INFO
  simp only
  split
  · rfl
  · exact hset _ _

theorem DEVICE_GET_STRING_keeps {β : Type} (proj : clu_device → β) (drv : Driver)
    (param : cl_device_info) (set : clu_device → CharPtr → clu_device)
    (hset : ∀ d v, proj (set d v) = proj d) (w : World) (a : clu_device) :
    proj (DEVICE_GET_STRING drv param set w a).2.1 = proj a := by
  unfold DEVICE_GET_STRING
  simp only
  split
  · rfl
  · split
    · exact hset _ _
    · split
      · exact hset _ _
      · exact hset _ _

theorem DEVICE_GET_WORK_ITEM_SIZES_keeps {β : Type} (proj : clu_device → β) (drv : Driver)
    (hset : ∀ (d : clu_device) v, proj { d with max_work_item_sizes := v } = proj d)
    (w : World) (a : clu_device) :
    proj (DEVICE_GET_WORK_ITEM_SIZES drv w a).2.1 = proj a := by
  unfold DEVICE_GET_WORK_ITEM_SIZES
  simp only
  split
  · exact hset _ _
  · split
    · exact hset _ _
    · exact hset _ _

theorem deviceSteps_id (drv : Driver) :
    ∀ f ∈ deviceSteps drv, ∀ w a, (f w a).2.1.id = a.id := by
  unfold deviceSteps
  simp only [List.forall_mem_cons, List.not_mem_nil, false_implies, implies_true, and_true]
  repeat' apply And.intro
  all_goals
    first
    | exact DEVICE_GET_INFO_keeps (fun d => d.id) drv _ _ _ (fun _ _ => rfl)
    | exact DEVICE_GET_STRING_keeps (fun d => d.id) drv _ _ (fun _ _ => rfl)
    | exact DEVICE_GET_WORK_ITEM_SIZES_keeps (fun d => d.id) drv (fun _ _ => rfl)

theorem _cluGetDeviceInfo_id (drv : Driver) (w : World) (d : clu_device) :
    (_cluGetDeviceInfo drv w d).2.1.id = d.id := by
  have h := runSteps_preserves (fun q => q.id = d.id) (deviceSteps drv)
    (fun f hf w a ha => by
      show (f w a).2.1.id = d.id
      rw [deviceSteps_id drv f hf w a]
      exact ha)
    w d rfl
  unfold _cluGetDeviceInfo
  by_cases hp : d.has_info = true
  · rw [if_pos hp]
  · rw [if_neg hp]
    by_cases hne : (runSteps (deviceSteps drv) w d).1 ≠ 0
    · rw [if_pos hne]
      exact h
    · rw [if_neg hne]
      exact h

theorem cluGetDeviceByID_loop_skip (drv : Driver) (s : State) (arr : List clu_platform)
    (i : Nat) (p : clu_platform) (devs : List clu_device) (id : Nat)
    (hp : s._platforms = some arr) (hcurr : arr[i]? = some p) (hdevs : p.devices = some devs)
    (m fuel k : Nat)
    (h : ∀ j, k ≤ j → j < k + m → ∃ d, devs[j]? = some d ∧ d.id ≠ id) :
    cluGetDeviceByID_loop drv s i id (m + fuel) k =
      cluGetDeviceByID_loop drv s i id fuel (k + m) := by
  induction m generalizing k with
  | zero => simp
  | succ m ih =>
    obtain ⟨d, hd, hne⟩ := h k (Nat.le_refl _) (by omega)
    have e : m + 1 + fuel = (m + fuel) + 1 := by omega
    rw [e]
    simp only [cluGetDeviceByID_loop, hp, hcurr, hdevs, hd, hne, if_false]
    rw [ih (k + 1) (fun j h1 h2 => h j (by omega) (by omega))]
    congr 1
    omega

theorem skip_devices_before {devs : List clu_device} {j : Nat} {id : Nat}
    (hlt : j ≤ devs.length) (hfirst : ∀ c ∈ devs.take j, c.id ≠ id) :
    ∀ k, 0 ≤ k → k < 0 + j → ∃ d, devs[k]? = some d ∧ d.id ≠ id := by
  intro k _ hk
  have hk' : k < devs.length := by omega
  refine ⟨devs[k], List.getElem?_eq_getElem hk', ?_⟩
  apply hfirst
  apply List.getElem?_mem (n := k)
  rw [List.getElem?_take_of_lt (by omega)]
  exact List.getElem?_eq_getElem hk'

theorem cluGetDeviceByID_loop_found (drv : Driver) (s : State) (arr : List clu_platform)
    (i : Nat) (p : clu_platform) (devs : List clu_device) (id : Nat) (j : Nat)
    (d : clu_device) (hp : s._platforms = some arr) (hcurr : arr[i]? = some p)
    (hdevs : p.devices = some devs) (hd : devs[j]? = some d) (hid : d.id = id)
    (hfirst : ∀ c ∈ devs.take j, c.id ≠ id) :
    cluGetDeviceByID_loop drv s i id devs.length 0 =
      some (if (_cluGetDeviceInfo drv s.world d).1 ≠ 0 then
              { handle := none, errcode := (_cluGetDeviceInfo drv s.world d).1 }
            else { handle := some (i, j), errcode := (_cluGetDeviceInfo drv s.world d).1 },
            { s with
              _platforms := some (arr.set i
                { p with devices := some (devs.set j (_cluGetDeviceInfo drv s.world d).2.1) })
              world := (_cluGetDeviceInfo drv s.world d).2.2 }) := by
  have hlt := lt_length_of_getElem? hd
  have hskip := cluGetDeviceByID_loop_skip drv s arr i p devs id hp hcurr hdevs j
    (devs.length - j) 0 (skip_devices_before (Nat.le_of_lt hlt) hfirst)
  have hfuel : j + (devs.length - j) = devs.length := by omega
  have hstep : devs.length - j = (devs.length - j - 1) + 1 := by omega
  rw [hfuel, Nat.zero_add, hstep] at hskip
  rw [hskip]
  simp only [cluGetDeviceByID_loop, hp, hcurr, hdevs, hd, hid, if_true]
  split <;> rfl

theorem cluGetDeviceByID_loop_absent (drv : Driver) (s : State) (arr : List clu_platform)
    (i : Nat) (p : clu_platform) (devs : List clu_device) (id : Nat)
    (hp : s._platforms = some arr) (hcurr : arr[i]? = some p) (hdevs : p.devices = some devs)
    (hnone : ∀ c ∈ devs, c.id ≠ id) :
    cluGetDeviceByID_loop drv s i id devs.length 0 =
      some ({ handle := none, errcode := CL_INVALID_DEVICE }, s) := by
  have hskip := cluGetDeviceByID_loop_skip drv s arr i p devs id hp hcurr hdevs devs.length 0 0
    (by
      intro j _ hj
      have hj' : j < devs.length := by omega
      exact ⟨devs[j], List.getElem?_eq_getElem hj', hnone _ (List.getElem_mem _)⟩)
  rw [Nat.add_zero, Nat.zero_add] at hskip
  rw [hskip]
  rfl

theorem getElem?_set_self_of_getElem? {α : Type} {l : List α} {i : Nat} {x y : α}
    (h : l[i]? = some x) : (l.set i y)[i]? = some y := by
  rw [List.getElem?_set]
  simp [lt_length_of_getElem? h]

theorem cluGetDeviceByID_of_found (drv : Driver) (s : State) (arr : List clu_platform)
    (i : Nat) (p : clu_platform) (platform id : Nat) (hpop : Populated s arr)
    (hcurr : arr[i]? = some p) (hid : p.id = platform)
    (hfirst : ∀ c ∈ arr.take i, c.id ≠ platform) :
    cluGetDeviceByID drv s platform id =
      if (_cluGetPlatformInfo drv s.world p).1 ≠ 0 then
        some ({ handle := none, errcode := (_cluGetPlatformInfo drv s.world p).1 },
              { s with
                _platforms := some (arr.set i (_cluGetPlatformInfo drv s.world p).2.1)
                world := (_cluGetPlatformInfo drv s.world p).2.2 })
      else
        match _cluInitDeviceCache drv
            { s with
              _platforms := some (arr.set i (_cluGetPlatformInfo drv s.world p).2.1)
              world := (_cluGetPlatformInfo drv s.world p).2.2 } i none 0 with
        | none => none
        | some (_, s2) =>
          match s2._platforms with
          | none => none
          | some arr2 =>
            match arr2[i]? with
            | none => none
            | some p2 => cluGetDeviceByID_loop drv s2 i id p2.num_devices 0 := by
  unfold cluGetDeviceByID
  rw [cluGetPlatformByID_of_found drv s arr i p platform hpop hcurr hid hfirst]
  by_cases he : (_cluGetPlatformInfo drv s.world p).1 ≠ 0
  · simp only [if_pos he]
  · simp only [if_neg he, not_false_eq_true]

/-- C20, as the code has it: on a populated platform cache, when the first
record of identity `platform` is at index `i`, `cluGetDeviceByID` hydrates
that record and returns `NULL` with the code of that hydration when it
fails; otherwise, when after `_cluInitDeviceCache` the device cache of the
record holds the records `devs`, it hydrates the first record of identity
`id` and returns a handle to it with `CL_SUCCESS`, or `NULL` with the code of
that hydration when it fails, and returns `NULL` with `CL_INVALID_DEVICE`
when no record has identity `id`; when no platform record has identity
`platform` it returns `NULL` with `CL_INVALID_PLATFORM` and changes
nothing. -/
theorem cluGetDeviceByID_spec (drv : Driver) (s : State) (arr : List clu_platform)
    (platform id : Nat) (hpop : Populated s arr) :
    (∀ i p, arr[i]? = some p → p.id = platform → (∀ c ∈ arr.take i, c.id ≠ platform) →
      ((_cluGetPlatformInfo drv s.world p).1 ≠ CL_SUCCESS →
        cluGetDeviceByID drv s platform id =
          some ({ handle := none, errcode := (_cluGetPlatformInfo drv s.world p).1 },
                { s with
                  _platforms := some (arr.set i (_cluGetPlatformInfo drv s.world p).2.1)
                  world := (_cluGetPlatformInfo drv s.world p).2.2 })) ∧
      ((_cluGetPlatformInfo drv s.world p).1 = CL_SUCCESS →
        ∀ e s2 arr2 p2 devs,
          _cluInitDeviceCache drv
            { s with
              _platforms := some (arr.set i (_cluGetPlatformInfo drv s.world p).2.1)
              world := (_cluGetPlatformInfo drv s.world p).2.2 } i none 0 = some (e, s2) →
          s2._platforms = some arr2 → arr2[i]? = some p2 → p2.devices = some devs →
          p2.num_devices = devs.length →
          (∀ j d, devs[j]? = some d → d.id = id → (∀ c ∈ devs.take j, c.id ≠ id) →
            ((_cluGetDeviceInfo drv s2.world d).1 = CL_SUCCESS →
              cluGetDeviceByID drv s platform id =
                some ({ handle := some (i, j), errcode := CL_SUCCESS },
                      { s2 with
                        _platforms := some (arr2.set i
                          { p2 with
                            devices := some (devs.set j (_cluGetDeviceInfo drv s2.world d).2.1) })
                        world := (_cluGetDeviceInfo drv s2.world d).2.2 }) ∧
              (_cluGetDeviceInfo drv s2.world d).2.1.has_info = true ∧
              (_cluGetDeviceInfo drv s2.world d).2.1.id = id) ∧
            ((_cluGetDeviceInfo drv s2.world d).1 ≠ CL_SUCCESS →
              cluGetDeviceByID drv s platform id =
                some ({ handle := none, errcode := (_cluGetDeviceInfo drv s2.world d).1 },
                      { s2 with
                        _platforms := some (arr2.set i
                          { p2 with
                            devices := some (devs.set j (_cluGetDeviceInfo drv s2.world d).2.1) })
                        world := (_cluGetDeviceInfo drv s2.world d).2.2 }))) ∧
          ((∀ c ∈ devs, c.id ≠ id) →
            cluGetDeviceByID drv s platform id =
              some ({ handle := none, errcode := CL_INVALID_DEVICE }, s2)))) ∧
    ((∀ c ∈ arr, c.id ≠ platform) →
      cluGetDeviceByID drv s platform id =
        some ({ handle := none, errcode := CL_INVALID_PLATFORM }, s)) := by
  constructor
  · intro i p hcurr hid hfirst
    have hcall := cluGetDeviceByID_of_found drv s arr i p platform id hpop hcurr hid hfirst
    constructor
    · intro hbad
      have hbad' : (_cluGetPlatformInfo drv s.world p).1 ≠ 0 := hbad
      rw [hcall, if_pos hbad']
    · intro hok e s2 arr2 p2 devs hinit hs2 hp2 hdevs hnum
      have hgood : ¬ ((_cluGetPlatformInfo drv s.world p).1 ≠ 0) := by
        rw [hok]
        decide
      rw [if_neg hgood, hinit] at hcall
      simp only [hs2, hp2, hnum] at hcall
      constructor
      · intro j d hd hdid hdfirst
        have hloop := cluGetDeviceByID_loop_found drv s2 arr2 i p2 devs id j d hs2 hp2 hdevs hd
          hdid hdfirst
        constructor
        · intro hdok
          have h1 : ¬ ((_cluGetDeviceInfo drv s2.world d).1 ≠ 0) := by
            rw [hdok]
            decide
          rw [if_neg h1, hdok] at hloop
          refine ⟨by rw [hcall, hloop], _cluGetDeviceInfo_has_info drv _ _ hdok, ?_⟩
          rw [_cluGetDeviceInfo_id, hdid]
        · intro hdbad
          have h1 : (_cluGetDeviceInfo drv s2.world d).1 ≠ 0 := hdbad
          rw [if_pos h1] at hloop
          rw [hcall, hloop]
      · intro hnone
        rw [hcall]
        exact cluGetDeviceByID_loop_absent drv s2 arr2 i p2 devs id hs2 hp2 hdevs hnone
  · intro hnone
    unfold cluGetDeviceByID
    rw [cluGetPlatformByID_of_absent drv s arr platform hpop hnone]
    have h : CL_INVALID_PLATFORM ≠ 0 := by decide
    simp only [h, if_true, ne_eq, not_false_eq_true]

theorem cluGetDeviceByID_spec_witness :
    (Populated stateMixed [platformMixed, examplePlatform 22 "Beta"] ∧
      [platformMixed, examplePlatform 22 "Beta"][0]? = some platformMixed ∧
      platformMixed.devices = some mixedDevices ∧
      mixedDevices[1]? = some { clu_device.zero with id := 102, pinfo := some 0 }) ∧
    (cluGetDeviceByID mixedDriver stateMixed 11 102).map (fun r => r.1) =
      some { handle := some (0, 1), errcode := CL_SUCCESS } ∧
    (cluGetDeviceByID mixedDriver stateMixed 11 104).map (fun r => r.1) =
      some { handle := none, errcode := CL_INVALID_DEVICE } ∧
    cluGetDeviceByID mixedDriver stateMixed 33 102 =
      some ({ handle := none, errcode := CL_INVALID_PLATFORM }, stateMixed) :=
  ⟨by decide,
   congrArg (Option.map (fun r => r.1))
     ((((((cluGetDeviceByID_spec mixedDriver stateMixed
        [platformMixed, examplePlatform 22 "Beta"] 11 102 (by decide)).1
        0 platformMixed (by decide) (by decide) (by decide)).2 (by decide)
        CL_SUCCESS stateMixed [platformMixed, examplePlatform 22 "Beta"] platformMixed
        mixedDevices (by decide) (by decide) (by decide) (by decide) (by decide)).1
        1 { clu_device.zero with id := 102, pinfo := some 0 }
        (by decide) (by decide) (by decide)).1 (by decide)).1),
   congrArg (Option.map (fun r => r.1))
     (((((cluGetDeviceByID_spec mixedDriver stateMixed
        [platformMixed, examplePlatform 22 "Beta"] 11 104 (by decide)).1
        0 platformMixed (by decide) (by decide) (by decide)).2 (by decide)
        CL_SUCCESS stateMixed [platformMixed, examplePlatform 22 "Beta"] platformMixed
        mixedDevices (by decide) (by decide) (by decide) (by decide) (by decide)).2
        (by decide))),
   (cluGetDeviceByID_spec mixedDriver stateMixed
      [platformMixed, examplePlatform 22 "Beta"] 33 102 (by decide)).2 (by decide)⟩

/-- C20 as stated fails: the device cache of platform 11 holds a record of
identity 102, but the driver fails the value query for the device name with
-5, so `cluGetDeviceByID` returns `NULL` with -5 instead of the record with
`CL_SUCCESS`. -/
theorem cluGetDeviceByID_hydration_failure :
    (cachedDeviceIds stateMixed 0 = some (3, some [101, 102, 103])) ∧
    (cluGetDeviceByID nameFailingDriver stateMixed 11 102).map (fun r => r.1) =
      some { handle := none, errcode := -5 } := by
  decide

/-! ### The device cache under `cluGetDevices` -/

theorem take_set_self {α : Type} (l : List α) (i : Nat) (x : α) :
    (l.set i x).take i = l.take i := by
  induction l generalizing i with
  | nil => rfl
  | cons a t ih =>
    cases i with
    | zero => rfl
    | succ i => simp [List.set, ih i]

theorem CachedDevices_world {s : State} {i platform : Nat} {ids : List Nat}
    (h : CachedDevices s i platform ids) (w : World) :
    CachedDevices { s with world := w } i platform ids := by
  obtain ⟨arr, p, devs, hpop, rest⟩ := h
  exact ⟨arr, p, devs, hpop, rest⟩

theorem CachedDevices_set_platform {s : State} {arr : List clu_platform} {i platform : Nat}
    {p q : clu_platform} {d : List clu_device} {ids : List Nat} (w : World)
    (hpop : Populated s arr) (hcurr : arr[i]? = some p)
    (hfirst : ∀ c ∈ arr.take i, c.id ≠ platform) (hid : q.id = platform)
    (hdevs : q.devices = some d) (hnum : q.num_devices = d.length)
    (hids : d.map (fun x => x.id) = ids) :
    CachedDevices { s with _platforms := some (arr.set i q), world := w } i platform ids := by
  refine ⟨arr.set i q, q, d, ?_, getElem?_set_self_of_getElem? hcurr, hid, ?_, hdevs,
    hnum, hids⟩
  · refine ⟨?_, ?_, Or.inl rfl⟩
    · rw [List.length_set]
      exact hpop.1
    · rw [List.length_set]
      exact hpop.2.1
  · rw [take_set_self]
    exact hfirst

theorem cluGetPlatformByID_cached (drv : Driver) (s : State) (i platform : Nat)
    (ids : List Nat) (h : CachedDevices s i platform ids) :
    ∃ f s1, cluGetPlatformByID drv s platform = some (f, s1) ∧
      CachedDevices s1 i platform ids ∧ (f.errcode = 0 → f.handle = some i) := by
  obtain ⟨arr, p, devs, hpop, hcurr, hid, hfirst, hdevs, hnum, hids⟩ := h
  refine ⟨_, _, cluGetPlatformByID_of_found drv s arr i p platform hpop hcurr hid hfirst, ?_, ?_⟩
  · obtain ⟨hd, hn⟩ := _cluGetPlatformInfo_devices drv s.world p
    exact CachedDevices_set_platform _ hpop hcurr hfirst
      (by rw [_cluGetPlatformInfo_id, hid]) (by rw [hd, hdevs]) (by rw [hn, hnum]) hids
  · intro he
    by_cases hne : (_cluGetPlatformInfo drv s.world p).1 ≠ 0
    · rw [if_pos hne] at he
      exact absurd he hne
    · rw [if_neg hne]

theorem _cluInitDeviceCache_cached (drv : Driver) (s : State) (i platform : Nat)
    (ids : List Nat) (h : CachedDevices s i platform ids) (devs0 : Option (List Nat))
    (count : Nat) : _cluInitDeviceCache drv s i devs0 count = some (CL_SUCCESS, s) := by
  obtain ⟨arr, p, devs, hpop, hcurr, hid, hfirst, hdevs, hnum, hids⟩ := h
  have hp := platforms_of_populated hpop hcurr
  unfold _cluInitDeviceCache
  simp only [hp, hcurr, hdevs, Option.isSome_some, if_true]

theorem cluGetDeviceIDs_cached (drv : Driver) (s : State) (i platform : Nat)
    (ids : List Nat) (h : CachedDevices s i platform ids) (type : Nat) (devices : Bool) :
    ∃ r w, cluGetDeviceIDs drv s platform type devices true =
      some (r, { s with world := w }) := by
  obtain ⟨arr, p, devs, hpop, hcurr, hid, hfirst, hdevs, hnum, hids⟩ := h
  have hp := platforms_of_populated hpop hcurr
  rw [cluGetDeviceIDs_of_found drv s arr i p platform type devices hpop hcurr hid hfirst]
  exact _cluGetDeviceIDs_frame drv s arr i p type devices hp hcurr
    (Or.inr (by rw [hdevs]; exact Option.some_ne_none _))

theorem cluGetDeviceByID_loop_cached (drv : Driver) (i platform id : Nat) (ids : List Nat)
    (fuel : Nat) :
    ∀ (s : State) (arr : List clu_platform) (p : clu_platform) (devs : List clu_device)
      (k : Nat), Populated s arr → arr[i]? = some p → p.id = platform →
      (∀ c ∈ arr.take i, c.id ≠ platform) → p.devices = some devs →
      p.num_devices = devs.length → devs.map (fun d => d.id) = ids →
      k + fuel = devs.length →
      ∃ f s', cluGetDeviceByID_loop drv s i id fuel k = some (f, s') ∧
        CachedDevices s' i platform ids := by
  induction fuel with
  | zero =>
    intro s arr p devs k hpop hcurr hid hfirst hdevs hnum hids _
    exact ⟨_, _, rfl, arr, p, devs, hpop, hcurr, hid, hfirst, hdevs, hnum, hids⟩
  | succ fuel ih =>
    intro s arr p devs k hpop hcurr hid hfirst hdevs hnum hids hk
    have hp := platforms_of_populated hpop hcurr
    have hklt : k < devs.length := by omega
    have hd : devs[k]? = some devs[k] := List.getElem?_eq_getElem hklt
    simp only [cluGetDeviceByID_loop, hp, hcurr, hdevs, hd]
    by_cases hmatch : devs[k].id = id
    · rw [if_pos hmatch]
      have hinv : CachedDevices
          { s with
            _platforms := some (arr.set i
              { p with devices := some (devs.set k (_cluGetDeviceInfo drv s.world devs[k]).2.1) })
            world := (_cluGetDeviceInfo drv s.world devs[k]).2.2 } i platform ids := by
        refine CachedDevices_set_platform
          (q := { p with devices := some (devs.set k (_cluGetDeviceInfo drv s.world devs[k]).2.1) })
          (d := devs.set k (_cluGetDeviceInfo drv s.world devs[k]).2.1)
          _ hpop hcurr hfirst hid rfl ?_ ?_
        · rw [List.length_set]
          exact hnum
        · rw [List.map_set, _cluGetDeviceInfo_id, ← hids]
          apply set_of_getElem?
          rw [List.getElem?_map, hd]
          rfl
      split
      · exact ⟨_, _, rfl, hinv⟩
      · exact ⟨_, _, rfl, hinv⟩
    · rw [if_neg hmatch]
      exact ih s arr p devs (k + 1) hpop hcurr hid hfirst hdevs hnum hids (by omega)

theorem cluGetDeviceByID_cached (drv : Driver) (s : State) (i platform id : Nat)
    (ids : List Nat) (h : CachedDevices s i platform ids) :
    ∃ f s', cluGetDeviceByID drv s platform id = some (f, s') ∧
      CachedDevices s' i platform ids := by
  obtain ⟨f, s1, hcall, hinv, hhandle⟩ := cluGetPlatformByID_cached drv s i platform ids h
  unfold cluGetDeviceByID
  rw [hcall]
  by_cases he : f.errcode ≠ 0
  · simp only [if_pos he]
    exact ⟨_, _, rfl, hinv⟩
  · simp only [if_neg he, hhandle (not_not.mp he),
      _cluInitDeviceCache_cached drv s1 i platform ids hinv]
    obtain ⟨arr, p, devs, hpop, hcurr, hid, hfirst, hdevs, hnum, hids⟩ := hinv
    have hp := platforms_of_populated hpop hcurr
    simp only [hp, hcurr]
    exact cluGetDeviceByID_loop_cached drv i platform id ids p.num_devices s1 arr p devs 0
      hpop hcurr hid hfirst hdevs hnum hids (by omega)

theorem cluGetDevices_loop_cached (drv : Driver) (i platform : Nat) (ids : List Nat)
    (devids : List Nat) (fuel : Nat) :
    ∀ (k : Nat) (s : State) (error : Int) (acc : List (Option (Nat × Nat))) r,
      CachedDevices s i platform ids →
      cluGetDevices_loop drv platform devids fuel k s error acc = some r →
      CachedDevices r.2.2 i platform ids := by
  induction fuel with
  | zero =>
    intro k s error acc r hinv h
    simp only [cluGetDevices_loop, Option.some.injEq] at h
    subst h
    exact hinv
  | succ fuel ih =>
    intro k s error acc r hinv h
    simp only [cluGetDevices_loop] at h
    cases hid : devids[k]? with
    | none =>
      rw [hid] at h
      cases h
    | some id =>
      rw [hid] at h
      obtain ⟨f, s', hcall, hinv'⟩ := cluGetDeviceByID_cached drv s i platform id ids hinv
      simp only [hcall] at h
      exact ih (k + 1) s' f.errcode (acc ++ [f.handle]) r hinv' h

theorem cluGetDevices_cached (drv : Driver) (s s' : State) (i platform type : Nat)
    (ids : List Nat) (r : Devices) (h : CachedDevices s i platform ids)
    (hcall : cluGetDevices drv s platform type true true = some (r, s')) :
    CachedDevices s' i platform ids := by
  unfold cluGetDevices at hcall
  obtain ⟨f, s1, hplat, hinv1, hhandle⟩ := cluGetPlatformByID_cached drv s i platform ids h
  simp only [not_true_eq_false, if_false, hplat] at hcall
  by_cases he : f.errcode ≠ 0
  · simp only [if_pos he, Option.some.injEq, Prod.mk.injEq] at hcall
    rw [← hcall.2]
    exact hinv1
  · simp only [if_neg he, hhandle (not_not.mp he),
      _cluInitDeviceCache_cached drv s1 i platform ids hinv1] at hcall
    have h0 : ¬ (CL_SUCCESS ≠ 0) := by decide
    obtain ⟨rd, w, hids⟩ := cluGetDeviceIDs_cached drv s1 i platform ids hinv1 type true
    simp only [h0, if_false, hids] at hcall
    have hinv3 := CachedDevices_world hinv1 w
    by_cases hr : rd.error ≠ 0
    · rw [if_pos hr] at hcall
      by_cases hfr : rd.freed = true
      · rw [if_pos hfr] at hcall
        cases hcall
      · rw [if_neg hfr] at hcall
        simp only [Option.some.injEq, Prod.mk.injEq] at hcall
        rw [← hcall.2]
        exact hinv3
    · simp only [if_neg hr] at hcall
      cases hdev : rd.devices with
      | none =>
        rw [hdev] at hcall
        cases hcall
      | some devids =>
        cases hnum : rd.num_devices with
        | none =>
          rw [hdev, hnum] at hcall
          cases hcall
        | some n =>
          rw [hdev, hnum] at hcall
          simp only at hcall
          split at hcall
          · simp only [Option.some.injEq, Prod.mk.injEq] at hcall
            rw [← hcall.2]
            exact CachedDevices_world hinv3 _
          · cases hloop : cluGetDevices_loop drv platform devids n 0
                { s1 with world := ({ s1 with world := w } : State).world.bump } rd.error [] with
            | none =>
              rw [hloop] at hcall
              cases hcall
            | some res =>
              rw [hloop] at hcall
              simp only [Option.some.injEq, Prod.mk.injEq] at hcall
              rw [← hcall.2]
              exact cluGetDevices_loop_cached drv i platform ids devids n 0 _ _ _ res
                (CachedDevices_world hinv1 _) hloop

theorem cachedDeviceIds_of_cached {s : State} {i platform : Nat} {ids : List Nat}
    (h : CachedDevices s i platform ids) :
    cachedDeviceIds s i = some (ids.length, some ids) := by
  obtain ⟨arr, p, devs, hpop, hcurr, hid, hfirst, hdevs, hnum, hids⟩ := h
  have hp := platforms_of_populated hpop hcurr
  unfold cachedDeviceIds
  simp only [hp, hcurr, hdevs, hnum, Option.map_some', hids]
  rw [← hids, List.length_map]

/-- C13, as the code has it: for a cached platform (the first record of
identity `platform`, at index `i` of a populated cache) whose device cache is
already populated (`devices` holds `num_devices` records), and for every
device type, narrow or not, whatever `cluGetDevices` with a non-`NULL`
`devices` output returns, the platform record has afterwards the same
`num_devices` and a `devices` array of records of the same identities in the
same order as before. -/
theorem cluGetDevices_keeps_cache (drv : Driver) (s : State) (arr : List clu_platform)
    (i : Nat) (p : clu_platform) (devs : List clu_device) (platform type : Nat)
    (num_devices : Bool)
    (hpop : Populated s arr) (hcurr : arr[i]? = some p) (hid : p.id = platform)
    (hfirst : ∀ c ∈ arr.take i, c.id ≠ platform) (hdevs : p.devices = some devs)
    (hnum : p.num_devices = devs.length) (r : Devices) (s' : State)
    (hcall : cluGetDevices drv s platform type true num_devices = some (r, s')) :
    cachedDeviceIds s' i = cachedDeviceIds s i ∧
    cachedDeviceIds s i = some (p.num_devices, some (devs.map (fun d => d.id))) := by
  have hinv : CachedDevices s i platform (devs.map (fun d => d.id)) :=
    ⟨arr, p, devs, hpop, hcurr, hid, hfirst, hdevs, hnum, rfl⟩
  have hs := cachedDeviceIds_of_cached hinv
  rw [List.length_map, ← hnum] at hs
  refine ⟨?_, hs⟩
  cases num_devices with
  | false =>
    simp only [cluGetDevices, not_true_eq_false, if_false, Bool.false_eq_true, not_false_eq_true,
      if_true, Option.some.injEq, Prod.mk.injEq] at hcall
    rw [← hcall.2]
  | true =>
    have hinv' := cluGetDevices_cached drv s s' i platform type _ r hinv hcall
    rw [hs, cachedDeviceIds_of_cached hinv', List.length_map, ← hnum]

theorem cluGetDevices_keeps_cache_witness :
    (Populated stateMixed [platformMixed, examplePlatform 22 "Beta"] ∧
      [platformMixed, examplePlatform 22 "Beta"][0]? = some platformMixed ∧
      platformMixed.id = 11 ∧
      (∀ c ∈ [platformMixed, examplePlatform 22 "Beta"].take 0, c.id ≠ 11) ∧
      platformMixed.devices = some mixedDevices ∧
      platformMixed.num_devices = mixedDevices.length) ∧
    (cluGetDevices mixedDriver stateMixed 11 4 true true).map (fun r => r.1) =
      some { error := CL_SUCCESS, devices := some [some (0, 1), some (0, 2)],
             num_devices := some 2 } ∧
    (cluGetDevices mixedDriver stateMixed 11 4 true true).map
        (fun r => cachedDeviceIds r.2 0) = some (some (3, some [101, 102, 103])) ∧
    cachedDeviceIds stateMixed 0 = some (3, some [101, 102, 103]) := by
  have hsome : (cluGetDevices mixedDriver stateMixed 11 4 true true).isSome = true := by decide
  obtain ⟨⟨r, s'⟩, h⟩ := Option.isSome_iff_exists.mp hsome
  have hk := cluGetDevices_keeps_cache mixedDriver stateMixed
    [platformMixed, examplePlatform 22 "Beta"] 0 platformMixed mixedDevices 11 4 true
    (by decide) (by decide) (by decide) (by decide) (by decide) (by decide) r s' h
  refine ⟨by decide, by decide, ?_, hk.2⟩
  rw [h, Option.map_some', hk.1, hk.2]
  rfl

/-- C13 as stated fails when the device cache is not populated: on the cache
of "Alpha" and "Beta" with no device cache, `cluGetDevices` for the GPU
devices (type 4) of "Alpha" returns the two GPU devices, and the device cache
of "Alpha", `NULL` with count 0 before the call, holds afterwards the three
devices of the platform. -/
theorem cluGetDevices_populates_cache :
    (4 : Nat) ≠ CL_DEVICE_TYPE_ALL ∧
    cachedDeviceIds stateAlphaBeta 0 = some (0, none) ∧
    (cluGetDevices mixedDriver stateAlphaBeta 11 4 true true).map
        (fun r => (r.1, cachedDeviceIds r.2 0)) =
      some ({ error := CL_SUCCESS, devices := some [some (0, 1), some (0, 2)],
              num_devices := some 2 },
            some (3, some [101, 102, 103])) := by
  decide

/-! ### Evaluations at failing inputs: counted cache, partial hydration, handle lists -/

/-- C21, the code at a failing input: `cluGetPlatformIDs(NULL, &n)` as the
first library call caches the count 2 and allocates no record; from then on
`_cluInitPlatformCache` returns `CL_SUCCESS` without a driver call, and the
lookups by identity, by name and by ordinal index the `NULL` array. -/
theorem cluGetPlatformIDs_count_only :
    cluGetPlatformIDs exampleDriver State.init false NumPtr.user =
      some ({ error := CL_SUCCESS, platforms := none, num_platforms := some 2 },
            stateCounted) ∧
    stateCounted._num_platforms = 2 ∧ stateCounted._platforms = none ∧
    _cluInitPlatformCache exampleDriver stateCounted = some (CL_SUCCESS, stateCounted) ∧
    cluGetPlatformByID exampleDriver stateCounted 11 = none ∧
    cluGetPlatformByName exampleDriver stateCounted (some "Alpha".toList) = none ∧
    cluGetPlatformByNumber exampleDriver stateCounted 0 = none := by
  decide

/-- C22, the code at failing inputs: the hydration of an unhydrated platform
record fails at the value query for the name, and the record returned has the
profile and the version of the driver and a name buffer, where the record
before the call had `NULL`; `_cluReleasePlatformInfo`, which is not called,
would give the record of before. Likewise the hydration of an unhydrated
device record that fails at the value query for the name leaves the scalars
and the work-item sizes of the driver in the record. -/
theorem hydration_failure_keeps_fields :
    _cluGetPlatformInfo nameFailingDriver { trace := [], allocs := 0 }
        { clu_platform.zero with id := 11 } =
      (-5,
       { clu_platform.zero with
         id := 11, profile := CharPtr.text "x".toList, version := CharPtr.text "x".toList,
         name := CharPtr.uninit 6 },
       { trace := [Call.clGetPlatformInfo 11 cl_platform_info.PROFILE 0 false,
                   Call.clGetPlatformInfo 11 cl_platform_info.PROFILE 6 true,
                   Call.clGetPlatformInfo 11 cl_platform_info.VERSION 0 false,
                   Call.clGetPlatformInfo 11 cl_platform_info.VERSION 6 true,
                   Call.clGetPlatformInfo 11 cl_platform_info.NAME 0 false,
                   Call.clGetPlatformInfo 11 cl_platform_info.NAME 6 true],
         allocs := 3 }) ∧
    (_cluGetPlatformInfo nameFailingDriver { trace := [], allocs := 0 }
        { clu_platform.zero with id := 11 }).2.1 ≠ { clu_platform.zero with id := 11 } ∧
    _cluReleasePlatformInfo
        (_cluGetPlatformInfo nameFailingDriver { trace := [], allocs := 0 }
          { clu_platform.zero with id := 11 }).2.1 = { clu_platform.zero with id := 11 } ∧
    (_cluGetDeviceInfo nameFailingDriver { trace := [], allocs := 0 }
        { clu_device.zero with id := 102 }).1 = -5 ∧
    (_cluGetDeviceInfo nameFailingDriver { trace := [], allocs := 0 }
        { clu_device.zero with id := 102 }).2.1 =
      { exampleDevice with
        id := 102, pinfo := none, has_info := false, type := 3, name := CharPtr.uninit 2,
        vendor := CharPtr.NULL, driver_version := CharPtr.NULL, profile := CharPtr.NULL,
        version := CharPtr.NULL, extensions := CharPtr.NULL, platform := 0,
        preferred_vector_width_half := 0, host_unified_memory := 0,
        native_vector_width_char := 0, native_vector_width_short := 0,
        native_vector_width_int := 0, native_vector_width_long := 0,
        native_vector_width_float := 0, native_vector_width_double := 0,
        native_vector_width_half := 0, opencl_c_version := CharPtr.NULL } ∧
    (_cluGetDeviceInfo nameFailingDriver { trace := [], allocs := 0 }
        { clu_device.zero with id := 102 }).2.1.max_work_item_sizes = some [4, 5, 6] ∧
    (_cluGetDeviceInfo nameFailingDriver { trace := [], allocs := 0 }
        { clu_device.zero with id := 102 }).2.1 ≠ { clu_device.zero with id := 102 } := by
  decide

/-- C23, the code at failing inputs: with devices 102 and 103 reported for
the type and the hydration of 102 failing with -5, `cluGetDevices` returns
`CL_SUCCESS`, the code of the last lookup, with a `NULL` first handle; and
when the array of handles cannot be allocated it returns `CL_SUCCESS` with
nothing stored in `*devices`. -/
theorem cluGetDevices_success_with_null :
    (cluGetDevices gpuFailingDriver stateMixed 11 4 true true).map (fun r => r.1) =
      some { error := CL_SUCCESS, devices := some [none, some (0, 2)],
             num_devices := some 2 } ∧
    (cluGetDeviceByID gpuFailingDriver stateMixed 11 102).map (fun r => r.1) =
      some { handle := none, errcode := -5 } ∧
    (cluGetDevices secondAllocFailingDriver stateMixed 11 4 true true).map (fun r => r.1) =
      some { error := CL_SUCCESS, devices := none, num_devices := some 2 } := by
  decide

/-- C24, the code at failing inputs: `cluGetPlatformByName` with an empty or
`NULL` name as the first library call returns the first record with
`CL_SUCCESS` and does not hydrate it (`has_info` is false, the strings are
`NULL`); and with a driver that has no platform it returns `NULL` with
`CL_SUCCESS`. -/
theorem cluGetPlatformByName_empty_not_hydrated :
    cluGetPlatformByName exampleDriver State.init (some []) =
      some ({ handle := some 0, errcode := CL_SUCCESS }, stateEnumerated) ∧
    cluGetPlatformByName exampleDriver State.init none =
      some ({ handle := some 0, errcode := CL_SUCCESS }, stateEnumerated) ∧
    (stateEnumerated._platforms.bind (fun arr => arr[0]?)) =
      some { clu_platform.zero with id := 11 } ∧
    ({ clu_platform.zero with id := 11 } : clu_platform).has_info = false ∧
    cluGetPlatformByName noPlatformDriver State.init (some []) =
      some ({ handle := none, errcode := CL_SUCCESS }, stateNoPlatforms) ∧
    cluGetPlatformByName noPlatformDriver State.init none =
      some ({ handle := none, errcode := CL_SUCCESS }, stateNoPlatforms) := by
  decide

/-! ### The table of device types -/

/-- C26: for every type `t` from 0 to 15, `cluGetDeviceTypeString` returns a
string that begins with "default" exactly when bit 0 of `t` is set, contains
"CPU" exactly when bit 1 is set, "GPU" exactly when bit 2 is set and
"accelerator" exactly when bit 3 is set; for 0 it is "no device". -/
theorem cluGetDeviceTypeString_decomposes (t : Nat) (h : t < 16) :
    ∃ s, cluGetDeviceTypeString t = some s ∧
      ("default".toList <+: s.toList ↔ t % 2 = 1) ∧
      ("CPU".toList <:+: s.toList ↔ t / 2 % 2 = 1) ∧
      ("GPU".toList <:+: s.toList ↔ t / 4 % 2 = 1) ∧
      ("accelerator".toList <:+: s.toList ↔ t / 8 % 2 = 1) ∧
      (t = 0 → s = "no device") := by
  interval_cases t <;> exact ⟨_, rfl, by decide, by decide, by decide, by decide, by decide⟩

theorem cluGetDeviceTypeString_decomposes_witness :
    (6 : Nat) < 16 ∧
    ∃ s, cluGetDeviceTypeString 6 = some s ∧
      ("default".toList <+: s.toList ↔ 6 % 2 = 1) ∧
      ("CPU".toList <:+: s.toList ↔ 6 / 2 % 2 = 1) ∧
      ("GPU".toList <:+: s.toList ↔ 6 / 4 % 2 = 1) ∧
      ("accelerator".toList <:+: s.toList ↔ 6 / 8 % 2 = 1) ∧
      (6 = 0 → s = "no device") :=
  ⟨by decide, cluGetDeviceTypeString_decomposes 6 (by decide)⟩

/-! ### The work-item sizes of a hydrated device -/

theorem runSteps_cons_ok {α : Type} (f : World → α → Int × α × World)
    (rest : List (World → α → Int × α × World)) (w : World) (a : α)
    (h : (runSteps (f :: rest) w a).1 = 0) :
    (f w a).1 = 0 ∧ runSteps (f :: rest) w a = runSteps rest (f w a).2.2 (f w a).2.1 := by
  simp only [runSteps] at h ⊢
  by_cases hf : (f w a).1 ≠ 0
  · rw [if_pos hf] at h
    exact absurd h hf
  · rw [if_neg hf]
    exact ⟨not_not.mp hf, rfl⟩

theorem DEVICE_GET_INFO_ok (drv : Driver) (param : cl_device_info) (size : Nat)
    (set : clu_device → Nat → clu_device) (w : World) (a : clu_device)
    (h : (DEVICE_GET_INFO drv param size set w a).1 = 0) :
    DEVICE_GET_INFO drv param size set w a =
      (0, set a ((drv.clGetDeviceInfo w.trace a.id param size true).scalar % 2 ^ (8 * size)),
       w.log (Call.clGetDeviceInfo a.id param size true)) := by
  unfold DEVICE_GET_INFO at h ⊢
  simp only at h ⊢
  by_cases he : (drv.clGetDeviceInfo w.trace a.id param size true).error ≠ 0
  · rw [if_pos he] at h
    exact absurd h he
  · rw [if_neg he]

theorem DEVICE_GET_WORK_ITEM_SIZES_ok (drv : Driver) (w : World) (a : clu_device)
    (h : (DEVICE_GET_WORK_ITEM_SIZES drv w a).1 = 0) :
    DEVICE_GET_WORK_ITEM_SIZES drv w a =
      (0,
       { a with
         max_work_item_sizes := some
           (overwrite (List.replicate a.max_work_item_dimensions 0)
             (((drv.clGetDeviceInfo w.trace a.id cl_device_info.MAX_WORK_ITEM_SIZES
                 (8 * a.max_work_item_dimensions) true).array.take
                 a.max_work_item_dimensions).map (fun v => v % 2 ^ 64))) },
       w.bump.log (Call.clGetDeviceInfo a.id cl_device_info.MAX_WORK_ITEM_SIZES
         (8 * a.max_work_item_dimensions) true)) := by
  have hoom : CL_OUT_OF_HOST_MEMORY ≠ 0 := by decide
  unfold DEVICE_GET_WORK_ITEM_SIZES at h ⊢
  simp only at h ⊢
  by_cases ha : ¬ drv.alloc w.trace w.allocs (a.max_work_item_dimensions * 8) = true
  · rw [if_pos ha] at h
    exact absurd h hoom
  · rw [if_neg ha] at h ⊢
    by_cases he : (drv.clGetDeviceInfo w.bump.trace a.id cl_device_info.MAX_WORK_ITEM_SIZES
        (8 * a.max_work_item_dimensions) true).error ≠ 0
    · rw [if_pos he] at h
      exact absurd h he
    · rw [if_neg he]
      rfl

theorem deviceSteps_tail_keeps (drv : Driver) :
    ∀ f ∈ (deviceSteps drv).drop 6, ∀ w a,
      (fun d : clu_device => (d.max_work_item_dimensions, d.max_work_item_sizes)) (f w a).2.1 =
        (fun d : clu_device => (d.max_work_item_dimensions, d.max_work_item_sizes)) a := by
  unfold deviceSteps
  simp only [List.drop_succ_cons, List.drop_zero, List.forall_mem_cons, List.not_mem_nil,
    false_implies, implies_true, and_true]
  repeat' apply And.intro
  all_goals
    first
    | exact DEVICE_GET_INFO_keeps
        (fun d => (d.max_work_item_dimensions, d.max_work_item_sizes)) drv _ _ _
        (fun _ _ => rfl)
    | exact DEVICE_GET_STRING_keeps
        (fun d => (d.max_work_item_dimensions, d.max_work_item_sizes)) drv _ _
        (fun _ _ => rfl)

theorem overwrite_getElem? (n : Nat) (vals : List Nat) (j : Nat) (v : Nat) (hj : j < n)
    (hv : vals[j]? = some v) : (overwrite (List.replicate n 0) vals)[j]? = some v := by
  have hlt : j < vals.length := lt_length_of_getElem? hv
  unfold overwrite
  rw [List.length_replicate, List.getElem?_take_of_lt hj, List.getElem?_append_left hlt, hv]

theorem work_items_head (drv : Driver)
    (set1 set2 set3 set4 set5 : clu_device → Nat → clu_device)
    (tl : List (World → clu_device → Int × clu_device × World))
    (hid1 : ∀ a v, (set1 a v).id = a.id) (hid2 : ∀ a v, (set2 a v).id = a.id)
    (hid3 : ∀ a v, (set3 a v).id = a.id) (hid4 : ∀ a v, (set4 a v).id = a.id)
    (hid5 : ∀ a v, (set5 a v).id = a.id)
    (hset4 : ∀ a v, (set4 a v).max_work_item_dimensions = v)
    (hset5 : ∀ a v, (set5 a v).max_work_item_dimensions = a.max_work_item_dimensions)
    (w : World) (d : clu_device)
    (h : (runSteps
      (DEVICE_GET_INFO drv cl_device_info.TYPE 8 set1 ::
       DEVICE_GET_INFO drv cl_device_info.VENDOR_ID 4 set2 ::
       DEVICE_GET_INFO drv cl_device_info.MAX_COMPUTE_UNITS 4 set3 ::
       DEVICE_GET_INFO drv cl_device_info.MAX_WORK_ITEM_DIMENSIONS 4 set4 ::
       DEVICE_GET_INFO drv cl_device_info.MAX_WORK_GROUP_SIZE 8 set5 :: tl) w d).1 = 0) :
    ∃ a5 w5,
      runSteps
        (DEVICE_GET_INFO drv cl_device_info.TYPE 8 set1 ::
         DEVICE_GET_INFO drv cl_device_info.VENDOR_ID 4 set2 ::
         DEVICE_GET_INFO drv cl_device_info.MAX_COMPUTE_UNITS 4 set3 ::
         DEVICE_GET_INFO drv cl_device_info.MAX_WORK_ITEM_DIMENSIONS 4 set4 ::
         DEVICE_GET_INFO drv cl_device_info.MAX_WORK_GROUP_SIZE 8 set5 :: tl) w d =
        runSteps tl w5 a5 ∧
      a5.id = d.id ∧
      a5.max_work_item_dimensions = reportedDimensions drv w.trace d.id ∧
      w5.trace = w.trace ++ workItemPrelude d.id := by
  obtain ⟨h1, e1⟩ := runSteps_cons_ok _ _ w d h
  rw [e1] at h ⊢
  rw [DEVICE_GET_INFO_ok drv _ _ _ w d h1] at h ⊢
  simp only at h ⊢
  obtain ⟨h2, e2⟩ := runSteps_cons_ok _ _ _ _ h
  rw [e2] at h ⊢
  rw [DEVICE_GET_INFO_ok drv _ _ _ _ _ h2] at h ⊢
  simp only at h ⊢
  obtain ⟨h3, e3⟩ := runSteps_cons_ok _ _ _ _ h
  rw [e3] at h ⊢
  rw [DEVICE_GET_INFO_ok drv _ _ _ _ _ h3] at h ⊢
  simp only at h ⊢
  obtain ⟨h4, e4⟩ := runSteps_cons_ok _ _ _ _ h
  rw [e4] at h ⊢
  rw [DEVICE_GET_INFO_ok drv _ _ _ _ _ h4] at h ⊢
  simp only at h ⊢
  obtain ⟨h5, e5⟩ := runSteps_cons_ok _ _ _ _ h
  rw [e5] at h ⊢
  rw [DEVICE_GET_INFO_ok drv _ _ _ _ _ h5] at h ⊢
  simp only at h ⊢
  refine ⟨_, _, rfl, ?_, ?_, ?_⟩
  · simp only [hid1, hid2, hid3, hid4, hid5]
  · simp only [hid1, hid2, hid3, hid4, hid5, hset4, hset5, World.log, reportedDimensions,
      workItemPrelude, List.take_succ_cons, List.take_zero, List.append_assoc,
      List.singleton_append, List.cons_append, List.nil_append]
  · simp only [hid1, hid2, hid3, hid4, hid5, World.log, workItemPrelude, List.append_assoc,
      List.singleton_append, List.cons_append, List.nil_append]

theorem work_items_tail (drv : Driver)
    (rest : List (World → clu_device → Int × clu_device × World))
    (hkeep : ∀ f ∈ rest, ∀ w a,
      (fun d : clu_device => (d.max_work_item_dimensions, d.max_work_item_sizes)) (f w a).2.1 =
        (fun d : clu_device => (d.max_work_item_dimensions, d.max_work_item_sizes)) a)
    (hstop : ∀ f ∈ rest, StopsAtFailure drv f) (w : World) (a : clu_device)
    (h : (runSteps (DEVICE_GET_WORK_ITEM_SIZES drv :: rest) w a).1 = 0) :
    (runSteps (DEVICE_GET_WORK_ITEM_SIZES drv :: rest) w a).2.1.max_work_item_dimensions =
      a.max_work_item_dimensions ∧
    (runSteps (DEVICE_GET_WORK_ITEM_SIZES drv :: rest) w a).2.1.max_work_item_sizes =
      some (overwrite (List.replicate a.max_work_item_dimensions 0)
        (((drv.clGetDeviceInfo w.trace a.id cl_device_info.MAX_WORK_ITEM_SIZES
            (8 * a.max_work_item_dimensions) true).array.take
            a.max_work_item_dimensions).map (fun v => v % 2 ^ 64))) ∧
    ∃ cs, (runSteps (DEVICE_GET_WORK_ITEM_SIZES drv :: rest) w a).2.2.trace =
      w.trace ++ Call.clGetDeviceInfo a.id cl_device_info.MAX_WORK_ITEM_SIZES
        (8 * a.max_work_item_dimensions) true :: cs := by
  obtain ⟨h6, e6⟩ := runSteps_cons_ok _ _ _ _ h
  rw [e6, DEVICE_GET_WORK_ITEM_SIZES_ok drv _ _ h6]
  simp only
  have hk := runSteps_preserves
    (fun q : clu_device =>
      (q.max_work_item_dimensions, q.max_work_item_sizes) =
        (a.max_work_item_dimensions,
         some (overwrite (List.replicate a.max_work_item_dimensions 0)
          (((drv.clGetDeviceInfo w.trace a.id cl_device_info.MAX_WORK_ITEM_SIZES
              (8 * a.max_work_item_dimensions) true).array.take
              a.max_work_item_dimensions).map (fun v => v % 2 ^ 64)))))
    rest
    (fun f hf w' a' ha' => by
      have := hkeep f hf w' a'
      simp only at this ha' ⊢
      rw [this]
      exact ha')
    (w.bump.log (Call.clGetDeviceInfo a.id cl_device_info.MAX_WORK_ITEM_SIZES
      (8 * a.max_work_item_dimensions) true))
    { a with
      max_work_item_sizes := some
        (overwrite (List.replicate a.max_work_item_dimensions 0)
          (((drv.clGetDeviceInfo w.trace a.id cl_device_info.MAX_WORK_ITEM_SIZES
              (8 * a.max_work_item_dimensions) true).array.take
              a.max_work_item_dimensions).map (fun v => v % 2 ^ 64))) }
    rfl
  simp only [Prod.mk.injEq] at hk
  obtain ⟨cs, hcs, _⟩ := runSteps_stops drv rest hstop
    (w.bump.log (Call.clGetDeviceInfo a.id cl_device_info.MAX_WORK_ITEM_SIZES
      (8 * a.max_work_item_dimensions) true))
    { a with
      max_work_item_sizes := some
        (overwrite (List.replicate a.max_work_item_dimensions 0)
          (((drv.clGetDeviceInfo w.trace a.id cl_device_info.MAX_WORK_ITEM_SIZES
              (8 * a.max_work_item_dimensions) true).array.take
              a.max_work_item_dimensions).map (fun v => v % 2 ^ 64))) }
  refine ⟨hk.1, hk.2, cs, ?_⟩
  rw [hcs]
  simp only [World.log, World.bump, List.append_assoc, List.singleton_append]

theorem deviceSteps_work_items (drv : Driver) (w : World) (d : clu_device)
    (h : (runSteps (deviceSteps drv) w d).1 = 0) :
    (runSteps (deviceSteps drv) w d).2.1.max_work_item_dimensions =
      reportedDimensions drv w.trace d.id ∧
    (runSteps (deviceSteps drv) w d).2.1.max_work_item_sizes =
      some (overwrite (List.replicate (reportedDimensions drv w.trace d.id) 0)
        (((reportedSizes drv w.trace d.id (reportedDimensions drv w.trace d.id)).take
          (reportedDimensions drv w.trace d.id)).map (fun v => v % 2 ^ 64))) ∧
    ∃ cs, (runSteps (deviceSteps drv) w d).2.2.trace =
      w.trace ++ workItemPrelude d.id ++
        Call.clGetDeviceInfo d.id cl_device_info.MAX_WORK_ITEM_SIZES
          (8 * reportedDimensions drv w.trace d.id) true :: cs := by
  have hsplit : deviceSteps drv =
      DEVICE_GET_INFO drv cl_device_info.TYPE 8 (fun d v => { d with type := v }) ::
      DEVICE_GET_INFO drv cl_device_info.VENDOR_ID 4 (fun d v => { d with vendor_id := v }) ::
      DEVICE_GET_INFO drv cl_device_info.MAX_COMPUTE_UNITS 4
        (fun d v => { d with max_compute_units := v }) ::
      DEVICE_GET_INFO drv cl_device_info.MAX_WORK_ITEM_DIMENSIONS 4
        (fun d v => { d with max_work_item_dimensions := v }) ::
      DEVICE_GET_INFO drv cl_device_info.MAX_WORK_GROUP_SIZE 8
        (fun d v => { d with max_work_group_size := v }) ::
      DEVICE_GET_WORK_ITEM_SIZES drv :: (deviceSteps drv).drop 6 := rfl
  have hkeep := deviceSteps_tail_keeps drv
  have hstop : ∀ f ∈ (deviceSteps drv).drop 6, StopsAtFailure drv f :=
    fun f hf => (deviceSteps_good drv f (List.mem_of_mem_drop hf)).1
  generalize (deviceSteps drv).drop 6 = rest at hsplit hkeep hstop
  rw [hsplit] at h ⊢
  obtain ⟨a5, w5, e, hid, hdims, htrace⟩ := work_items_head drv
    (fun d v => { d with type := v }) (fun d v => { d with vendor_id := v })
    (fun d v => { d with max_compute_units := v })
    (fun d v => { d with max_work_item_dimensions := v })
    (fun d v => { d with max_work_group_size := v }) (DEVICE_GET_WORK_ITEM_SIZES drv :: rest)
    (fun _ _ => rfl) (fun _ _ => rfl) (fun _ _ => rfl) (fun _ _ => rfl) (fun _ _ => rfl)
    (fun _ _ => rfl) (fun _ _ => rfl) w d h
  rw [e] at h ⊢
  obtain ⟨t1, t2, cs, t3⟩ := work_items_tail drv rest hkeep hstop w5 a5 h
  rw [hdims, htrace, hid] at t2 t3
  rw [hdims] at t1
  exact ⟨t1, t2, cs, t3⟩

/-- C25: when the hydration of an unhydrated device record returns
`CL_SUCCESS`, the record has `max_work_item_dimensions` equal to the
dimensionality `n` the driver reported to that hydration, and
`max_work_item_sizes` is an array of exactly `n` entries whose entry `j` is
entry `j` of the driver's answer to the query for the sizes; that query is
made, right after the first five queries, with a buffer of `8 * n` bytes, room
for `n` entries of type `size_t`. -/
theorem work_item_sizes_spec (drv : Driver) (w : World) (dinfo : clu_device)
    (hinfo : dinfo.has_info = false)
    (hok : (_cluGetDeviceInfo drv w dinfo).1 = CL_SUCCESS) :
    (_cluGetDeviceInfo drv w dinfo).2.1.max_work_item_dimensions =
      reportedDimensions drv w.trace dinfo.id ∧
    (∃ sizes, (_cluGetDeviceInfo drv w dinfo).2.1.max_work_item_sizes = some sizes ∧
      sizes.length = reportedDimensions drv w.trace dinfo.id ∧
      ∀ j v, j < reportedDimensions drv w.trace dinfo.id →
        (reportedSizes drv w.trace dinfo.id (reportedDimensions drv w.trace dinfo.id))[j]? =
          some v →
        sizes[j]? = some (v % 2 ^ 64)) ∧
    ∃ cs, (_cluGetDeviceInfo drv w dinfo).2.2.trace =
      w.trace ++ workItemPrelude dinfo.id ++
        Call.clGetDeviceInfo dinfo.id cl_device_info.MAX_WORK_ITEM_SIZES
          (8 * reportedDimensions drv w.trace dinfo.id) true :: cs := by
  obtain ⟨h1, h2, _⟩ := _cluGetDeviceInfo_unhydrated drv w dinfo hinfo
  rw [h1] at hok
  obtain ⟨t1, t2, t3⟩ := deviceSteps_work_items drv w dinfo hok
  have hrec : (_cluGetDeviceInfo drv w dinfo).2.1 =
      { (runSteps (deviceSteps drv) w dinfo).2.1 with has_info := true } := by
    unfold _cluGetDeviceInfo
    have hp : ¬ (dinfo.has_info = true) := by rw [hinfo]; decide
    have hr : ¬ ((runSteps (deviceSteps drv) w dinfo).1 ≠ 0) := not_not.mpr hok
    rw [if_neg hp, if_neg hr]
  rw [hrec, h2]
  refine ⟨t1, ⟨_, t2, ?_, ?_⟩, t3⟩
  · rw [overwrite_length, List.length_replicate]
    rw [List.length_map, List.length_take, List.length_replicate]
    exact Nat.min_le_left _ _
  · intro j v hj hv
    apply overwrite_getElem? _ _ _ _ hj
    rw [List.getElem?_map, List.getElem?_take_of_lt hj, hv]
    rfl

theorem work_item_sizes_spec_witness :
    (({ clu_device.zero with id := 12 } : clu_device).has_info = false ∧
      (_cluGetDeviceInfo exampleDriver { trace := [], allocs := 0 }
        { clu_device.zero with id := 12 }).1 = CL_SUCCESS) ∧
    reportedDimensions exampleDriver [] 12 = 3 ∧
    reportedSizes exampleDriver [] 12 3 = [4, 5, 6] ∧
    (_cluGetDeviceInfo exampleDriver { trace := [], allocs := 0 }
      { clu_device.zero with id := 12 }).2.1.max_work_item_dimensions = 3 ∧
    (_cluGetDeviceInfo exampleDriver { trace := [], allocs := 0 }
      { clu_device.zero with id := 12 }).2.1.max_work_item_sizes = some [4, 5, 6] ∧
    (_cluGetDeviceInfo exampleDriver { trace := [], allocs := 0 }
        { clu_device.zero with id := 12 }).2.1.max_work_item_dimensions =
      reportedDimensions exampleDriver [] 12 :=
  ⟨by decide, by decide, by decide, by decide, by decide,
   (work_item_sizes_spec exampleDriver { trace := [], allocs := 0 }
     { clu_device.zero with id := 12 } (by decide) (by decide)).1⟩

/-! ### Lookups that report `CL_SUCCESS` -/

theorem hydrated_of_set (drv : Driver) (s : State) (arr : List clu_platform) (i : Nat)
    (curr : clu_platform) (hcurr : arr[i]? = some curr) (f : Found) (s' : State)
    (h : (if (_cluGetPlatformInfo drv s.world curr).1 ≠ 0 then
            some (({ handle := none, errcode := (_cluGetPlatformInfo drv s.world curr).1 } : Found),
              ({ s with
                 _platforms := some (arr.set i (_cluGetPlatformInfo drv s.world curr).2.1)
                 world := (_cluGetPlatformInfo drv s.world curr).2.2 } : State))
          else
            some ({ handle := some i, errcode := (_cluGetPlatformInfo drv s.world curr).1 },
              { s with
                _platforms := some (arr.set i (_cluGetPlatformInfo drv s.world curr).2.1)
                world := (_cluGetPlatformInfo drv s.world curr).2.2 })) = some (f, s'))
    (he : f.errcode = 0) : f.hydrated s' := by
  by_cases hr : (_cluGetPlatformInfo drv s.world curr).1 ≠ 0
  · rw [if_pos hr] at h
    simp only [Option.some.injEq, Prod.mk.injEq] at h
    rw [← h.1] at he
    exact absurd he hr
  · rw [if_neg hr] at h
    simp only [Option.some.injEq, Prod.mk.injEq] at h
    rw [← h.1, ← h.2]
    exact ⟨i, _, _, rfl, rfl, getElem?_set_self_of_getElem? hcurr,
      _cluGetPlatformInfo_has_info drv _ _ (not_not.mp hr)⟩

theorem cluGetPlatformByID_loop_hydrated (drv : Driver) (s : State) (id : Nat) (fuel : Nat) :
    ∀ i f s', cluGetPlatformByID_loop drv s id fuel i = some (f, s') → f.errcode = 0 →
      f.hydrated s' := by
  induction fuel with
  | zero =>
    intro i f s' h he
    simp only [cluGetPlatformByID_loop, Option.some.injEq, Prod.mk.injEq] at h
    rw [← h.1] at he
    exact absurd he (by decide)
  | succ fuel ih =>
    intro i f s' h he
    simp only [cluGetPlatformByID_loop] at h
    cases hp : s._platforms with
    | none =>
      rw [hp] at h
      cases h
    | some arr =>
      rw [hp] at h
      simp only at h
      cases hc : arr[i]? with
      | none =>
        rw [hc] at h
        cases h
      | some curr =>
        rw [hc] at h
        simp only at h
        by_cases hid : curr.id = id
        · rw [if_pos hid] at h
          exact hydrated_of_set drv s arr i curr hc f s' h he
        · rw [if_neg hid] at h
          exact ih (i + 1) f s' h he

theorem cluGetPlatformByName_loop_hydrated (drv : Driver) (s : State) (name : List Char)
    (len : Nat) (fuel : Nat) :
    ∀ i f s', cluGetPlatformByName_loop drv s name len fuel i = some (f, s') → f.errcode = 0 →
      f.hydrated s' := by
  induction fuel with
  | zero =>
    intro i f s' h he
    simp only [cluGetPlatformByName_loop, Option.some.injEq, Prod.mk.injEq] at h
    rw [← h.1] at he
    exact absurd he (by decide)
  | succ fuel ih =>
    intro i f s' h he
    simp only [cluGetPlatformByName_loop] at h
    cases hp : s._platforms with
    | none =>
      rw [hp] at h
      cases h
    | some arr =>
      rw [hp] at h
      simp only at h
      cases hc : arr[i]? with
      | none =>
        rw [hc] at h
        cases h
      | some curr =>
        rw [hc] at h
        simp only at h
        cases hn : curr.name with
        | NULL =>
          rw [hn] at h
          cases h
        | uninit k =>
          rw [hn] at h
          cases h
        | text cname =>
          rw [hn] at h
          simp only at h
          by_cases hm : strncasecmp name cname len = 0
          · rw [if_pos hm] at h
            exact hydrated_of_set drv s arr i curr hc f s' h he
          · rw [if_neg hm] at h
            exact ih (i + 1) f s' h he

theorem cluGetPlatformByID_hydrated (drv : Driver) (s : State) (id : Nat) (f : Found)
    (s' : State) (h : cluGetPlatformByID drv s id = some (f, s')) (he : f.errcode = 0) :
    f.hydrated s' := by
  unfold cluGetPlatformByID at h
  cases hi : _cluInitPlatformCache drv s with
  | none =>
    rw [hi] at h
    cases h
  | some r =>
    obtain ⟨error, s1⟩ := r
    rw [hi] at h
    simp only at h
    by_cases hr : error ≠ 0
    · rw [if_pos hr] at h
      simp only [Option.some.injEq, Prod.mk.injEq] at h
      rw [← h.1] at he
      exact absurd he hr
    · rw [if_neg hr] at h
      exact cluGetPlatformByID_loop_hydrated drv s1 id _ 0 f s' h he

theorem cluGetPlatformByName_hydrated (drv : Driver) (s : State) (c : Char) (cs : List Char)
    (f : Found) (s' : State) (h : cluGetPlatformByName drv s (some (c :: cs)) = some (f, s'))
    (he : f.errcode = 0) : f.hydrated s' := by
  unfold cluGetPlatformByName at h
  cases hi : _cluInitPlatformCache drv s with
  | none =>
    rw [hi] at h
    cases h
  | some r =>
    obtain ⟨error, s1⟩ := r
    rw [hi] at h
    simp only at h
    by_cases hr : error ≠ 0
    · rw [if_pos hr] at h
      simp only [Option.some.injEq, Prod.mk.injEq] at h
      rw [← h.1] at he
      exact absurd he hr
    · rw [if_neg hr] at h
      exact cluGetPlatformByName_loop_hydrated drv s1 _ _ _ 0 f s' h he

theorem cluGetPlatformByNumber_hydrated (drv : Driver) (s : State) (num : Nat) (f : Found)
    (s' : State) (h : cluGetPlatformByNumber drv s num = some (f, s')) (he : f.errcode = 0) :
    f.hydrated s' := by
  unfold cluGetPlatformByNumber at h
  cases hi : _cluInitPlatformCache drv s with
  | none =>
    rw [hi] at h
    cases h
  | some r =>
    obtain ⟨error, s1⟩ := r
    rw [hi] at h
    simp only at h
    by_cases hr : error ≠ 0
    · rw [if_pos hr] at h
      simp only [Option.some.injEq, Prod.mk.injEq] at h
      rw [← h.1] at he
      exact absurd he hr
    · rw [if_neg hr] at h
      by_cases hlt : num < s1._num_platforms
      · rw [if_pos hlt] at h
        cases hp : s1._platforms with
        | none =>
          rw [hp] at h
          cases h
        | some arr =>
          rw [hp] at h
          simp only at h
          cases hc : arr[num]? with
          | none =>
            rw [hc] at h
            cases h
          | some curr =>
            rw [hc] at h
            exact hydrated_of_set drv s1 arr num curr hc f s' h he
      · rw [if_neg hlt] at h
        simp only [Option.some.injEq, Prod.mk.injEq] at h
        rw [← h.1] at he
        exact absurd he (by decide)

theorem cluGetPlatformFromArg_hydrated (drv : Driver) (s : State)
    (name_or_num : Option (List Char)) (f : Found) (s' : State)
    (h : cluGetPlatformFromArg drv s name_or_num = some (f, s')) (he : f.errcode = 0) :
    f.hydrated s' := by
  unfold cluGetPlatformFromArg at h
  cases name_or_num with
  | none => cases h
  | some str =>
    simp only at h
    by_cases hend : (strtoul str).2 ≠ []
    · rw [if_pos hend] at h
      cases str with
      | nil => exact absurd rfl hend
      | cons c cs => exact cluGetPlatformByName_hydrated drv s c cs f s' h he
    · rw [if_neg hend] at h
      exact cluGetPlatformByNumber_hydrated drv s _ f s' h he

theorem cluGetDeviceByID_loop_hydrated (drv : Driver) (pinfo id : Nat) (fuel : Nat) :
    ∀ (s : State) i f s', cluGetDeviceByID_loop drv s pinfo id fuel i = some (f, s') →
      f.errcode = 0 → f.hydrated s' := by
  induction fuel with
  | zero =>
    intro s i f s' h he
    simp only [cluGetDeviceByID_loop, Option.some.injEq, Prod.mk.injEq] at h
    rw [← h.1] at he
    exact absurd he (by decide)
  | succ fuel ih =>
    intro s i f s' h he
    simp only [cluGetDeviceByID_loop] at h
    cases hp : s._platforms with
    | none =>
      rw [hp] at h
      cases h
    | some arr =>
      rw [hp] at h
      simp only at h
      cases hc : arr[pinfo]? with
      | none =>
        rw [hc] at h
        cases h
      | some p =>
        rw [hc] at h
        simp only at h
        cases hd : p.devices with
        | none =>
          rw [hd] at h
          cases h
        | some devs =>
          rw [hd] at h
          simp only at h
          cases hdev : devs[i]? with
          | none =>
            rw [hdev] at h
            cases h
          | some dev =>
            rw [hdev] at h
            simp only at h
            by_cases hid : dev.id = id
            · rw [if_pos hid] at h
              by_cases hr : (_cluGetDeviceInfo drv s.world dev).1 ≠ 0
              · rw [if_pos hr] at h
                simp only [Option.some.injEq, Prod.mk.injEq] at h
                rw [← h.1] at he
                exact absurd he hr
              · rw [if_neg hr] at h
                simp only [Option.some.injEq, Prod.mk.injEq] at h
                rw [← h.1, ← h.2]
                exact ⟨pinfo, i, _, _, _, _, rfl, rfl, getElem?_set_self_of_getElem? hc, rfl,
                  getElem?_set_self_of_getElem? hdev,
                  _cluGetDeviceInfo_has_info drv _ _ (not_not.mp hr)⟩
            · rw [if_neg hid] at h
              exact ih s (i + 1) f s' h he

theorem cluGetDeviceByID_hydrated (drv : Driver) (s : State) (platform id : Nat)
    (f : FoundDevice) (s' : State) (h : cluGetDeviceByID drv s platform id = some (f, s'))
    (he : f.errcode = 0) : f.hydrated s' := by
  unfold cluGetDeviceByID at h
  cases hpl : cluGetPlatformByID drv s platform with
  | none =>
    rw [hpl] at h
    cases h
  | some r =>
    obtain ⟨fp, s1⟩ := r
    rw [hpl] at h
    simp only at h
    by_cases hr : fp.errcode ≠ 0
    · rw [if_pos hr] at h
      simp only [Option.some.injEq, Prod.mk.injEq] at h
      rw [← h.1] at he
      exact absurd he hr
    · rw [if_neg hr] at h
      cases hh : fp.handle with
      | none =>
        rw [hh] at h
        cases h
      | some pinfo =>
        rw [hh] at h
        simp only at h
        cases hi : _cluInitDeviceCache drv s1 pinfo none 0 with
        | none =>
          rw [hi] at h
          cases h
        | some r2 =>
          obtain ⟨e, s2⟩ := r2
          rw [hi] at h
          simp only at h
          cases hp : s2._platforms with
          | none =>
            rw [hp] at h
            cases h
          | some arr =>
            rw [hp] at h
            simp only at h
            cases hc : arr[pinfo]? with
            | none =>
              rw [hc] at h
              cases h
            | some p =>
              rw [hc] at h
              exact cluGetDeviceByID_loop_hydrated drv pinfo id _ s2 0 f s' h he

/-- The lookups apart from the empty-name path, in every state and for every
driver and argument: whenever `cluGetPlatformByID`, `cluGetPlatformByNumber`,
`cluGetPlatformFromArg`, `cluGetDeviceByID`, or `cluGetPlatformByName` with a
name that is not empty, returns with the code `CL_SUCCESS`, the handle is not
`NULL` and points to a record with `has_info` set. -/
theorem lookups_success_hydrated (drv : Driver) (s : State) :
    (∀ id f s', cluGetPlatformByID drv s id = some (f, s') → f.errcode = CL_SUCCESS →
      f.hydrated s') ∧
    (∀ c cs f s', cluGetPlatformByName drv s (some (c :: cs)) = some (f, s') →
      f.errcode = CL_SUCCESS → f.hydrated s') ∧
    (∀ num f s', cluGetPlatformByNumber drv s num = some (f, s') → f.errcode = CL_SUCCESS →
      f.hydrated s') ∧
    (∀ arg f s', cluGetPlatformFromArg drv s arg = some (f, s') → f.errcode = CL_SUCCESS →
      f.hydrated s') ∧
    (∀ platform id f s', cluGetDeviceByID drv s platform id = some (f, s') →
      f.errcode = CL_SUCCESS → f.hydrated s') :=
  ⟨cluGetPlatformByID_hydrated drv s, cluGetPlatformByName_hydrated drv s,
   cluGetPlatformByNumber_hydrated drv s, cluGetPlatformFromArg_hydrated drv s,
   cluGetDeviceByID_hydrated drv s⟩

end CLU
